import Mathlib

/-!
Geofenced attendance marking (uonsda backend, attendance.controller.js)

A shallow embedding of `backend/controllers/attendance.controller.js`:
the service scheduler, the location registry, the in-memory device map, the
`markAttendance` request handler, the distance function and the member
history, followed by the properties proved about them.

Modelling conventions

* Prisma tables are lists of rows in insertion order; `findFirst` and
  `findUnique` return the first matching row, `create` appends a row,
  `updateMany` maps over every row, `update` and `delete` with a unique
  `where` touch the first matching row.
* The JavaScript `Map` named `deviceAttendance` is an association list with
  the `has` / `get` / `set` operations of `Map`.
* A request is handled at one instant `utcMs` (milliseconds since the epoch)
  on a server whose local time is `utcMs + tzOffsetMin * 60000`
  (a fixed offset, no daylight-saving change).
* JSON numbers are rationals; the floating-point Haversine function is a
  parameter `calculateDistance` of the handler. The source function is read
  twice further down: `calculateDistance` over the real numbers, without
  rounding, for the identities of the formula, and `calculateDistanceDouble`
  over binary64 values, with the rounding of every operation, for what the
  code returns.
-/

namespace Uonsda

/-! ## Time -/

/-- Milliseconds in one day. -/
def msPerDay : Int := 86400000

/-- Milliseconds in one hour. -/
def msPerHour : Int := 3600000

/-- The value of `new Date()` together with the time zone of the server process. -/
structure Clock where
  /-- Milliseconds since 1970-01-01T00:00:00Z. -/
  utcMs : Int
  /-- Local time minus UTC, in minutes (for Nairobi: 180). -/
  tzOffsetMin : Int
  deriving DecidableEq, Repr

namespace Clock

/-- Local wall-clock time in milliseconds since the local epoch. -/
def localMs (c : Clock) : Int := c.utcMs + c.tzOffsetMin * 60000

/-- Number of the local calendar day (days since 1970-01-01, local time). -/
def localDay (c : Clock) : Int := c.localMs / msPerDay

/-- Number of the UTC calendar day (days since 1970-01-01, UTC). -/
def utcDay (c : Clock) : Int := c.utcMs / msPerDay

/-- `Date.prototype.getDay`: 0 = Sunday, ..., 6 = Saturday, in local time. -/
def getDay (c : Clock) : Nat := ((c.localDay + 4) % 7).toNat

/-- `Date.prototype.getHours`: 0..23, in local time. -/
def getHours (c : Clock) : Nat := ((c.localMs % msPerDay) / msPerHour).toNat

/-- The instant of `d.setHours(0, 0, 0, 0)`: local midnight of the current local day. -/
def todayStart (c : Clock) : Int := c.utcMs - c.localMs % msPerDay

/-- The instant of `tomorrow.setDate(tomorrow.getDate() + 1)`: the next local midnight. -/
def tomorrow (c : Clock) : Int := c.todayStart + msPerDay

end Clock

/-- Local calendar day of an arbitrary instant on a server with the given offset. -/
def localDayOf (tzOffsetMin : Int) (instant : Int) : Int :=
  (instant + tzOffsetMin * 60000) / msPerDay

/-! ### ISO date of an instant (`toISOString().split('T')[0]`) -/

/-- Decimal digit character of a number below ten. -/
def digitChar (d : Nat) : Char := Char.ofNat (48 + d % 10)

/-- The `width` least significant decimal digits of `n`, most significant first. -/
def padDigits : Nat → Nat → List Char
  | 0, _ => []
  | width + 1, n => padDigits width (n / 10) ++ [digitChar n]

/-- Proleptic Gregorian (year, month, day) of a day number counted from 1970-01-01. -/
def civilFromDays (days : Int) : Int × Nat × Nat :=
  let z := days + 719468
  let era := z / 146097
  let doe := z - era * 146097
  let yoe := (doe - doe / 1460 + doe / 36524 - doe / 146096) / 365
  let doy := doe - (365 * yoe + yoe / 4 - yoe / 100)
  let mp := (5 * doy + 2) / 153
  let d := doy - (153 * mp + 2) / 5 + 1
  let m := if mp < 10 then mp + 3 else mp - 9
  let y := yoe + era * 400 + (if m ≤ 2 then 1 else 0)
  (y, m.toNat, d.toNat)

/-- Year part of an ISO 8601 date as JavaScript prints it: four digits for the years
0..9999, otherwise a sign and six digits. -/
def isoYear (y : Int) : List Char :=
  if 0 ≤ y ∧ y ≤ 9999 then padDigits 4 y.toNat
  else if y < 0 then '-' :: padDigits 6 y.natAbs
  else '+' :: padDigits 6 y.natAbs

/-- The date part of `toISOString()` for a UTC day number. -/
def isoDateOfDay (days : Int) : String :=
  let ymd := civilFromDays days
  String.mk (isoYear ymd.1 ++ ['-'] ++ padDigits 2 ymd.2.1 ++ ['-'] ++ padDigits 2 ymd.2.2)

/-- Embeds `new Date().toISOString().split('T')[0]`: the UTC calendar date. -/
def Clock.isoDate (c : Clock) : String := isoDateOfDay c.utcDay

/-! ## ServiceScheduler -/

/-- The three service types of the Prisma enum. -/
inductive ServiceType
  | SABBATH_MORNING
  | WEDNESDAY_VESPERS
  | FRIDAY_VESPERS
  deriving DecidableEq, Repr

/-- The string a service type is written as. -/
def ServiceType.name : ServiceType → String
  | .SABBATH_MORNING => "SABBATH_MORNING"
  | .WEDNESDAY_VESPERS => "WEDNESDAY_VESPERS"
  | .FRIDAY_VESPERS => "FRIDAY_VESPERS"

/-- Result object of `getCurrentServiceInfo`; `none` is JavaScript `null`. -/
structure ServiceInfo where
  serviceType : Option ServiceType
  isServiceTime : Bool
  deriving DecidableEq, Repr

/-- Embeds `getCurrentServiceInfo`, as a function of `now.getDay()` and `now.getHours()`. -/
def getCurrentServiceInfo (day hour : Nat) : ServiceInfo :=
  if day = 6 ∧ hour ≥ 8 ∧ hour < 17 then
    { serviceType := some .SABBATH_MORNING, isServiceTime := true }
  else if day = 3 ∧ hour ≥ 17 ∧ hour < 20 then
    { serviceType := some .WEDNESDAY_VESPERS, isServiceTime := true }
  else if day = 5 ∧ hour ≥ 17 ∧ hour < 20 then
    { serviceType := some .FRIDAY_VESPERS, isServiceTime := true }
  else
    { serviceType := none, isServiceTime := false }

/-! ## Data model (Prisma rows) -/

/-- Row of the `member` table, with the columns the attendance handler reads. -/
structure Member where
  id : String
  firstName : String
  lastName : String
  email : String
  deriving DecidableEq, Repr

/-- Row of the `churchLocation` table. -/
structure ChurchLocation where
  id : String
  name : String
  description : Option String
  latitude : ℚ
  longitude : ℚ
  radius : Int
  address : Option String
  isActiveSabbath : Bool
  isActiveWednesday : Bool
  isActiveFriday : Bool
  isSaved : Bool
  createdBy : Option String
  deriving DecidableEq, Repr

/-- Row of the `attendance` table. `attendedAt` is an instant in milliseconds
since the epoch. The generated `id` column is never read by the handlers and is
left out. -/
structure Attendance where
  memberId : String
  serviceType : ServiceType
  latitude : ℚ
  longitude : ℚ
  locationName : String
  isVerified : Bool
  attendedAt : Int
  deriving DecidableEq, Repr

/-- Modelled from the spec: the Prisma schema is not among the sources, so the
column default of `attendedAt` is taken from the data model of the spec, where
the record carries the timestamp at which it was recorded: the instant of the
request. -/
def defaultAttendedAt (now : Clock) : Int := now.utcMs

/-! ## The device map (`deviceAttendance`) -/

/-- The module-level `Map` from device key to email, as an association list. -/
abbrev DeviceMap := List (String × String)

/-- `Map.prototype.has`. -/
def DeviceMap.has (m : DeviceMap) (key : String) : Bool :=
  m.any (fun p => p.1 == key)

/-- `Map.prototype.get`; `none` is `undefined`. -/
def DeviceMap.get (m : DeviceMap) (key : String) : Option String :=
  (m.find? (fun p => p.1 == key)).map (fun p => p.2)

/-- `Map.prototype.set`: overwrite the value of an existing key in place,
otherwise append a new entry. -/
def DeviceMap.set (m : DeviceMap) (key value : String) : DeviceMap :=
  if DeviceMap.has m key then m.map (fun p => if p.1 == key then (key, value) else p)
  else m ++ [(key, value)]

/-! ## State, requests and responses -/

/-- The database tables the controller touches and the in-memory device map. -/
structure State where
  members : List Member
  locations : List ChurchLocation
  attendances : List Attendance
  deviceAttendance : DeviceMap
  deriving DecidableEq, Repr

/-- Body of `POST /api/attendance/mark`. A field that is absent from the body
is `none`. -/
structure MarkRequest where
  email : Option String
  latitude : Option ℚ
  longitude : Option ℚ
  deviceId : Option String
  deriving DecidableEq, Repr

/-- JavaScript truthiness of an optional string: absent and empty are falsy. -/
def truthyString : Option String → Bool
  | some s => s != ""
  | none => false

/-- JavaScript truthiness of an optional finite number: absent and zero are falsy. -/
def truthyNumber : Option ℚ → Bool
  | some q => q != 0
  | none => false

/-- The `serviceSchedule` object of the 403 response. -/
structure ServiceSchedule where
  sabbath : String
  wednesdayVespers : String
  fridayVespers : String
  deriving DecidableEq, Repr

/-- The schedule literal sent with the out-of-window response. -/
def serviceSchedule : ServiceSchedule :=
  { sabbath := "Saturday 8:00 AM - 5:00 PM"
    wednesdayVespers := "Wednesday 5:00 PM - 8:00 PM"
    fridayVespers := "Friday 5:00 PM - 8:00 PM" }

/-- The answers of `markAttendance`, one constructor per `res.status(..).json(..)`. -/
inductive Response
  /-- 400, a required field is falsy. -/
  | missingFields
  /-- 403, no service is running; carries the schedule. -/
  | outsideServiceWindow (schedule : ServiceSchedule)
  /-- 429, the device key is bound to another email. -/
  | deviceAlreadyUsed
  /-- 404, no member has the email. -/
  | memberNotFound
  /-- 500, no location is active for the service. -/
  | noActiveLocation
  /-- 403, too far away; carries the radius and name of the location and
  `Math.round(distance)`. -/
  | outOfRange (radius : Int) (locationName : String) (yourDistance : Int)
  /-- 400, a record of today exists; carries its `attendedAt` and `locationName`. -/
  | alreadyMarked (attendedAt : Int) (location : String)
  /-- 201, the created record with the selected member columns. -/
  | success (data : Attendance) (member : Member)
  /-- 500 of the `catch` block. -/
  | failed
  deriving DecidableEq, Repr

/-- HTTP status code of a response. -/
def Response.status : Response → Nat
  | .missingFields => 400
  | .outsideServiceWindow _ => 403
  | .deviceAlreadyUsed => 429
  | .memberNotFound => 404
  | .noActiveLocation => 500
  | .outOfRange _ _ _ => 403
  | .alreadyMarked _ _ => 400
  | .success _ _ => 201
  | .failed => 500

/-- The `success` field of the JSON body. -/
def Response.isSuccess : Response → Bool
  | .success _ _ => true
  | _ => false

/-! ## LocationRegistry: lookup -/

/-- Embeds `getActiveLocationForService`. The `switch` has no default case, so
for a value that is none of the three names (here `none`, JavaScript `null`)
the `where` clause stays empty and `findFirst` returns the first row. -/
def getActiveLocationForService (locations : List ChurchLocation) :
    Option ServiceType → Option ChurchLocation
  | some .SABBATH_MORNING => locations.find? (fun l => l.isActiveSabbath)
  | some .WEDNESDAY_VESPERS => locations.find? (fun l => l.isActiveWednesday)
  | some .FRIDAY_VESPERS => locations.find? (fun l => l.isActiveFriday)
  | none => locations.head?

/-! ## AttendanceLedger: `markAttendance` -/

/-- String interpolation of the service type into the device key. -/
def serviceTypeString : Option ServiceType → String
  | some t => t.name
  | none => "null"

/-- The template literal that builds the device key from the device id, the
date and the service type. -/
def deviceKey (deviceId today : String) (serviceType : Option ServiceType) : String :=
  deviceId ++ "-" ++ today ++ "-" ++ serviceTypeString serviceType

/-- `Math.round` on a finite number: nearest integer, halves rounded up. -/
def mathRound (x : ℚ) : Int := Int.floor (x + 1 / 2)

/-- The `where` clause of the duplicate query: same member, same service,
`attendedAt` in `[today_start, tomorrow)`. -/
def sameDayRecord (now : Clock) (memberId : String) (serviceType : ServiceType)
    (a : Attendance) : Bool :=
  a.memberId == memberId && a.serviceType == serviceType &&
    decide (now.todayStart ≤ a.attendedAt) && decide (a.attendedAt < now.tomorrow)

/-- The validation condition `!email || !latitude || !longitude || !deviceId`. -/
def missingRequired (req : MarkRequest) : Bool :=
  !truthyString req.email || !truthyNumber req.latitude ||
    !truthyNumber req.longitude || !truthyString req.deviceId

/-- The device condition: `deviceAttendance.has(deviceKey)` and the stored
email `!==` the submitted one. -/
def usedByOther (m : DeviceMap) (key email : String) : Bool :=
  DeviceMap.has m key && DeviceMap.get m key != some email

/-- The row that `prisma.attendance.create` stores for the `data` object of
`markAttendance`. -/
def newAttendance (now : Clock) (memberId : String) (serviceType : ServiceType)
    (latitude longitude : ℚ) (locationName : String) : Attendance :=
  { memberId := memberId
    serviceType := serviceType
    latitude := latitude
    longitude := longitude
    locationName := locationName
    isVerified := true
    attendedAt := defaultAttendedAt now }

/-- Embeds `markAttendance`. Returns the state after the request and the response. -/
def markAttendance (calculateDistance : ℚ → ℚ → ℚ → ℚ → ℚ) (now : Clock)
    (st : State) (req : MarkRequest) : State × Response :=
  -- Validate required fields
  if missingRequired req then
    (st, .missingFields)
  else
    let email := req.email.getD ""
    let latitude := req.latitude.getD 0
    let longitude := req.longitude.getD 0
    let deviceId := req.deviceId.getD ""
    -- Check if it is service time
    let info := getCurrentServiceInfo now.getDay now.getHours
    if !info.isServiceTime then
      (st, .outsideServiceWindow serviceSchedule)
    else
      -- Device fraud prevention
      let today := now.isoDate
      let key := deviceKey deviceId today info.serviceType
      if usedByOther st.deviceAttendance key email then
        (st, .deviceAlreadyUsed)
      else
        -- Find member by email
        match st.members.find? (fun m => m.email == email) with
        | none => (st, .memberNotFound)
        | some member =>
          -- Get active church location for this service
          match getActiveLocationForService st.locations info.serviceType with
          | none => (st, .noActiveLocation)
          | some churchLocation =>
            let distance := calculateDistance latitude longitude
              churchLocation.latitude churchLocation.longitude
            -- Check if within acceptable radius
            if distance > (churchLocation.radius : ℚ) then
              (st, .outOfRange churchLocation.radius churchLocation.name (mathRound distance))
            else
              match info.serviceType with
              -- Prisma refuses `serviceType: null` in a `where` clause: `catch` answers 500
              | none => (st, .failed)
              | some serviceType =>
                -- Check if already marked attendance today for this service
                match st.attendances.find? (sameDayRecord now member.id serviceType) with
                | some existingAttendance =>
                  (st, .alreadyMarked existingAttendance.attendedAt
                    existingAttendance.locationName)
                | none =>
                  -- Create attendance record
                  let attendance := newAttendance now member.id serviceType latitude longitude
                    churchLocation.name
                  -- Store device fingerprint to prevent reuse
                  ({ st with
                      attendances := st.attendances ++ [attendance]
                      deviceAttendance := DeviceMap.set st.deviceAttendance key email },
                    .success attendance member)

/-! ## LocationRegistry: administration -/

/-- A scalar of a JSON request body: a number or a string. -/
inductive JsScalar
  | num (q : ℚ)
  | str (s : String)
  deriving DecidableEq, Repr

/-- JavaScript truthiness of an optional scalar. -/
def truthyScalar : Option JsScalar → Bool
  | some (.num q) => q != 0
  | some (.str s) => s != ""
  | none => false

/-- Body of the create and update requests. An absent field (`undefined`) is
`none`; for `description` and `address` the inner `none` is JSON `null`. -/
structure LocationBody where
  name : Option String
  description : Option (Option String)
  latitude : Option JsScalar
  longitude : Option JsScalar
  radius : Option JsScalar
  address : Option (Option String)
  deriving DecidableEq, Repr

/-- The answers of the four administrative handlers. -/
inductive LocationResponse
  /-- 400 of `createLocation`: name, latitude or longitude is falsy. -/
  | missingFields
  /-- 400 of `createLocation`: the name is taken. -/
  | duplicateName
  /-- 201 of `createLocation`. -/
  | created (data : ChurchLocation)
  /-- 400 of `setActiveLocation`: `services` is missing, not an array or empty. -/
  | invalidServices
  /-- 404 of `setActiveLocation`. -/
  | notFound
  /-- 200 of `setActiveLocation`. -/
  | activated (data : ChurchLocation)
  /-- 200 of `updateLocation`. -/
  | updated (data : ChurchLocation)
  /-- 400 of `deleteLocation`: a flag of the location is set. -/
  | locationInUse
  /-- 200 of `deleteLocation`. -/
  | deleted
  /-- 500 of the `catch` block (an exception thrown by Prisma). -/
  | failed
  deriving DecidableEq, Repr

/-- Prisma `update` with a unique `where`: rewrite the first row that matches. -/
def updateWhere {α : Type} (p : α → Bool) (f : α → α) : List α → List α
  | [] => []
  | x :: xs => if p x then f x :: xs else x :: updateWhere p f xs

/-- Embeds `createLocation`. `parseFloat` and `parseInt` are the JavaScript
built-ins (`none` is `NaN`, which Prisma refuses); `newId` is the identifier the
database gives the row and `adminId` is `req.admin.id`. -/
def createLocation (parseFloat : JsScalar → Option ℚ) (parseInt : JsScalar → Option Int)
    (newId adminId : String) (locations : List ChurchLocation) (body : LocationBody) :
    List ChurchLocation × LocationResponse :=
  if !truthyString body.name || !truthyScalar body.latitude ||
      !truthyScalar body.longitude then
    (locations, .missingFields)
  else
    let name := body.name.getD ""
    -- Check if location name already exists
    match locations.find? (fun l => l.name == name) with
    | some _ => (locations, .duplicateName)
    | none =>
      let radius : Option Int :=
        if truthyScalar body.radius then body.radius.bind parseInt else some 100
      match body.latitude.bind parseFloat, body.longitude.bind parseFloat, radius with
      | some latitude, some longitude, some r =>
        let location : ChurchLocation :=
          { id := newId
            name := name
            description := body.description.join
            latitude := latitude
            longitude := longitude
            radius := r
            address := body.address.join
            isActiveSabbath := false
            isActiveWednesday := false
            isActiveFriday := false
            isSaved := true
            createdBy := some adminId }
        (locations ++ [location], .created location)
      | _, _, _ => (locations, .failed)

/-- The `updateMany` / `update` part of `setActiveLocation` on the table: for
each listed service clear the flag on every row, then set the flags of the
listed services on the row with the given id. -/
def activateFlags (id : String) (services : List String)
    (locations : List ChurchLocation) : List ChurchLocation :=
  let sab := services.contains "SABBATH_MORNING"
  let wed := services.contains "WEDNESDAY_VESPERS"
  let fri := services.contains "FRIDAY_VESPERS"
  let l1 := if sab then locations.map (fun l => { l with isActiveSabbath := false })
    else locations
  let l2 := if wed then l1.map (fun l => { l with isActiveWednesday := false }) else l1
  let l3 := if fri then l2.map (fun l => { l with isActiveFriday := false }) else l2
  updateWhere (fun l => l.id == id)
    (fun l => { l with
      isActiveSabbath := if sab then true else l.isActiveSabbath
      isActiveWednesday := if wed then true else l.isActiveWednesday
      isActiveFriday := if fri then true else l.isActiveFriday }) l3

/-- Embeds `setActiveLocation`. `services` is `none` when the body field is
missing or is not an array; the items of the array are compared with the three
service names only, so they are modelled as strings. -/
def setActiveLocation (locations : List ChurchLocation) (id : String)
    (services : Option (List String)) : List ChurchLocation × LocationResponse :=
  match services with
  | none => (locations, .invalidServices)
  | some [] => (locations, .invalidServices)
  | some (s :: rest) =>
    -- Check if location exists
    match locations.find? (fun l => l.id == id) with
    | none => (locations, .notFound)
    | some _ =>
      let locations1 := activateFlags id (s :: rest) locations
      match locations1.find? (fun l => l.id == id) with
      | some activeLocation => (locations1, .activated activeLocation)
      | none => (locations1, .failed)

/-- Embeds `updateLocation`. Prisma throws when no row has the id, when the new
name is the name of another row (the column is unique) and when a number is
`NaN`; the `catch` block then answers 500. -/
def updateLocation (parseFloat : JsScalar → Option ℚ) (parseInt : JsScalar → Option Int)
    (locations : List ChurchLocation) (id : String) (body : LocationBody) :
    List ChurchLocation × LocationResponse :=
  match locations.find? (fun l => l.id == id) with
  | none => (locations, .failed)
  | some row =>
    let latitude : Option ℚ :=
      if truthyScalar body.latitude then body.latitude.bind parseFloat else some row.latitude
    let longitude : Option ℚ :=
      if truthyScalar body.longitude then body.longitude.bind parseFloat
      else some row.longitude
    let radius : Option Int :=
      if truthyScalar body.radius then body.radius.bind parseInt else some row.radius
    let name := if truthyString body.name then body.name.getD "" else row.name
    match latitude, longitude, radius with
    | some lat, some lon, some r =>
      if truthyString body.name && locations.any (fun l => l.id != id && l.name == name) then
        (locations, .failed)
      else
        let location : ChurchLocation :=
          { row with
            name := name
            description := match body.description with
              | some d => d
              | none => row.description
            latitude := lat
            longitude := lon
            radius := r
            address := match body.address with
              | some a => a
              | none => row.address }
        (updateWhere (fun l => l.id == id) (fun _ => location) locations, .updated location)
    | _, _, _ => (locations, .failed)

/-- Embeds `deleteLocation`. Prisma `delete` throws when no row has the id. -/
def deleteLocation (locations : List ChurchLocation) (id : String) :
    List ChurchLocation × LocationResponse :=
  -- Check if it is an active location for any service
  match locations.find? (fun l => l.id == id) with
  | some location =>
    if location.isActiveSabbath || location.isActiveWednesday || location.isActiveFriday then
      (locations, .locationInUse)
    else (locations.eraseP (fun l => l.id == id), .deleted)
  | none => (locations, .failed)

/-! ## The request state machine of the spec -/

/-- The seven checks of a request, in the order the spec lists them. -/
inductive Step
  | VALIDATE_INPUT
  | CHECK_SERVICE_WINDOW
  | CHECK_DEVICE
  | RESOLVE_MEMBER
  | RESOLVE_LOCATION
  | CHECK_DISTANCE
  | CHECK_DUPLICATE
  deriving DecidableEq, Repr

/-- The fixed order of the checks. -/
def Step.order : List Step :=
  [.VALIDATE_INPUT, .CHECK_SERVICE_WINDOW, .CHECK_DEVICE, .RESOLVE_MEMBER,
    .RESOLVE_LOCATION, .CHECK_DISTANCE, .CHECK_DUPLICATE]

/-- The check whose failure a response reports; `none` for the 201 response
and for the 500 of the `catch` block. -/
def Response.failedStep : Response → Option Step
  | .missingFields => some .VALIDATE_INPUT
  | .outsideServiceWindow _ => some .CHECK_SERVICE_WINDOW
  | .deviceAlreadyUsed => some .CHECK_DEVICE
  | .memberNotFound => some .RESOLVE_MEMBER
  | .noActiveLocation => some .RESOLVE_LOCATION
  | .outOfRange _ _ _ => some .CHECK_DISTANCE
  | .alreadyMarked _ _ => some .CHECK_DUPLICATE
  | .success _ _ => none
  | .failed => none

/-- Whether a check, taken on its own, fails for a request in a state. A check
that cannot be evaluated because a value it needs is absent (such a value is
produced by an earlier check) does not fail. -/
def stepFails (calculateDistance : ℚ → ℚ → ℚ → ℚ → ℚ) (now : Clock) (st : State)
    (req : MarkRequest) : Step → Bool
  | .VALIDATE_INPUT => missingRequired req
  | .CHECK_SERVICE_WINDOW => !(getCurrentServiceInfo now.getDay now.getHours).isServiceTime
  | .CHECK_DEVICE =>
    match req.deviceId, req.email with
    | some deviceId, some email =>
      match DeviceMap.get st.deviceAttendance (deviceKey deviceId now.isoDate
          (getCurrentServiceInfo now.getDay now.getHours).serviceType) with
      | some existingEmail => existingEmail != email
      | none => false
    | _, _ => false
  | .RESOLVE_MEMBER =>
    match req.email with
    | some email => (st.members.find? (fun m => m.email == email)).isNone
    | none => false
  | .RESOLVE_LOCATION =>
    (getActiveLocationForService st.locations
      (getCurrentServiceInfo now.getDay now.getHours).serviceType).isNone
  | .CHECK_DISTANCE =>
    match req.latitude, req.longitude, getActiveLocationForService st.locations
        (getCurrentServiceInfo now.getDay now.getHours).serviceType with
    | some latitude, some longitude, some location =>
      decide (calculateDistance latitude longitude location.latitude location.longitude >
        (location.radius : ℚ))
    | _, _, _ => false
  | .CHECK_DUPLICATE =>
    match req.email, (getCurrentServiceInfo now.getDay now.getHours).serviceType with
    | some email, some serviceType =>
      match st.members.find? (fun m => m.email == email) with
      | some member => st.attendances.any (sameDayRecord now member.id serviceType)
      | none => false
    | _, _ => false


/-- The state after a successful request: one more attendance row and the
device key bound to the email. -/
def afterSuccess (st : State) (record : Attendance) (key email : String) : State :=
  { st with
    attendances := st.attendances ++ [record]
    deviceAttendance := DeviceMap.set st.deviceAttendance key email }


/-! ## Fixtures for the witnesses -/

/-- Fixture: a member. -/
def alice : Member := { id := "m1", firstName := "Alice", lastName := "A", email := "alice@x.com" }

/-- Fixture: a second member. -/
def bob : Member := { id := "m2", firstName := "Bob", lastName := "B", email := "bob@x.com" }

/-- Fixture: a location that is active for the Sabbath and Wednesday services. -/
def mainCampus : ChurchLocation :=
  { id := "L1", name := "Main Campus", description := none, latitude := -1, longitude := 37,
    radius := 100, address := none, isActiveSabbath := true, isActiveWednesday := true,
    isActiveFriday := false, isSaved := true, createdBy := none }

/-- Fixture: two members, one active location, no attendance, empty device map. -/
def demoState : State :=
  { members := [alice, bob], locations := [mainCampus], attendances := [],
    deviceAttendance := [] }

/-- Fixture: a distance function that is 0 at the same coordinates and 150 elsewhere. -/
def demoDistance : ℚ → ℚ → ℚ → ℚ → ℚ :=
  fun lat1 lon1 lat2 lon2 => if lat1 = lat2 ∧ lon1 = lon2 then 0 else 150

/-- Fixture: Saturday 2024-01-06, 10:00 in Nairobi (UTC+3). -/
def saturdayTen : Clock := { utcMs := (19728 * 24 + 7) * 3600000, tzOffsetMin := 180 }

/-- Fixture: Alice at the location with device dev-1. -/
def aliceRequest : MarkRequest :=
  { email := some "alice@x.com", latitude := some (-1), longitude := some 37,
    deviceId := some "dev-1" }

/-- Fixture: Alice away from the location. -/
def aliceFarRequest : MarkRequest :=
  { email := some "alice@x.com", latitude := some (-2), longitude := some 37,
    deviceId := some "dev-1" }

/-- Fixture: Saturday 2024-01-06, 14:00 in Nairobi (UTC+3). -/
def saturdayFourteen : Clock := { utcMs := (19728 * 24 + 11) * 3600000, tzOffsetMin := 180 }

/-- A sequence of `markAttendance` requests, handled one after the other. -/
def markAll (calculateDistance : ℚ → ℚ → ℚ → ℚ → ℚ) (st : State) :
    List (Clock × MarkRequest) → State
  | [] => st
  | r :: rest => markAll calculateDistance (markAttendance calculateDistance r.1 st r.2).1 rest

/-- Fixture: Bob at the location with device dev-1. -/
def bobRequest : MarkRequest :=
  { email := some "bob@x.com", latitude := some (-1), longitude := some 37,
    deviceId := some "dev-1" }

/-- Fixture: Wednesday 2024-01-03, 18:00 on a server at UTC-5
(2024-01-03T23:00Z). -/
def wednesdayEighteen : Clock := { utcMs := (19725 * 24 + 23) * 3600000, tzOffsetMin := -300 }

/-- Fixture: Wednesday 2024-01-03, 19:10 on a server at UTC-5
(2024-01-04T00:10Z). -/
def wednesdayNineteenTen : Clock :=
  { utcMs := 19726 * 24 * 3600000 + 600000, tzOffsetMin := -300 }

/-- Fixture: Wednesday 2024-01-03, 19:20 on a server at UTC-5
(2024-01-04T00:20Z). -/
def wednesdayNineteenTwenty : Clock :=
  { utcMs := 19726 * 24 * 3600000 + 1200000, tzOffsetMin := -300 }

/-- Fixture: Bob at the location with his own device dev-2. -/
def bobOwnRequest : MarkRequest :=
  { email := some "bob@x.com", latitude := some (-1), longitude := some 37,
    deviceId := some "dev-2" }

/-! ## Invariants of the stores -/

/-- Two attendance rows of the same member, the same service and the same
local calendar day (on a server with the given offset). -/
def sameSlot (tzOffsetMin : Int) (a b : Attendance) : Prop :=
  a.memberId = b.memberId ∧ a.serviceType = b.serviceType ∧
    localDayOf tzOffsetMin a.attendedAt = localDayOf tzOffsetMin b.attendedAt

instance (tzOffsetMin : Int) (a b : Attendance) : Decidable (sameSlot tzOffsetMin a b) := by
  unfold sameSlot; infer_instance

/-- The invariant of the attendance table: at most one row for each member,
service and local calendar day. -/
def oneRecordPerDay (tzOffsetMin : Int) (attendances : List Attendance) : Prop :=
  attendances.Pairwise (fun a b => ¬ sameSlot tzOffsetMin a b)

instance (tzOffsetMin : Int) (attendances : List Attendance) :
    Decidable (oneRecordPerDay tzOffsetMin attendances) := by
  unfold oneRecordPerDay; infer_instance

/-- The column of `churchLocation` that marks a location active for a service. -/
def ServiceType.flag : ServiceType → ChurchLocation → Bool
  | .SABBATH_MORNING => fun l => l.isActiveSabbath
  | .WEDNESDAY_VESPERS => fun l => l.isActiveWednesday
  | .FRIDAY_VESPERS => fun l => l.isActiveFriday

/-- The invariant of the location table: each of the three flags is true on
at most one row. -/
def singleActive (locations : List ChurchLocation) : Prop :=
  ∀ s : ServiceType, locations.countP s.flag ≤ 1

instance (locations : List ChurchLocation) : Decidable (singleActive locations) :=
  decidable_of_iff
    (locations.countP ServiceType.SABBATH_MORNING.flag ≤ 1 ∧
      locations.countP ServiceType.WEDNESDAY_VESPERS.flag ≤ 1 ∧
      locations.countP ServiceType.FRIDAY_VESPERS.flag ≤ 1)
    ⟨fun h s => by cases s <;> simp [h.1, h.2.1, h.2.2], fun h => ⟨h _, h _, h _⟩⟩

/-- A call of one of the four administrative handlers. -/
inductive LocationOp
  | create (newId adminId : String) (body : LocationBody)
  | update (id : String) (body : LocationBody)
  | activate (id : String) (services : Option (List String))
  | delete (id : String)
  deriving DecidableEq, Repr

/-- Runs one administrative call on the location table. -/
def LocationOp.run (parseFloat : JsScalar → Option ℚ) (parseInt : JsScalar → Option Int)
    (locations : List ChurchLocation) : LocationOp → List ChurchLocation × LocationResponse
  | .create newId adminId body => createLocation parseFloat parseInt newId adminId locations body
  | .update id body => updateLocation parseFloat parseInt locations id body
  | .activate id services => setActiveLocation locations id services
  | .delete id => deleteLocation locations id

/-- Runs a sequence of administrative calls, one after the other. -/
def runLocationOps (parseFloat : JsScalar → Option ℚ) (parseInt : JsScalar → Option Int)
    (locations : List ChurchLocation) : List LocationOp → List ChurchLocation
  | [] => locations
  | op :: rest =>
    runLocationOps parseFloat parseInt (op.run parseFloat parseInt locations).1 rest

/-- Fixture: a second location, active for the Friday service. -/
def chiromo : ChurchLocation :=
  { id := "L2", name := "Chiromo Campus", description := none, latitude := -1, longitude := 36,
    radius := 100, address := none, isActiveSabbath := false, isActiveWednesday := false,
    isActiveFriday := true, isSaved := true, createdBy := none }

/-- Fixture: `parseFloat` on numbers (strings are not parsed). -/
def demoParseFloat : JsScalar → Option ℚ
  | .num q => some q
  | .str _ => none

/-- Fixture: `parseInt` on whole numbers (strings are not parsed). -/
def demoParseInt : JsScalar → Option Int
  | .num q => some q.num
  | .str _ => none

/-- Fixture: the body of a create request. -/
def hallBody : LocationBody :=
  { name := some "Off-Campus Hall", description := none, latitude := some (.num (-1)),
    longitude := some (.num 38), radius := none, address := none }

/-- Fixture: Alice on the equator (latitude 0) with device dev-1. -/
def aliceEquatorRequest : MarkRequest :=
  { email := some "alice@x.com", latitude := some 0, longitude := some 37,
    deviceId := some "dev-1" }

/-- Fixture: an email that belongs to no member, at the location with device dev-3. -/
def carolRequest : MarkRequest :=
  { email := some "carol@x.com", latitude := some (-1), longitude := some 37,
    deviceId := some "dev-3" }

/-- Fixture: Sunday 2024-01-07, 10:00 in Nairobi (UTC+3). -/
def sundayTen : Clock := { utcMs := (19729 * 24 + 7) * 3600000, tzOffsetMin := 180 }

/-- Fixture: a request whose email field is present and empty. -/
def emptyEmailRequest : MarkRequest :=
  { email := some "", latitude := some (-1), longitude := some 37, deviceId := some "dev-1" }

/-! ## GeoDistance: `calculateDistance` in exact real arithmetic

The source computes with IEEE doubles. The definitions below read the same
expressions over the real numbers; rounding is not modelled here (it is in
`calculateDistanceDouble` below). The request handler above does not depend on
them: it takes the function that is actually computed as a parameter. -/

/-- `Math.atan2(y, x)` on real numbers: the angle of the point `(x, y)`, in
`(-π, π]`. -/
noncomputable def atan2 (y x : ℝ) : ℝ := Complex.arg ⟨x, y⟩

/-- The constant `a` of `calculateDistance`, over the real numbers. -/
noncomputable def haversineA (lat1 lon1 lat2 lon2 : ℝ) : ℝ :=
  let φ1 := lat1 * Real.pi / 180
  let φ2 := lat2 * Real.pi / 180
  let Δφ := (lat2 - lat1) * Real.pi / 180
  let Δl := (lon2 - lon1) * Real.pi / 180
  Real.sin (Δφ / 2) * Real.sin (Δφ / 2) +
    Real.cos φ1 * Real.cos φ2 * Real.sin (Δl / 2) * Real.sin (Δl / 2)

/-- Embeds `calculateDistance` (Haversine formula, distance in meters) over the
real numbers. -/
noncomputable def calculateDistance (lat1 lon1 lat2 lon2 : ℝ) : ℝ :=
  let R : ℝ := 6371000
  let a := haversineA lat1 lon1 lat2 lon2
  let c := 2 * atan2 (Real.sqrt a) (Real.sqrt (1 - a))
  R * c

/-- HTTP status code of an answer of the administrative handlers. -/
def LocationResponse.status : LocationResponse → Nat
  | .missingFields => 400
  | .duplicateName => 400
  | .created _ => 201
  | .invalidServices => 400
  | .notFound => 404
  | .activated _ => 200
  | .updated _ => 200
  | .locationInUse => 400
  | .deleted => 200
  | .failed => 500

/-- Fixture: the create body with the radius 0 supplied. -/
def zeroRadiusBody : LocationBody :=
  { name := some "Off-Campus Hall", description := none, latitude := some (.num (-1)),
    longitude := some (.num 38), radius := some (.num 0), address := none }

/-- Fixture: the row created for Off-Campus Hall with a given radius. -/
def hallLocation (radius : Int) : ChurchLocation :=
  { id := "L3", name := "Off-Campus Hall", description := none, latitude := -1, longitude := 38,
    radius := radius, address := none, isActiveSabbath := false, isActiveWednesday := false,
    isActiveFriday := false, isSaved := true, createdBy := some "admin-1" }

/-- An ISO date `YYYY-MM-DD`: ten characters, digits around two hyphens. -/
def isIsoDate (s : String) : Bool :=
  match s.data with
  | [y1, y2, y3, y4, h1, m1, m2, h2, d1, d2] =>
    y1.isDigit && y2.isDigit && y3.isDigit && y4.isDigit && h1 == '-' &&
      m1.isDigit && m2.isDigit && h2 == '-' && d1.isDigit && d2.isDigit
  | _ => false

/-- A row after `setActiveLocation` compared with the row before: every column
is the same, except possibly the flags of the listed services. -/
def sameExceptFlags (services : List String) (old new : ChurchLocation) : Prop :=
  new.id = old.id ∧ new.name = old.name ∧ new.description = old.description ∧
  new.latitude = old.latitude ∧ new.longitude = old.longitude ∧ new.radius = old.radius ∧
  new.address = old.address ∧ new.isSaved = old.isSaved ∧ new.createdBy = old.createdBy ∧
  ∀ s : ServiceType, s.name ∉ services → s.flag new = s.flag old

instance (services : List String) (old new : ChurchLocation) :
    Decidable (sameExceptFlags services old new) :=
  decidable_of_iff
    (new.id = old.id ∧ new.name = old.name ∧ new.description = old.description ∧
      new.latitude = old.latitude ∧ new.longitude = old.longitude ∧ new.radius = old.radius ∧
      new.address = old.address ∧ new.isSaved = old.isSaved ∧ new.createdBy = old.createdBy ∧
      (ServiceType.SABBATH_MORNING.name ∉ services →
        new.isActiveSabbath = old.isActiveSabbath) ∧
      (ServiceType.WEDNESDAY_VESPERS.name ∉ services →
        new.isActiveWednesday = old.isActiveWednesday) ∧
      (ServiceType.FRIDAY_VESPERS.name ∉ services →
        new.isActiveFriday = old.isActiveFriday))
    ⟨fun ⟨h1, h2, h3, h4, h5, h6, h7, h8, h9, ha, hb, hc⟩ =>
        ⟨h1, h2, h3, h4, h5, h6, h7, h8, h9, fun s hs => by
          cases s
          · exact ha hs
          · exact hb hs
          · exact hc hs⟩,
      fun ⟨h1, h2, h3, h4, h5, h6, h7, h8, h9, h⟩ =>
        ⟨h1, h2, h3, h4, h5, h6, h7, h8, h9, h .SABBATH_MORNING, h .WEDNESDAY_VESPERS,
          h .FRIDAY_VESPERS⟩⟩

/-! ## `getMemberAttendance` -/

/-- The order `orderBy: { attendedAt: 'desc' }`: the newer record comes first. -/
def newerFirst (a b : Attendance) : Prop := b.attendedAt ≤ a.attendedAt

instance : DecidableRel newerFirst := fun a b => Int.decLe b.attendedAt a.attendedAt

/-- The assignment `acc[key] = (acc[key] || 0) + 1` on an object whose
properties are listed in insertion order: the entry of the key is incremented,
a missing key is added with the value 1. -/
def bumpCount (key : ServiceType) : List (ServiceType × Nat) → List (ServiceType × Nat)
  | [] => [(key, 0 + 1)]
  | p :: rest => if p.1 = key then (p.1, p.2 + 1) :: rest else p :: bumpCount key rest

/-- The reducer of `member.attendances.reduce(..., {})`. -/
def countService (acc : List (ServiceType × Nat)) (att : Attendance) :
    List (ServiceType × Nat) :=
  bumpCount att.serviceType acc

/-- Reading a property of the `byService` object; `none` is `undefined`. -/
def serviceCount (byService : List (ServiceType × Nat)) (key : ServiceType) : Option Nat :=
  (byService.find? (fun p => p.1 == key)).map (fun p => p.2)

/-- The `data` object of the 200 answer of `getMemberAttendance`. -/
structure MemberAttendanceData where
  member : Member
  totalAttendances : Nat
  byService : List (ServiceType × Nat)
  recentAttendances : List Attendance
  deriving DecidableEq, Repr

/-- The answers of `getMemberAttendance`. -/
inductive MemberAttendanceResponse
  /-- 404, no member has the email. -/
  | notFound
  /-- 200 with the statistics. -/
  | ok (data : MemberAttendanceData)
  deriving DecidableEq, Repr

/-- The relation `attendances` of a member, as `include` loads it: the rows of
the member, newest first (rows of the same instant in table order), at most
`take` of them. -/
def includeAttendances (attendances : List Attendance) (memberId : String) (take : Nat) :
    List Attendance :=
  ((attendances.filter (fun a => a.memberId == memberId)).insertionSort newerFirst).take take

/-- Embeds `getMemberAttendance`. -/
def getMemberAttendance (st : State) (email : String) : MemberAttendanceResponse :=
  match st.members.find? (fun m => m.email == email) with
  | none => .notFound
  | some member =>
    let attendances := includeAttendances st.attendances member.id 50
    -- Calculate statistics
    let totalAttendances := attendances.length
    let byService := attendances.foldl countService []
    .ok { member := member
          totalAttendances := totalAttendances
          byService := byService
          recentAttendances := attendances }

/-- Fixture: a state in which Alice has 51 Sabbath records, one per week, the
oldest first, and Bob has one. -/
def busyState : State :=
  { demoState with
    attendances :=
      (List.range 51).map (fun week =>
        { newAttendance saturdayTen "m1" .SABBATH_MORNING (-1) 37 "Main Campus" with
          attendedAt := saturdayTen.utcMs + week * (7 * msPerDay) }) ++
      [newAttendance saturdayTen "m2" .SABBATH_MORNING (-1) 37 "Main Campus"] }

/-! ## GeoDistance: `calculateDistance` in double arithmetic

JavaScript numbers are IEEE-754 binary64 values. The definitions below compute
`calculateDistance` with the rounding of every operation. A finite double is
represented by the rational number it denotes; the sign of a zero is not
tracked. -/

/-- Number of binary digits of `n`, by halving at most `fuel` times. -/
def bitLengthAux : Nat → Nat → Nat
  | 0, _ => 0
  | fuel + 1, n => if n = 0 then 0 else bitLengthAux fuel (n / 2) + 1

/-- Number of binary digits of a natural number. -/
def bitLength (n : Nat) : Nat := bitLengthAux n n

/-- The binary exponent of a positive rational: the `e` with
`2 ^ e ≤ q < 2 ^ (e + 1)`. -/
def floorLog2 (q : ℚ) : Int :=
  let e : Int := (bitLength q.num.natAbs : Int) - (bitLength q.den : Int)
  if (2 : ℚ) ^ e ≤ q then e else e - 1

/-- The nearest integer, a tie going to the even neighbour. -/
def roundHalfEven (q : ℚ) : Int :=
  let f := Int.floor q
  if q - f < 1 / 2 then f
  else if 1 / 2 < q - f then f + 1
  else if f % 2 = 0 then f else f + 1

/-- A JavaScript number: a finite double, an infinity or NaN. -/
inductive Double
  | finite (value : ℚ)
  | infinite (negative : Bool)
  | nan
  deriving DecidableEq, Repr

/-- The result of an operation whose exact value is `q`: the nearest double
(53 significant bits, spacing `2 ^ (-1074)` near zero), a tie going to the even
significand, and an infinity from `2 ^ 1024` on. -/
def Double.round (q : ℚ) : Double :=
  if q = 0 then .finite 0
  else
    let ulp : ℚ := 2 ^ max (floorLog2 |q| - 52) (-1074)
    let r : ℚ := (roundHalfEven (q / ulp) : ℚ) * ulp
    if (2 : ℚ) ^ (1024 : Int) ≤ |r| then .infinite (decide (q < 0)) else .finite r

/-- The unary minus. -/
def Double.neg : Double → Double
  | .finite x => .finite (-x)
  | .infinite s => .infinite (!s)
  | .nan => .nan

/-- The operator `+`. -/
def Double.add : Double → Double → Double
  | .finite x, .finite y => Double.round (x + y)
  | .finite _, .infinite s => .infinite s
  | .infinite s, .finite _ => .infinite s
  | .infinite s, .infinite t => if s = t then .infinite s else .nan
  | _, _ => .nan

/-- The operator `-`. -/
def Double.sub (x y : Double) : Double := Double.add x (Double.neg y)

/-- The operator `*`. -/
def Double.mul : Double → Double → Double
  | .finite x, .finite y => Double.round (x * y)
  | .finite x, .infinite s => if x = 0 then .nan else .infinite (xor s (decide (x < 0)))
  | .infinite s, .finite y => if y = 0 then .nan else .infinite (xor s (decide (y < 0)))
  | .infinite s, .infinite t => .infinite (xor s t)
  | _, _ => .nan

/-- The operator `/`. A zero divisor counts as `+0`. -/
def Double.div : Double → Double → Double
  | .finite x, .finite y =>
    if y = 0 then (if x = 0 then .nan else .infinite (decide (x < 0)))
    else Double.round (x / y)
  | .finite _, .infinite _ => .finite 0
  | .infinite s, .finite y => .infinite (xor s (decide (y < 0)))
  | _, _ => .nan

instance : Add Double := ⟨Double.add⟩

instance : Sub Double := ⟨Double.sub⟩

instance : Mul Double := ⟨Double.mul⟩

instance : Div Double := ⟨Double.div⟩

instance : Neg Double := ⟨Double.neg⟩

instance (n : Nat) : OfNat Double n := ⟨Double.round n⟩

/-- The largest `k` with `k * k ≤ n`, found bit by bit below bit `bits`. -/
def natSqrtAux (n : Nat) : Nat → Nat → Nat
  | 0, acc => acc
  | bits + 1, acc =>
    natSqrtAux n bits (if (acc + 2 ^ bits) * (acc + 2 ^ bits) ≤ n then acc + 2 ^ bits else acc)

/-- The integer square root. -/
def natSqrt (n : Nat) : Nat := natSqrtAux n (bitLength n) 0

/-- The double nearest to the square root of a positive rational. -/
def roundSqrt (q : ℚ) : ℚ :=
  let ulp : ℚ := 2 ^ (floorLog2 q / 2 - 52)
  let scaled : ℚ := q / (ulp * ulp)
  let k : Nat := natSqrt (Int.floor scaled).toNat
  if scaled < (k + 1 / 2) * (k + 1 / 2) then k * ulp
  else if (k + 1 / 2) * (k + 1 / 2) < scaled then (k + 1) * ulp
  else if k % 2 = 0 then k * ulp else (k + 1) * ulp

/-- `Math.sqrt`: NaN below zero, otherwise the correctly rounded square root. -/
def mathSqrt : Double → Double
  | .finite x => if x < 0 then .nan else if x = 0 then .finite 0 else .finite (roundSqrt x)
  | .infinite s => if s then .nan else .infinite false
  | .nan => .nan

/-- The constant `Math.PI`, the double `3.141592653589793`. -/
def mathPI : Double := .finite (884279719003555 / 281474976710656)

/-- The functions `Math.sin`, `Math.cos` and `Math.atan2` on arguments that are
not NaN, and for the sine and cosine finite. The language standard leaves
their results to the engine, so they are parameters. -/
structure MathLibrary where
  sin : ℚ → ℚ
  cos : ℚ → ℚ
  atan2 : Double → Double → ℚ

/-- `Math.sin`: NaN for NaN and for an infinity. -/
def mathSin (lib : MathLibrary) : Double → Double
  | .finite x => .finite (lib.sin x)
  | _ => .nan

/-- `Math.cos`: NaN for NaN and for an infinity. -/
def mathCos (lib : MathLibrary) : Double → Double
  | .finite x => .finite (lib.cos x)
  | _ => .nan

/-- `Math.atan2(y, x)`: NaN when either argument is NaN. -/
def mathAtan2 (lib : MathLibrary) : Double → Double → Double
  | .nan, _ => .nan
  | _, .nan => .nan
  | y, x => .finite (lib.atan2 y x)

/-- The constant `a` of `calculateDistance`, in double arithmetic. -/
def haversineADouble (lib : MathLibrary) (lat1 lon1 lat2 lon2 : Double) : Double :=
  let φ1 := (lat1 * mathPI) / 180
  let φ2 := (lat2 * mathPI) / 180
  let Δφ := ((lat2 - lat1) * mathPI) / 180
  let Δl := ((lon2 - lon1) * mathPI) / 180
  mathSin lib (Δφ / 2) * mathSin lib (Δφ / 2) +
    mathCos lib φ1 * mathCos lib φ2 * mathSin lib (Δl / 2) * mathSin lib (Δl / 2)

/-- Embeds `calculateDistance` in double arithmetic. -/
def calculateDistanceDouble (lib : MathLibrary) (lat1 lon1 lat2 lon2 : Double) : Double :=
  let R : Double := 6371000
  let a := haversineADouble lib lat1 lon1 lat2 lon2
  let c := 2 * mathAtan2 lib (mathSqrt a) (mathSqrt (1 - a))
  R * c

/-- Fixture: a library that returns the doubles nearest to the exact sine,
cosine and arc tangent at the arguments that occur in the examples, and 0
elsewhere. -/
def tableMath : MathLibrary :=
  { sin := fun x =>
      if x = -5030569068109113 / 36028797018963968 then -5014239404989977 / 36028797018963968
      else if x = 884279719003555 / 562949953421312 then 1
      else if x = 6954258679753843 / 590295810358705651712 then
        3477129339796489 / 295147905179352825856
      else 0
    cos := fun x =>
      if x = 5030569068109113 / 36028797018963968 then 4459770905381437 / 4503599627370496
      else if x = -5030569068109113 / 36028797018963968 then
        4459770905381437 / 4503599627370496
      else if x = -3221450666990373 / 144115188075855872 then
        9004949033835933 / 9007199254740992
      else if x = -6436110065738799 / 288230376151711744 then
        9004953774918949 / 9007199254740992
      else 0
    atan2 := fun y x =>
      if y = .finite (3477129339796489 / 295147905179352825856) ∧
          x = .finite (9007199254115931 / 9007199254740992) then
        6954258679753843 / 590295810358705651712
      else 0 }

/-- Fixture: the location of the example of the spec, Main Campus at
(-1.2794, 36.8156) with radius 100, active for the Sabbath service. -/
def sabbathCampus : ChurchLocation :=
  { id := "L1", name := "Main Campus", description := none, latitude := -6397 / 5000,
    longitude := 92039 / 2500, radius := 100, address := none, isActiveSabbath := true,
    isActiveWednesday := false, isActiveFriday := false, isSaved := true, createdBy := none }

/-- Fixture: two members and the location of the example. -/
def sabbathState : State :=
  { members := [alice, bob], locations := [sabbathCampus], attendances := [],
    deviceAttendance := [] }

/-- Fixture: Alice at (-1.28075, 36.8156), 150 m south of the location
of the example. -/
def aliceNearbyRequest : MarkRequest :=
  { email := some "alice@x.com", latitude := some (-5123 / 4000), longitude := some (92039 / 2500),
    deviceId := some "dev-1" }

/-- Fixture: the distance function at the points of the example: 0 at equal
coordinates and otherwise the double 150.1131509701501, which is the result of
`calculateDistance` for the request of `aliceNearbyRequest` and the location
`sabbathCampus`. -/
def exampleDistance : ℚ → ℚ → ℚ → ℚ → ℚ :=
  fun lat1 lon1 lat2 lon2 =>
    if lat1 = lat2 ∧ lon1 = lon2 then 0 else 5281636959160773 / 35184372088832

/-! # Theorems -/

/-! ## Helper lemmas -/

theorem DeviceMap.get_isSome (m : DeviceMap) (key : String) :
    (DeviceMap.get m key).isSome = DeviceMap.has m key := by
  rw [Bool.eq_iff_iff]
  simp [DeviceMap.get, DeviceMap.has]

theorem usedByOther_iff (m : DeviceMap) (key email : String) :
    usedByOther m key email = true ↔
      ∃ existing, DeviceMap.get m key = some existing ∧ existing ≠ email := by
  unfold usedByOther
  rw [← DeviceMap.get_isSome]
  cases h : DeviceMap.get m key <;> simp

theorem missingRequired_false {req : MarkRequest} (h : missingRequired req = false) :
    ∃ email latitude longitude deviceId,
      req = ⟨some email, some latitude, some longitude, some deviceId⟩ ∧
      email ≠ "" ∧ latitude ≠ 0 ∧ longitude ≠ 0 ∧ deviceId ≠ "" := by
  obtain ⟨e, la, lo, d⟩ := req
  cases e <;> cases la <;> cases lo <;> cases d <;>
    first
    | (simp [missingRequired, truthyString, truthyNumber] at h; done)
    | exact ⟨_, _, _, _, rfl, by
        simpa [missingRequired, truthyString, truthyNumber, and_assoc] using h⟩

/-- Unfolding of `markAttendance` for a request that passes validation during
a running service. -/
theorem markAttendance_active (dist : ℚ → ℚ → ℚ → ℚ → ℚ) (now : Clock) (st : State)
    (email deviceId : String) (latitude longitude : ℚ) (svc : ServiceType)
    (hv : missingRequired ⟨some email, some latitude, some longitude, some deviceId⟩ = false)
    (hs : getCurrentServiceInfo now.getDay now.getHours = ⟨some svc, true⟩) :
    markAttendance dist now st ⟨some email, some latitude, some longitude, some deviceId⟩ =
      if usedByOther st.deviceAttendance (deviceKey deviceId now.isoDate (some svc)) email then
        (st, .deviceAlreadyUsed)
      else
        match st.members.find? (fun m => m.email == email) with
        | none => (st, .memberNotFound)
        | some member =>
          match getActiveLocationForService st.locations (some svc) with
          | none => (st, .noActiveLocation)
          | some loc =>
            if dist latitude longitude loc.latitude loc.longitude > (loc.radius : ℚ) then
              (st, .outOfRange loc.radius loc.name
                (mathRound (dist latitude longitude loc.latitude loc.longitude)))
            else
              match st.attendances.find? (sameDayRecord now member.id svc) with
              | some existing => (st, .alreadyMarked existing.attendedAt existing.locationName)
              | none =>
                ({ st with
                    attendances := st.attendances ++
                      [newAttendance now member.id svc latitude longitude loc.name]
                    deviceAttendance := DeviceMap.set st.deviceAttendance
                      (deviceKey deviceId now.isoDate (some svc)) email },
                  .success (newAttendance now member.id svc latitude longitude loc.name)
                    member) := by
  simp only [markAttendance, hv, hs, Bool.false_eq_true, if_false, Bool.not_true,
    Option.getD_some]

theorem serviceInfo_eq_of_isServiceTime {day hour : Nat}
    (h : (getCurrentServiceInfo day hour).isServiceTime = true) :
    ∃ t, getCurrentServiceInfo day hour = ⟨some t, true⟩ := by
  unfold getCurrentServiceInfo at h ⊢
  split_ifs at h ⊢ <;> simp_all

theorem forall_step (P : Step → Prop) :
    (∀ s, P s) ↔ P .VALIDATE_INPUT ∧ P .CHECK_SERVICE_WINDOW ∧ P .CHECK_DEVICE ∧
      P .RESOLVE_MEMBER ∧ P .RESOLVE_LOCATION ∧ P .CHECK_DISTANCE ∧ P .CHECK_DUPLICATE := by
  constructor
  · intro h
    exact ⟨h _, h _, h _, h _, h _, h _, h _⟩
  · rintro ⟨h1, h2, h3, h4, h5, h6, h7⟩ s
    cases s <;> assumption


/-- The response names the first check of the fixed order that fails. -/
theorem markAttendance_step_core (calculateDistance : ℚ → ℚ → ℚ → ℚ → ℚ)
    (now : Clock) (st : State) (req : MarkRequest) :
    (markAttendance calculateDistance now st req).2.failedStep =
        Step.order.find? (stepFails calculateDistance now st req) ∧
    ((markAttendance calculateDistance now st req).2.isSuccess = true ↔
        ∀ step, stepFails calculateDistance now st req step = false) ∧
    (markAttendance calculateDistance now st req).2 ≠ .failed := by
  rw [forall_step]
  by_cases hv : missingRequired req = true
  · simp [markAttendance, hv, Step.order, stepFails, Response.failedStep, Response.isSuccess]
  · simp only [Bool.not_eq_true] at hv
    by_cases hs : (getCurrentServiceInfo now.getDay now.getHours).isServiceTime = true
    · obtain ⟨svc, hsvc⟩ := serviceInfo_eq_of_isServiceTime hs
      obtain ⟨email, la, lo, dev, rfl, -⟩ := missingRequired_false hv
      rw [markAttendance_active calculateDistance now st email dev la lo svc hv hsvc]
      have h3 : stepFails calculateDistance now st ⟨some email, some la, some lo, some dev⟩
          .CHECK_DEVICE = usedByOther st.deviceAttendance
            (deviceKey dev now.isoDate (some svc)) email := by
        simp only [stepFails, hsvc, usedByOther, ← DeviceMap.get_isSome]
        cases DeviceMap.get st.deviceAttendance (deviceKey dev now.isoDate (some svc)) with
        | none => simp
        | some val => simp [bne]
      simp only [Step.order, List.find?, stepFails, hv, hsvc, Bool.not_true]
      simp only [stepFails, hsvc] at h3
      rw [h3]
      cases hd : usedByOther st.deviceAttendance (deviceKey dev now.isoDate (some svc)) email
      swap
      · simp [Response.failedStep, Response.isSuccess]
      cases hm : st.members.find? (fun m => m.email == email) with
      | none => simp [Response.failedStep, Response.isSuccess]
      | some member =>
        cases hl : getActiveLocationForService st.locations (some svc) with
        | none => simp [Response.failedStep, Response.isSuccess]
        | some loc =>
          by_cases hdist : calculateDistance la lo loc.latitude loc.longitude > (loc.radius : ℚ)
          · simp [Response.failedStep, Response.isSuccess, hdist]
          · cases hdup : st.attendances.find? (sameDayRecord now member.id svc) with
            | none =>
              have : st.attendances.any (sameDayRecord now member.id svc) = false := by
                rw [Bool.eq_false_iff]
                intro hc
                rw [List.any_eq_true] at hc
                obtain ⟨a, ha, hp⟩ := hc
                exact absurd hp (by simpa using List.find?_eq_none.mp hdup a ha)
              simp [Response.failedStep, Response.isSuccess, hdist, this, hdup]
            | some existing =>
              have : st.attendances.any (sameDayRecord now member.id svc) = true := by
                rw [List.any_eq_true]
                exact ⟨existing, List.mem_of_find?_eq_some hdup, List.find?_some hdup⟩
              simp [Response.failedStep, Response.isSuccess, hdist, this, hdup]
    · simp only [Bool.not_eq_true] at hs
      simp [markAttendance, hv, hs, Step.order, stepFails, Response.failedStep,
        Response.isSuccess]

/-- Every run of `markAttendance` either fails and leaves the state as it was,
or passes all seven checks, appends one row and binds the device key. -/
theorem markAttendance_cases (dist : ℚ → ℚ → ℚ → ℚ → ℚ) (now : Clock) (st : State)
    (req : MarkRequest) :
    ((markAttendance dist now st req).1 = st ∧
      (markAttendance dist now st req).2.isSuccess = false) ∨
    ∃ email deviceId latitude longitude svc member loc,
      req = ⟨some email, some latitude, some longitude, some deviceId⟩ ∧
      missingRequired req = false ∧
      getCurrentServiceInfo now.getDay now.getHours = ⟨some svc, true⟩ ∧
      usedByOther st.deviceAttendance (deviceKey deviceId now.isoDate (some svc)) email = false ∧
      st.members.find? (fun m => m.email == email) = some member ∧
      getActiveLocationForService st.locations (some svc) = some loc ∧
      ¬ dist latitude longitude loc.latitude loc.longitude > (loc.radius : ℚ) ∧
      st.attendances.find? (sameDayRecord now member.id svc) = none ∧
      markAttendance dist now st req =
        (afterSuccess st (newAttendance now member.id svc latitude longitude loc.name)
            (deviceKey deviceId now.isoDate (some svc)) email,
          .success (newAttendance now member.id svc latitude longitude loc.name) member) := by
  by_cases hv : missingRequired req = true
  · left; simp [markAttendance, hv, Response.isSuccess]
  · simp only [Bool.not_eq_true] at hv
    by_cases hs : (getCurrentServiceInfo now.getDay now.getHours).isServiceTime = true
    · obtain ⟨svc, hsvc⟩ := serviceInfo_eq_of_isServiceTime hs
      obtain ⟨email, la, lo, dev, rfl, -⟩ := missingRequired_false hv
      rw [markAttendance_active dist now st email dev la lo svc hv hsvc]
      cases hd : usedByOther st.deviceAttendance (deviceKey dev now.isoDate (some svc)) email
      swap
      · left; simp [Response.isSuccess]
      cases hm : st.members.find? (fun m => m.email == email) with
      | none => left; simp [Response.isSuccess]
      | some member =>
        cases hl : getActiveLocationForService st.locations (some svc) with
        | none => left; simp [Response.isSuccess]
        | some loc =>
          by_cases hdist : dist la lo loc.latitude loc.longitude > (loc.radius : ℚ)
          · left; simp [Response.isSuccess, hdist]
          · cases hdup : st.attendances.find? (sameDayRecord now member.id svc) with
            | some existing => left; simp [Response.isSuccess, hdist, hdup]
            | none =>
              right
              exact ⟨email, dev, la, lo, svc, member, loc, rfl, hv, hsvc, hd, hm, hl,
                hdist, hdup, by simp [hdist, hdup, afterSuccess]⟩
    · left
      simp only [Bool.not_eq_true] at hs
      simp [markAttendance, hv, hs, Response.isSuccess]

theorem mathRound_intCast_add_one (r : Int) : mathRound ((r : ℚ) + 1) = r + 1 := by
  unfold mathRound
  rw [Int.floor_eq_iff]
  constructor <;> push_cast <;> linarith

theorem Clock.todayStart_le (c : Clock) : c.todayStart ≤ c.utcMs ∧ c.utcMs < c.tomorrow := by
  simp only [Clock.tomorrow, Clock.todayStart, Clock.localMs, msPerDay]
  omega

/-- An instant lies in `[today_start, tomorrow)` exactly when its local
calendar day is the local calendar day of the clock. -/
theorem Clock.inToday_iff (c : Clock) (t : Int) :
    (c.todayStart ≤ t ∧ t < c.tomorrow) ↔ localDayOf c.tzOffsetMin t = c.localDay := by
  simp only [Clock.tomorrow, Clock.todayStart, Clock.localMs, Clock.localDay, localDayOf,
    msPerDay]
  omega

theorem Clock.todayStart_congr {c1 c2 : Clock} (htz : c1.tzOffsetMin = c2.tzOffsetMin)
    (hday : c1.localDay = c2.localDay) : c1.todayStart = c2.todayStart := by
  simp only [Clock.todayStart, Clock.localMs, Clock.localDay, msPerDay] at *
  omega

theorem sameDayRecord_iff (now : Clock) (memberId : String) (svc : ServiceType)
    (a : Attendance) :
    sameDayRecord now memberId svc a = true ↔
      a.memberId = memberId ∧ a.serviceType = svc ∧
        localDayOf now.tzOffsetMin a.attendedAt = now.localDay := by
  rw [← Clock.inToday_iff]
  simp [sameDayRecord, and_assoc]

theorem sameDayRecord_congr {c1 c2 : Clock} (htz : c1.tzOffsetMin = c2.tzOffsetMin)
    (hday : c1.localDay = c2.localDay) (memberId : String) (svc : ServiceType) :
    sameDayRecord c1 memberId svc = sameDayRecord c2 memberId svc := by
  funext a
  rw [Bool.eq_iff_iff, sameDayRecord_iff, sameDayRecord_iff, htz, hday]

theorem sameDayRecord_newAttendance (now : Clock) (memberId : String) (svc : ServiceType)
    (latitude longitude : ℚ) (name : String) :
    sameDayRecord now memberId svc
      (newAttendance now memberId svc latitude longitude name) = true := by
  rw [sameDayRecord_iff]
  refine ⟨rfl, rfl, ?_⟩
  simp only [newAttendance, defaultAttendedAt, localDayOf, Clock.localDay, Clock.localMs]

/-- What a 201 answer tells about the request and the state it ran in. -/
theorem markAttendance_success_inv {dist : ℚ → ℚ → ℚ → ℚ → ℚ} {now : Clock} {st : State}
    {req : MarkRequest} {record : Attendance} {member : Member}
    (h : (markAttendance dist now st req).2 = .success record member) :
    ∃ email deviceId latitude longitude svc loc,
      req = ⟨some email, some latitude, some longitude, some deviceId⟩ ∧
      missingRequired req = false ∧
      getCurrentServiceInfo now.getDay now.getHours = ⟨some svc, true⟩ ∧
      usedByOther st.deviceAttendance (deviceKey deviceId now.isoDate (some svc)) email = false ∧
      st.members.find? (fun m => m.email == email) = some member ∧
      getActiveLocationForService st.locations (some svc) = some loc ∧
      ¬ dist latitude longitude loc.latitude loc.longitude > (loc.radius : ℚ) ∧
      st.attendances.find? (sameDayRecord now member.id svc) = none ∧
      record = newAttendance now member.id svc latitude longitude loc.name ∧
      (markAttendance dist now st req).1 =
        afterSuccess st record (deviceKey deviceId now.isoDate (some svc)) email := by
  rcases markAttendance_cases dist now st req with ⟨-, hf⟩ | hok
  · rw [h] at hf; exact absurd hf (by simp [Response.isSuccess])
  · obtain ⟨email, dev, la, lo, svc, m, loc, hreq, hv, hs, hd, hm, hl, hdist, hdup, heq⟩ := hok
    rw [heq] at h
    simp only [Response.success.injEq] at h
    obtain ⟨hrec, hmem⟩ := h
    subst hmem
    exact ⟨email, dev, la, lo, svc, loc, hreq, hv, hs, hd, hm, hl, hdist, hdup, hrec.symm,
      by rw [heq, hrec]⟩

/-- A failing request leaves the whole state as it was. -/
theorem markAttendance_failure_state (dist : ℚ → ℚ → ℚ → ℚ → ℚ) (now : Clock) (st : State)
    (req : MarkRequest) (h : (markAttendance dist now st req).2.isSuccess = false) :
    (markAttendance dist now st req).1 = st := by
  rcases markAttendance_cases dist now st req with ⟨hst, -⟩ | hok
  · exact hst
  · obtain ⟨email, dev, la, lo, svc, m, loc, -, -, -, -, -, -, -, -, heq⟩ := hok
    rw [heq] at h
    exact absurd h (by simp [Response.isSuccess])

theorem DeviceMap.get_eq_none_of_has_false {m : DeviceMap} {key : String}
    (h : DeviceMap.has m key = false) : DeviceMap.get m key = none := by
  have := DeviceMap.get_isSome m key
  rw [h] at this
  cases hg : DeviceMap.get m key with
  | none => rfl
  | some v => rw [hg] at this; exact absurd this (by simp)

theorem DeviceMap.get_nil (key : String) : DeviceMap.get [] key = none := rfl

theorem DeviceMap.get_cons (p : String × String) (m : DeviceMap) (key : String) :
    DeviceMap.get (p :: m) key = if p.1 = key then some p.2 else DeviceMap.get m key := by
  unfold DeviceMap.get
  rw [List.find?_cons]
  by_cases h : p.1 = key
  · have hb : (p.1 == key) = true := by simp [h]
    simp [hb, h]
  · have hb : (p.1 == key) = false := by simp [h]
    simp [hb, h]

theorem DeviceMap.get_map_replace (m : DeviceMap) (key value other : String) :
    DeviceMap.get (m.map (fun p => if p.1 == key then (key, value) else p)) other =
      if other = key then (DeviceMap.get m key).map (fun _ => value)
      else DeviceMap.get m other := by
  induction m with
  | nil => simp [DeviceMap.get_nil]
  | cons p m ih =>
    rw [List.map_cons, DeviceMap.get_cons, ih, DeviceMap.get_cons, DeviceMap.get_cons]
    by_cases hp : p.1 = key
    · by_cases ho : other = key
      · simp [hp, ho]
      · have : ¬ key = other := fun h => ho h.symm
        simp [hp, ho, this]
    · by_cases ho : other = key
      · subst ho
        simp [hp]
      · by_cases hpo : p.1 = other
        · simp [hp, ho, hpo]
        · simp [hp, ho, hpo]

theorem DeviceMap.get_append_singleton (m : DeviceMap) (key value other : String) :
    DeviceMap.get (m ++ [(key, value)]) other =
      match DeviceMap.get m other with
      | some v => some v
      | none => if key = other then some value else none := by
  induction m with
  | nil => simp [DeviceMap.get_nil, DeviceMap.get_cons]
  | cons p m ih =>
    rw [List.cons_append, DeviceMap.get_cons, ih, DeviceMap.get_cons]
    by_cases hpo : p.1 = other <;> simp [hpo]

/-- Reading the device map after `set`. -/
theorem DeviceMap.get_set (m : DeviceMap) (key value other : String) :
    DeviceMap.get (DeviceMap.set m key value) other =
      if other = key then some value else DeviceMap.get m other := by
  unfold DeviceMap.set
  cases hh : DeviceMap.has m key with
  | true =>
    simp only [if_true]
    rw [DeviceMap.get_map_replace]
    by_cases ho : other = key
    · have := DeviceMap.get_isSome m key
      rw [hh] at this
      cases hg : DeviceMap.get m key with
      | none => rw [hg] at this; exact absurd this (by simp)
      | some v => simp [ho]
    · simp [ho]
  | false =>
    simp only [Bool.false_eq_true, if_false]
    rw [DeviceMap.get_append_singleton]
    by_cases ho : other = key
    · subst ho
      simp [DeviceMap.get_eq_none_of_has_false hh]
    · have : ¬ key = other := fun h => ho h.symm
      cases DeviceMap.get m other <;> simp [ho, this]

/-- One request never replaces the email bound to a device key. -/
theorem markAttendance_device_entry_stable (dist : ℚ → ℚ → ℚ → ℚ → ℚ) (now : Clock)
    (st : State) (req : MarkRequest) (key email : String)
    (h : DeviceMap.get st.deviceAttendance key = some email) :
    DeviceMap.get (markAttendance dist now st req).1.deviceAttendance key = some email := by
  rcases markAttendance_cases dist now st req with ⟨hst, -⟩ | hok
  · rw [hst]; exact h
  · obtain ⟨e, dev, la, lo, svc, m, loc, -, -, -, hd, -, -, -, -, heq⟩ := hok
    rw [heq]
    simp only [afterSuccess, DeviceMap.get_set]
    by_cases hk : key = deviceKey dev now.isoDate (some svc)
    · rw [if_pos hk]
      subst hk
      by_contra hne
      have : usedByOther st.deviceAttendance (deviceKey dev now.isoDate (some svc)) e = true := by
        rw [usedByOther_iff]
        exact ⟨email, h, fun hh => hne (by rw [hh])⟩
      rw [hd] at this
      exact absurd this (by simp)
    · rw [if_neg hk]; exact h

/-- No sequence of requests replaces the email bound to a device key. -/
theorem markAll_device_entry_stable (dist : ℚ → ℚ → ℚ → ℚ → ℚ)
    (reqs : List (Clock × MarkRequest)) (st : State) (key email : String)
    (h : DeviceMap.get st.deviceAttendance key = some email) :
    DeviceMap.get (markAll dist st reqs).deviceAttendance key = some email := by
  induction reqs generalizing st with
  | nil => exact h
  | cons r rest ih =>
    exact ih _ (markAttendance_device_entry_stable dist r.1 st r.2 key email h)

/-- A request with valid fields during a running service whose device key is
bound to another email is answered DeviceAlreadyUsed and changes nothing. -/
theorem markAttendance_device_bound_to_other (dist : ℚ → ℚ → ℚ → ℚ → ℚ) (now : Clock)
    (st : State) (email deviceId other : String) (latitude longitude : ℚ) (svc : ServiceType)
    (hv : missingRequired ⟨some email, some latitude, some longitude, some deviceId⟩ = false)
    (hs : getCurrentServiceInfo now.getDay now.getHours = ⟨some svc, true⟩)
    (hkey : DeviceMap.get st.deviceAttendance (deviceKey deviceId now.isoDate (some svc)) =
      some other)
    (hne : other ≠ email) :
    markAttendance dist now st ⟨some email, some latitude, some longitude, some deviceId⟩ =
      (st, .deviceAlreadyUsed) := by
  rw [markAttendance_active dist now st email deviceId latitude longitude svc hv hs]
  have : usedByOther st.deviceAttendance (deviceKey deviceId now.isoDate (some svc)) email =
      true := by
    rw [usedByOther_iff]; exact ⟨other, hkey, hne⟩
  rw [if_pos this]

/-- After device D marked for email A, every later attempt from D for another
email B that carries the same UTC date and the same service is answered
DeviceAlreadyUsed, whatever was requested in between. -/
theorem markAttendance_other_email_same_utc_date (dist : ℚ → ℚ → ℚ → ℚ → ℚ)
    (now1 now2 : Clock) (st : State) (emailA emailB deviceId : String)
    (la1 lo1 la2 lo2 : ℚ) (record : Attendance) (member : Member)
    (between : List (Clock × MarkRequest))
    (hfirst : (markAttendance dist now1 st ⟨some emailA, some la1, some lo1, some deviceId⟩).2 =
      .success record member)
    (hne : emailA ≠ emailB)
    (hv : missingRequired ⟨some emailB, some la2, some lo2, some deviceId⟩ = false)
    (hs : getCurrentServiceInfo now2.getDay now2.getHours = ⟨some record.serviceType, true⟩)
    (hdate : now2.isoDate = now1.isoDate) :
    markAttendance dist now2
        (markAll dist (markAttendance dist now1 st
          ⟨some emailA, some la1, some lo1, some deviceId⟩).1 between)
        ⟨some emailB, some la2, some lo2, some deviceId⟩ =
      (markAll dist (markAttendance dist now1 st
          ⟨some emailA, some la1, some lo1, some deviceId⟩).1 between, .deviceAlreadyUsed) := by
  obtain ⟨e, dev, la, lo, svc, loc, hreq, -, -, -, -, -, -, -, hrec, hst1⟩ :=
    markAttendance_success_inv hfirst
  simp only [MarkRequest.mk.injEq, Option.some.injEq] at hreq
  obtain ⟨rfl, rfl, rfl, rfl⟩ := hreq
  have hsvc : record.serviceType = svc := by rw [hrec]; rfl
  rw [hsvc] at hs
  apply markAttendance_device_bound_to_other dist now2 _ emailB deviceId emailA la2 lo2 svc hv hs
    _ hne
  apply markAll_device_entry_stable
  rw [hst1, hdate]
  simp [afterSuccess, DeviceMap.get_set]

/-- One request keeps the attendance table free of same-day duplicates. -/
theorem markAttendance_preserves_oneRecordPerDay_step (dist : ℚ → ℚ → ℚ → ℚ → ℚ)
    (now : Clock) (st : State) (req : MarkRequest)
    (hinv : oneRecordPerDay now.tzOffsetMin st.attendances) :
    oneRecordPerDay now.tzOffsetMin (markAttendance dist now st req).1.attendances := by
  rcases markAttendance_cases dist now st req with ⟨hst, -⟩ | hok
  · rw [hst]; exact hinv
  · obtain ⟨e, dev, la, lo, svc, m, loc, -, -, -, -, -, -, -, hdup, heq⟩ := hok
    rw [heq]
    simp only [afterSuccess]
    unfold oneRecordPerDay at hinv ⊢
    rw [List.pairwise_append]
    refine ⟨hinv, List.pairwise_singleton _ _, ?_⟩
    intro a ha b hb
    rw [List.mem_singleton] at hb
    subst hb
    intro hslot
    have hnone := List.find?_eq_none.mp hdup a ha
    apply hnone
    rw [sameDayRecord_iff]
    obtain ⟨h1, h2, h3⟩ := hslot
    refine ⟨h1, h2, ?_⟩
    rw [h3]
    simp only [newAttendance, defaultAttendedAt, localDayOf, Clock.localDay, Clock.localMs]

theorem countP_updateWhere_of_preserved {α : Type} (f p : α → Bool) (g : α → α)
    (hg : ∀ x, f (g x) = f x) (l : List α) :
    (updateWhere p g l).countP f = l.countP f := by
  induction l with
  | nil => rfl
  | cons x xs ih =>
    unfold updateWhere
    by_cases hp : p x = true
    · simp only [hp, if_true, List.countP_cons, hg]
    · simp only [hp, Bool.false_eq_true, if_false, List.countP_cons, ih]

theorem countP_updateWhere_le {α : Type} (f p : α → Bool) (g : α → α) (l : List α) :
    (updateWhere p g l).countP f ≤ l.countP f + 1 := by
  induction l with
  | nil => simp [updateWhere]
  | cons x xs ih =>
    unfold updateWhere
    by_cases hp : p x = true
    · simp only [hp, if_true, List.countP_cons]
      split_ifs <;> omega
    · simp only [hp, Bool.false_eq_true, if_false, List.countP_cons]
      omega

theorem updateWhere_congr_of_find {α : Type} (p : α → Bool) (g h : α → α) (l : List α)
    (row : α) (hfind : l.find? p = some row) (hrow : g row = h row) :
    updateWhere p g l = updateWhere p h l := by
  induction l with
  | nil => rfl
  | cons x xs ih =>
    unfold updateWhere
    rw [List.find?_cons] at hfind
    by_cases hp : p x = true
    · simp only [hp] at hfind
      simp only [Option.some.injEq] at hfind
      subst hfind
      simp only [hp, if_true, hrow]
    · simp only [Bool.not_eq_true] at hp
      simp only [hp] at hfind
      simp only [hp, Bool.false_eq_true, if_false, ih hfind]

theorem countP_map_clear {α : Type} (f : α → Bool) (g : α → α) (hg : ∀ x, f (g x) = false)
    (l : List α) : (l.map g).countP f = 0 := by
  rw [List.countP_eq_zero]
  intro a ha
  rw [List.mem_map] at ha
  obtain ⟨x, -, rfl⟩ := ha
  simp [hg]

theorem countP_map_of_preserved {α : Type} (f : α → Bool) (g : α → α)
    (hg : ∀ x, f (g x) = f x) (l : List α) : (l.map g).countP f = l.countP f := by
  induction l with
  | nil => rfl
  | cons x xs ih => simp only [List.map_cons, List.countP_cons, ih, hg]

/-- The flag updates of `setActiveLocation` keep every flag on at most one row. -/
theorem activateFlags_singleActive (id : String) (services : List String)
    (locations : List ChurchLocation) (h : singleActive locations) :
    singleActive (activateFlags id services locations) := by
  intro s
  unfold activateFlags
  cases hsab : services.contains "SABBATH_MORNING" <;>
  cases hwed : services.contains "WEDNESDAY_VESPERS" <;>
  cases hfri : services.contains "FRIDAY_VESPERS" <;>
  cases s <;>
  simp only [Bool.false_eq_true, if_false, if_true] <;>
  first
  | (refine le_of_eq_of_le (countP_updateWhere_of_preserved _ _ _ (by intro x; rfl) _) ?_
     first
     | exact h _
     | (refine le_of_eq_of_le (countP_map_of_preserved _ _ (by intro x; rfl) _) ?_
        first
        | exact h _
        | (refine le_of_eq_of_le (countP_map_of_preserved _ _ (by intro x; rfl) _) ?_
           exact h _)))
  | (refine le_trans (countP_updateWhere_le _ _ _ _) ?_
     refine Nat.add_le_add_right (Nat.le_of_eq ?_) 1
     first
     | exact countP_map_clear _ _ (by intro x; rfl) _
     | (refine (countP_map_of_preserved _ _ (by intro x; rfl) _).trans ?_
        first
        | exact countP_map_clear _ _ (by intro x; rfl) _
        | (refine (countP_map_of_preserved _ _ (by intro x; rfl) _).trans ?_
           exact countP_map_clear _ _ (by intro x; rfl) _)))

/-- The table after `setActiveLocation`: untouched, or the flag updates applied. -/
theorem setActiveLocation_table (locations : List ChurchLocation) (id : String)
    (services : Option (List String)) :
    (setActiveLocation locations id services).1 = locations ∨
    ∃ list row, services = some list ∧ list ≠ [] ∧
      locations.find? (fun l => l.id == id) = some row ∧
      (setActiveLocation locations id services).1 = activateFlags id list locations := by
  unfold setActiveLocation
  cases services with
  | none => left; rfl
  | some l =>
    cases l with
    | nil => left; rfl
    | cons s rest =>
      cases hf : locations.find? (fun l => l.id == id) with
      | none => left; rfl
      | some row =>
        right
        refine ⟨s :: rest, row, rfl, by simp, rfl, ?_⟩
        simp only []
        split <;> rfl

theorem setActiveLocation_singleActive (locations : List ChurchLocation) (id : String)
    (services : Option (List String)) (h : singleActive locations) :
    singleActive (setActiveLocation locations id services).1 := by
  rcases setActiveLocation_table locations id services with heq | ⟨list, row, -, -, -, heq⟩
  · rw [heq]; exact h
  · rw [heq]; exact activateFlags_singleActive _ _ _ h

/-- The table after `createLocation`: untouched, or one more row with the
three flags false. -/
theorem createLocation_table (parseFloat : JsScalar → Option ℚ)
    (parseInt : JsScalar → Option Int) (newId adminId : String)
    (locations : List ChurchLocation) (body : LocationBody) :
    (createLocation parseFloat parseInt newId adminId locations body).1 = locations ∨
    ∃ row, row.isActiveSabbath = false ∧ row.isActiveWednesday = false ∧
      row.isActiveFriday = false ∧
      (createLocation parseFloat parseInt newId adminId locations body).1 =
        locations ++ [row] := by
  unfold createLocation
  split
  · left; rfl
  · simp only []
    split
    · left; rfl
    · split
      · right; refine ⟨_, ?_, ?_, ?_, rfl⟩ <;> rfl
      · left; rfl

theorem createLocation_singleActive (parseFloat : JsScalar → Option ℚ)
    (parseInt : JsScalar → Option Int) (newId adminId : String)
    (locations : List ChurchLocation) (body : LocationBody) (h : singleActive locations) :
    singleActive (createLocation parseFloat parseInt newId adminId locations body).1 := by
  rcases createLocation_table parseFloat parseInt newId adminId locations body with
    heq | ⟨row, h1, h2, h3, heq⟩
  · rw [heq]; exact h
  · rw [heq]
    intro s
    have := h s
    rw [List.countP_append]
    cases s <;> simpa [ServiceType.flag, h1, h2, h3] using this

/-- The table after `updateLocation`: untouched, or the row with the id
rewritten with its three flags kept. -/
theorem updateLocation_table (parseFloat : JsScalar → Option ℚ)
    (parseInt : JsScalar → Option Int) (locations : List ChurchLocation) (id : String)
    (body : LocationBody) :
    (updateLocation parseFloat parseInt locations id body).1 = locations ∨
    ∃ row new, locations.find? (fun l => l.id == id) = some row ∧
      new.id = row.id ∧
      new.isActiveSabbath = row.isActiveSabbath ∧
      new.isActiveWednesday = row.isActiveWednesday ∧
      new.isActiveFriday = row.isActiveFriday ∧
      (updateLocation parseFloat parseInt locations id body).1 =
        updateWhere (fun l => l.id == id) (fun _ => new) locations := by
  unfold updateLocation
  cases hf : locations.find? (fun l => l.id == id) with
  | none => left; rfl
  | some row =>
    simp only []
    split
    · split_ifs
      all_goals first
        | (left; rfl)
        | (right; refine ⟨row, _, rfl, ?_, ?_, ?_, ?_, rfl⟩ <;> rfl)
    · left; rfl

theorem updateLocation_singleActive (parseFloat : JsScalar → Option ℚ)
    (parseInt : JsScalar → Option Int) (locations : List ChurchLocation) (id : String)
    (body : LocationBody) (h : singleActive locations) :
    singleActive (updateLocation parseFloat parseInt locations id body).1 := by
  rcases updateLocation_table parseFloat parseInt locations id body with
    heq | ⟨row, new, hrow, -, h1, h2, h3, heq⟩
  · rw [heq]; exact h
  · rw [heq]
    intro s
    rw [updateWhere_congr_of_find _ (fun _ => new)
      (fun l => { l with
        id := new.id, name := new.name, description := new.description,
        latitude := new.latitude, longitude := new.longitude, radius := new.radius,
        address := new.address, isSaved := new.isSaved, createdBy := new.createdBy })
      locations row hrow (by simp only [← h1, ← h2, ← h3])]
    rw [countP_updateWhere_of_preserved _ _ _ (by intro x; cases s <;> rfl)]
    exact h s

/-- The table after `deleteLocation`: untouched, or the row with the id removed. -/
theorem deleteLocation_table (locations : List ChurchLocation) (id : String) :
    (deleteLocation locations id).1 = locations ∨
    (deleteLocation locations id).1 = locations.eraseP (fun l => l.id == id) := by
  unfold deleteLocation
  split
  · split
    · left; rfl
    · right; rfl
  · left; rfl

theorem deleteLocation_singleActive (locations : List ChurchLocation) (id : String)
    (h : singleActive locations) : singleActive (deleteLocation locations id).1 := by
  rcases deleteLocation_table locations id with heq | heq
  · rw [heq]; exact h
  · rw [heq]
    intro s
    exact le_trans (List.Sublist.countP_le _ (List.eraseP_sublist _)) (h s)

theorem mem_updateWhere {α : Type} (p : α → Bool) (g : α → α) (l : List α) (x : α)
    (hx : x ∈ updateWhere p g l) : x ∈ l ∨ ∃ r, l.find? p = some r ∧ x = g r := by
  induction l with
  | nil => simp [updateWhere] at hx
  | cons y ys ih =>
    unfold updateWhere at hx
    rw [List.find?_cons]
    by_cases hp : p y = true
    · simp only [hp, if_true, List.mem_cons] at hx
      rcases hx with rfl | hx
      · right; exact ⟨y, by simp [hp], rfl⟩
      · left; exact List.mem_cons_of_mem _ hx
    · simp only [hp, Bool.false_eq_true, if_false, List.mem_cons] at hx
      simp only [Bool.not_eq_true] at hp
      rcases hx with rfl | hx
      · left; exact List.mem_cons_self _ _
      · rcases ih hx with h | ⟨r, hr, hxr⟩
        · left; exact List.mem_cons_of_mem _ h
        · right; exact ⟨r, by simp [hp, hr], hxr⟩

theorem find_updateWhere_same {α : Type} (p : α → Bool) (g : α → α)
    (hg : ∀ x, p (g x) = p x) (l : List α) :
    (updateWhere p g l).find? p = (l.find? p).map g := by
  induction l with
  | nil => rfl
  | cons y ys ih =>
    unfold updateWhere
    by_cases hp : p y = true
    · simp [hp, List.find?_cons, hg]
    · simp only [Bool.not_eq_true] at hp
      simp [hp, List.find?_cons, ih]

theorem find_updateWhere_fresh {α : Type} (p q : α → Bool) (g : α → α) (l : List α) (r : α)
    (hq : ∀ x ∈ l, q x = false) (hg : q (g r) = true) (hr : l.find? p = some r) :
    (updateWhere p g l).find? q = some (g r) := by
  induction l with
  | nil => simp at hr
  | cons y ys ih =>
    unfold updateWhere
    rw [List.find?_cons] at hr
    by_cases hp : p y = true
    · simp only [hp, Option.some.injEq] at hr
      subst hr
      simp [hp, List.find?_cons, hg]
    · simp only [Bool.not_eq_true] at hp
      simp only [hp] at hr
      have hy : q y = false := hq y (List.mem_cons_self _ _)
      simp only [hp, Bool.false_eq_true, if_false, List.find?_cons, hy]
      exact ih (fun x hx => hq x (List.mem_cons_of_mem _ hx)) hr

theorem find_map_of_preserved {α : Type} (p : α → Bool) (g : α → α)
    (hg : ∀ x, p (g x) = p x) (l : List α) :
    (l.map g).find? p = (l.find? p).map g := by
  induction l with
  | nil => rfl
  | cons y ys ih =>
    by_cases hp : p y = true
    · simp [List.find?_cons, hg, hp]
    · simp only [Bool.not_eq_true] at hp
      simp [List.find?_cons, hg, hp, ih]

theorem contains_name_iff (list : List String) (s : String) :
    list.contains s = true ↔ s ∈ list := by
  simp

theorem getActiveLocationForService_eq_find (locations : List ChurchLocation)
    (s : ServiceType) :
    getActiveLocationForService locations (some s) = locations.find? s.flag := by
  cases s <;> rfl

theorem clear_then_update {α : Type} (p q : α → Bool) (c g : α → α) (l : List α) (row : α)
    (hrow : l.find? p = some row) (hcp : ∀ x, p (c x) = p x) (hcq : ∀ x, q (c x) = false)
    (hgp : ∀ x, p (g x) = p x) (hgq : ∀ x, q (g x) = true) :
    ∃ loc, (updateWhere p g (l.map c)).find? p = some loc ∧
      (updateWhere p g (l.map c)).find? q = some loc ∧
      p loc = true ∧ q loc = true ∧
      ∀ x ∈ updateWhere p g (l.map c), p x = false → q x = false := by
  have hfind : (l.map c).find? p = some (c row) := by
    rw [find_map_of_preserved p c hcp, hrow]; rfl
  have hclear : ∀ x ∈ l.map c, q x = false := by
    intro x hx
    rw [List.mem_map] at hx
    obtain ⟨y, -, rfl⟩ := hx
    exact hcq y
  refine ⟨g (c row), ?_, ?_, ?_, hgq _, ?_⟩
  · rw [find_updateWhere_same p g hgp, hfind]; rfl
  · exact find_updateWhere_fresh p q g _ _ hclear (hgq _) hfind
  · rw [hgp, hcp]; exact List.find?_some hrow
  · intro x hx hpx
    rcases mem_updateWhere p g _ x hx with h | ⟨r, hr, rfl⟩
    · exact hclear x h
    · rw [hgp, List.find?_some hr] at hpx
      exact absurd hpx (by simp)

/-- What the flag updates of `setActiveLocation` do for a listed service. -/
theorem activateFlags_listed (id : String) (list : List String)
    (locations : List ChurchLocation) (row : ChurchLocation) (s : ServiceType)
    (hs : s.name ∈ list) (hrow : locations.find? (fun l => l.id == id) = some row) :
    ∃ loc, (activateFlags id list locations).find? (fun l => l.id == id) = some loc ∧
      (activateFlags id list locations).find? s.flag = some loc ∧
      (fun l : ChurchLocation => l.id == id) loc = true ∧ s.flag loc = true ∧
      ∀ x ∈ activateFlags id list locations,
        (fun l : ChurchLocation => l.id == id) x = false → s.flag x = false := by
  rw [← contains_name_iff] at hs
  unfold activateFlags
  cases hsab : list.contains "SABBATH_MORNING" <;>
  cases hwed : list.contains "WEDNESDAY_VESPERS" <;>
  cases hfri : list.contains "FRIDAY_VESPERS" <;>
  cases s <;>
  simp only [ServiceType.name, hsab, hwed, hfri, Bool.false_eq_true] at hs <;>
  simp only [Bool.false_eq_true, if_false, if_true, List.map_map] <;>
  exact clear_then_update _ _ _ _ _ row hrow (fun x => rfl) (fun x => rfl) (fun x => rfl)
    (fun x => rfl)

/-- What a 200 answer of `setActiveLocation` tells about the call. -/
theorem setActiveLocation_activated_inv {locations ls1 : List ChurchLocation} {id : String}
    {services : Option (List String)} {loc : ChurchLocation}
    (h : setActiveLocation locations id services = (ls1, .activated loc)) :
    ∃ list row, services = some list ∧ list ≠ [] ∧
      locations.find? (fun l => l.id == id) = some row ∧
      ls1 = activateFlags id list locations ∧
      ls1.find? (fun l => l.id == id) = some loc := by
  unfold setActiveLocation at h
  cases services with
  | none => simp at h
  | some l =>
    cases l with
    | nil => simp at h
    | cons s rest =>
      cases hf : locations.find? (fun l => l.id == id) with
      | none => simp [hf] at h
      | some row =>
        simp only [hf] at h
        cases hf1 : (activateFlags id (s :: rest) locations).find? (fun l => l.id == id) with
        | none => simp [hf1] at h
        | some a =>
          simp only [hf1, Prod.mk.injEq, LocationResponse.activated.injEq] at h
          obtain ⟨rfl, rfl⟩ := h
          exact ⟨s :: rest, row, rfl, by simp, rfl, rfl, hf1⟩

/-- After a successful `setActiveLocation`, a listed service is active on the
location with the id and on no other. -/
theorem setActiveLocation_listed {locations ls1 : List ChurchLocation} {id : String}
    {services : Option (List String)} {loc : ChurchLocation}
    (h : setActiveLocation locations id services = (ls1, .activated loc))
    (s : ServiceType) (hs : ∃ list, services = some list ∧ s.name ∈ list) :
    loc.id = id ∧ loc ∈ ls1 ∧ s.flag loc = true ∧
      (∀ x ∈ ls1, x.id ≠ id → s.flag x = false) ∧
      getActiveLocationForService ls1 (some s) = some loc := by
  obtain ⟨list, row, hsv, -, hrow, hls1, hloc⟩ := setActiveLocation_activated_inv h
  obtain ⟨list2, hsv2, hmem⟩ := hs
  rw [hsv] at hsv2
  simp only [Option.some.injEq] at hsv2
  subst hsv2
  obtain ⟨loc2, h1, h2, h3, h4, h5⟩ := activateFlags_listed id list locations row s hmem hrow
  rw [← hls1] at h1 h2 h5
  rw [hloc] at h1
  simp only [Option.some.injEq] at h1
  subst h1
  refine ⟨by simpa using h3, List.mem_of_find?_eq_some hloc, h4, ?_, ?_⟩
  · intro x hx hne
    exact h5 x hx (by simpa using hne)
  · rw [getActiveLocationForService_eq_find]; exact h2

/-- The answer is MissingFields exactly when the validation condition of the
handler holds: a field is absent, a string is empty or a number is 0. -/
theorem markAttendance_missingFields_iff (dist : ℚ → ℚ → ℚ → ℚ → ℚ) (now : Clock)
    (st : State) (req : MarkRequest) :
    (markAttendance dist now st req).2 = .missingFields ↔ missingRequired req = true := by
  have h := (markAttendance_step_core dist now st req).1
  constructor
  · intro hr
    rw [hr] at h
    have h2 : Step.order.find? (stepFails dist now st req) = some Step.VALIDATE_INPUT := h.symm
    have h3 : stepFails dist now st req Step.VALIDATE_INPUT = true := List.find?_some h2
    exact h3
  · intro hv
    simp [markAttendance, hv]

/-- The validation condition spelled out field by field. -/
theorem missingRequired_iff (req : MarkRequest) :
    missingRequired req = true ↔
      (req.email = none ∨ req.email = some "") ∨ (req.latitude = none ∨ req.latitude = some 0) ∨
      (req.longitude = none ∨ req.longitude = some 0) ∨
      (req.deviceId = none ∨ req.deviceId = some "") := by
  obtain ⟨e, la, lo, d⟩ := req
  cases e <;> cases la <;> cases lo <;> cases d <;>
    simp [missingRequired, truthyString, truthyNumber, or_assoc]

theorem cos_sub_mul_cos_add (u v : ℝ) :
    Real.cos (v - u) * Real.cos (v + u) = Real.cos v ^ 2 - Real.sin u ^ 2 := by
  have h1 := Real.sin_sq_add_cos_sq u
  have h2 := Real.sin_sq_add_cos_sq v
  rw [Real.cos_sub, Real.cos_add]
  linear_combination (Real.cos v) ^ 2 * h1 - (Real.sin u) ^ 2 * h2

/-- The constant `a` as a mixture of two squares with weight `sin² (Δλ / 2)`. -/
theorem haversineA_eq (lat1 lon1 lat2 lon2 : ℝ) :
    haversineA lat1 lon1 lat2 lon2 =
      Real.sin ((lat2 - lat1) * Real.pi / 180 / 2) ^ 2 *
          (1 - Real.sin ((lon2 - lon1) * Real.pi / 180 / 2) ^ 2) +
        Real.cos ((lat1 + lat2) * Real.pi / 180 / 2) ^ 2 *
          Real.sin ((lon2 - lon1) * Real.pi / 180 / 2) ^ 2 := by
  have h := cos_sub_mul_cos_add ((lat2 - lat1) * Real.pi / 180 / 2)
    ((lat1 + lat2) * Real.pi / 180 / 2)
  have e1 : (lat1 + lat2) * Real.pi / 180 / 2 - (lat2 - lat1) * Real.pi / 180 / 2 =
      lat1 * Real.pi / 180 := by ring
  have e2 : (lat1 + lat2) * Real.pi / 180 / 2 + (lat2 - lat1) * Real.pi / 180 / 2 =
      lat2 * Real.pi / 180 := by ring
  rw [e1, e2] at h
  simp only [haversineA]
  rw [h]
  ring

/-- The constant `a` of `calculateDistance` lies between 0 and 1 for all inputs. -/
theorem haversineA_bounds (lat1 lon1 lat2 lon2 : ℝ) :
    0 ≤ haversineA lat1 lon1 lat2 lon2 ∧ haversineA lat1 lon1 lat2 lon2 ≤ 1 := by
  rw [haversineA_eq]
  have hs := Real.sin_sq_le_one ((lat2 - lat1) * Real.pi / 180 / 2)
  have hc := Real.cos_sq_le_one ((lat1 + lat2) * Real.pi / 180 / 2)
  have hh := Real.sin_sq_le_one ((lon2 - lon1) * Real.pi / 180 / 2)
  have hs0 := sq_nonneg (Real.sin ((lat2 - lat1) * Real.pi / 180 / 2))
  have hc0 := sq_nonneg (Real.cos ((lat1 + lat2) * Real.pi / 180 / 2))
  have hh0 := sq_nonneg (Real.sin ((lon2 - lon1) * Real.pi / 180 / 2))
  constructor
  · have := mul_nonneg hs0 (sub_nonneg.mpr hh)
    have := mul_nonneg hc0 hh0
    linarith
  · have := mul_le_mul_of_nonneg_right hs (sub_nonneg.mpr hh)
    have := mul_le_mul_of_nonneg_right hc hh0
    linarith

/-- For `0 ≤ a ≤ 1` the `atan2` form of the central angle is the `arcsin` form. -/
theorem atan2_sqrt_eq_arcsin (a : ℝ) (h0 : 0 ≤ a) (h1 : a ≤ 1) :
    atan2 (Real.sqrt a) (Real.sqrt (1 - a)) = Real.arcsin (Real.sqrt a) := by
  have habs : Complex.abs ⟨Real.sqrt (1 - a), Real.sqrt a⟩ = 1 := by
    rw [Complex.abs_apply, Complex.normSq_mk, ← sq, ← sq, Real.sq_sqrt (sub_nonneg.mpr h1),
      Real.sq_sqrt h0]
    simp
  unfold atan2 Complex.arg
  rw [if_pos (Real.sqrt_nonneg _), habs, div_one]

theorem calculateDistance_eq_arcsin (lat1 lon1 lat2 lon2 : ℝ) :
    calculateDistance lat1 lon1 lat2 lon2 =
      2 * 6371000 * Real.arcsin (Real.sqrt (haversineA lat1 lon1 lat2 lon2)) := by
  obtain ⟨h0, h1⟩ := haversineA_bounds lat1 lon1 lat2 lon2
  simp only [calculateDistance]
  rw [atan2_sqrt_eq_arcsin _ h0 h1]
  ring

theorem haversineA_symm (lat1 lon1 lat2 lon2 : ℝ) :
    haversineA lat1 lon1 lat2 lon2 = haversineA lat2 lon2 lat1 lon1 := by
  simp only [haversineA]
  have e1 : (lat1 - lat2) * Real.pi / 180 / 2 = -((lat2 - lat1) * Real.pi / 180 / 2) := by ring
  have e2 : (lon1 - lon2) * Real.pi / 180 / 2 = -((lon2 - lon1) * Real.pi / 180 / 2) := by ring
  rw [e1, e2, Real.sin_neg, Real.sin_neg]
  ring

theorem haversineA_self (x y : ℝ) : haversineA x y x y = 0 := by
  simp [haversineA]

theorem mathRound_close (x : ℚ) : |((mathRound x : Int) : ℚ) - x| ≤ 1 / 2 := by
  unfold mathRound
  have h1 := Int.floor_le (x + 1 / 2)
  have h2 := Int.lt_floor_add_one (x + 1 / 2)
  rw [abs_le]
  constructor <;> linarith

/-- What an OutOfRange answer tells about the request and the state. -/
theorem markAttendance_outOfRange_inv {dist : ℚ → ℚ → ℚ → ℚ → ℚ} {now : Clock} {st : State}
    {req : MarkRequest} {radius : Int} {name : String} {shown : Int}
    (h : (markAttendance dist now st req).2 = .outOfRange radius name shown) :
    ∃ email deviceId latitude longitude svc loc,
      req = ⟨some email, some latitude, some longitude, some deviceId⟩ ∧
      getCurrentServiceInfo now.getDay now.getHours = ⟨some svc, true⟩ ∧
      getActiveLocationForService st.locations (some svc) = some loc ∧
      dist latitude longitude loc.latitude loc.longitude > (loc.radius : ℚ) ∧
      radius = loc.radius ∧ name = loc.name ∧
      shown = mathRound (dist latitude longitude loc.latitude loc.longitude) := by
  by_cases hv : missingRequired req = true
  · simp [markAttendance, hv] at h
  · simp only [Bool.not_eq_true] at hv
    by_cases hs : (getCurrentServiceInfo now.getDay now.getHours).isServiceTime = true
    · obtain ⟨svc, hsvc⟩ := serviceInfo_eq_of_isServiceTime hs
      obtain ⟨email, la, lo, dev, rfl, -⟩ := missingRequired_false hv
      rw [markAttendance_active dist now st email dev la lo svc hv hsvc] at h
      cases hd : usedByOther st.deviceAttendance (deviceKey dev now.isoDate (some svc)) email
      swap
      · simp [hd] at h
      cases hm : st.members.find? (fun m => m.email == email) with
      | none => simp [hd, hm] at h
      | some member =>
        cases hl : getActiveLocationForService st.locations (some svc) with
        | none => simp [hd, hm, hl] at h
        | some loc =>
          by_cases hdist : dist la lo loc.latitude loc.longitude > (loc.radius : ℚ)
          · simp only [hd, hm, hl, Bool.false_eq_true, if_false, if_pos hdist,
              Response.outOfRange.injEq] at h
            exact ⟨email, dev, la, lo, svc, loc, rfl, hsvc, hl, hdist, h.1.symm, h.2.1.symm,
              h.2.2.symm⟩
          · cases hdup : st.attendances.find? (sameDayRecord now member.id svc) <;>
              simp [hd, hm, hl, hdist, hdup] at h
    · simp only [Bool.not_eq_true] at hs
      simp [markAttendance, hv, hs] at h

/-- The three answers of `deleteLocation` by the state of the row with the id. -/
theorem deleteLocation_cases (locations : List ChurchLocation) (id : String) :
    (locations.find? (fun l => l.id == id) = none ∧
      deleteLocation locations id = (locations, .failed)) ∨
    (∃ row, locations.find? (fun l => l.id == id) = some row ∧
      (row.isActiveSabbath || row.isActiveWednesday || row.isActiveFriday) = true ∧
      deleteLocation locations id = (locations, .locationInUse)) ∨
    (∃ row, locations.find? (fun l => l.id == id) = some row ∧
      (row.isActiveSabbath || row.isActiveWednesday || row.isActiveFriday) = false ∧
      deleteLocation locations id =
        (locations.eraseP (fun l => l.id == id), .deleted)) := by
  unfold deleteLocation
  cases hf : locations.find? (fun l => l.id == id) with
  | none => left; exact ⟨rfl, rfl⟩
  | some row =>
    right
    cases hflag : (row.isActiveSabbath || row.isActiveWednesday || row.isActiveFriday) with
    | true => left; exact ⟨row, rfl, hflag, by simp [hflag]⟩
    | false => right; exact ⟨row, rfl, hflag, by simp [hflag]⟩

/-- `deleteLocation` answers LocationInUse exactly when the row with the id
exists and one of its flags is set; the table is then unchanged. Without a set
flag the first row with the id, and no other, is removed. -/
theorem deleteLocation_inUse_iff (locations : List ChurchLocation) (id : String) :
    ((deleteLocation locations id).2 = .locationInUse ↔
      ∃ row, locations.find? (fun l => l.id == id) = some row ∧
        (row.isActiveSabbath = true ∨ row.isActiveWednesday = true ∨
          row.isActiveFriday = true)) ∧
    ((deleteLocation locations id).2 = .locationInUse → (deleteLocation locations id).1 = locations) ∧
    (∀ row, locations.find? (fun l => l.id == id) = some row →
      row.isActiveSabbath = false → row.isActiveWednesday = false →
      row.isActiveFriday = false →
      deleteLocation locations id = (locations.eraseP (fun l => l.id == id), .deleted)) := by
  rcases deleteLocation_cases locations id with ⟨hn, h⟩ | ⟨row, hr, hflag, h⟩ | ⟨row, hr, hflag, h⟩
  · rw [h]
    refine ⟨⟨fun hc => by simp at hc, fun ⟨row, hr, _⟩ => by rw [hn] at hr; simp at hr⟩,
      fun _ => rfl, fun row hr => by rw [hn] at hr; simp at hr⟩
  · rw [h]
    refine ⟨⟨fun _ => ⟨row, hr, by simpa [or_assoc] using hflag⟩, fun _ => rfl⟩, fun _ => rfl, ?_⟩
    intro row2 hr2 h1 h2 h3
    rw [hr] at hr2
    simp only [Option.some.injEq] at hr2
    subst hr2
    simp [h1, h2, h3] at hflag
  · rw [h]
    refine ⟨⟨fun hc => by simp at hc, ?_⟩, fun hc => by simp at hc, fun _ _ _ _ _ => rfl⟩
    rintro ⟨row2, hr2, hf2⟩
    rw [hr] at hr2
    simp only [Option.some.injEq] at hr2
    subst hr2
    simp only [Bool.or_eq_false_iff] at hflag
    rcases hf2 with h1 | h1 | h1 <;> simp [h1] at hflag

/-- `updateLocation` for an id of no row: the 500 of the `catch` block, nothing changed. -/
theorem updateLocation_unknown_id (parseFloat : JsScalar → Option ℚ)
    (parseInt : JsScalar → Option Int) (locations : List ChurchLocation) (id : String)
    (body : LocationBody) (h : locations.find? (fun l => l.id == id) = none) :
    updateLocation parseFloat parseInt locations id body = (locations, .failed) := by
  unfold updateLocation
  rw [h]

theorem isIsoDate_length {s : String} (h : isIsoDate s = true) : s.data.length = 10 := by
  unfold isIsoDate at h
  split at h
  · rename_i heq
    rw [heq]; rfl
  · exact absurd h (by simp)

theorem serviceName_no_hyphen (s : ServiceType) : '-' ∉ s.name.data := by
  cases s <;> decide

theorem serviceName_injective {s t : ServiceType} (h : s.name = t.name) : s = t := by
  cases s <;> cases t <;> first | rfl | exact absurd h (by decide)

/-- A string is split in one way only at its last hyphen. -/
theorem split_at_last_hyphen (a b n1 n2 : List Char) (h1 : '-' ∉ n1) (h2 : '-' ∉ n2)
    (h : a ++ '-' :: n1 = b ++ '-' :: n2) : a = b ∧ n1 = n2 := by
  induction a generalizing b with
  | nil =>
    cases b with
    | nil => simpa using h
    | cons y b =>
      exfalso
      simp only [List.nil_append, List.cons_append, List.cons.injEq] at h
      apply h1
      rw [h.2]
      simp
  | cons x a ih =>
    cases b with
    | nil =>
      exfalso
      simp only [List.nil_append, List.cons_append, List.cons.injEq] at h
      apply h2
      rw [← h.2]
      simp
    | cons y b =>
      simp only [List.cons_append, List.cons.injEq] at h
      obtain ⟨rfl, hrest⟩ := h
      obtain ⟨rfl, hn⟩ := ih b hrest
      exact ⟨rfl, hn⟩

theorem deviceKey_data (deviceId today : String) (s : ServiceType) :
    (deviceKey deviceId today (some s)).data =
      (deviceId.data ++ '-' :: today.data) ++ '-' :: s.name.data := by
  simp [deviceKey, serviceTypeString, String.data_append]

theorem digitChar_isDigit (k : Nat) : (digitChar k).isDigit = true := by
  unfold digitChar
  have hj : k % 10 < 10 := Nat.mod_lt _ (by decide)
  generalize k % 10 = j at hj
  interval_cases j <;> decide

/-- For the years 0 to 9999 the date part of `toISOString()` has the form
`YYYY-MM-DD`. -/
theorem isoDateOfDay_isIsoDate (days : Int) (h0 : 0 ≤ (civilFromDays days).1)
    (h1 : (civilFromDays days).1 ≤ 9999) : isIsoDate (isoDateOfDay days) = true := by
  simp only [isoDateOfDay, isoYear, h0, h1, and_self, if_true, isIsoDate, padDigits,
    List.nil_append, List.cons_append, List.append_assoc, List.singleton_append,
    digitChar_isDigit, Bool.and_self, beq_self_eq_true, Bool.and_true]

theorem forall2_map_of {α : Type} (R : α → α → Prop) (c : α → α) (hc : ∀ x, R x (c x))
    (l : List α) : List.Forall₂ R l (l.map c) := by
  induction l with
  | nil => exact List.Forall₂.nil
  | cons x xs ih => exact List.Forall₂.cons (hc x) ih

theorem forall2_updateWhere_map {α : Type} (R : α → α → Prop) (p : α → Bool) (c g : α → α)
    (hc : ∀ x, R x (c x)) (hg : ∀ x, R x (g (c x))) (l : List α) :
    List.Forall₂ R l (updateWhere p g (l.map c)) := by
  induction l with
  | nil => exact List.Forall₂.nil
  | cons x xs ih =>
    rw [List.map_cons]
    unfold updateWhere
    by_cases hp : p (c x) = true
    · rw [if_pos hp]
      exact List.Forall₂.cons (hg x) (forall2_map_of R c hc xs)
    · rw [if_neg hp]
      exact List.Forall₂.cons (hc x) ih

theorem forall2_updateWhere {α : Type} (R : α → α → Prop) (p : α → Bool) (g : α → α)
    (hr : ∀ x, R x x) (hg : ∀ x, R x (g x)) (l : List α) :
    List.Forall₂ R l (updateWhere p g l) := by
  have h := forall2_updateWhere_map R p (fun x => x) g hr hg l
  rwa [List.map_id'] at h

theorem updateWhere_of_fixed {α : Type} (p : α → Bool) (g : α → α) (hg : ∀ x, g x = x)
    (l : List α) : updateWhere p g l = l := by
  induction l with
  | nil => rfl
  | cons x xs ih =>
    unfold updateWhere
    split_ifs
    · rw [hg]
    · rw [ih]

/-- The flag updates of `setActiveLocation` leave every column of every row as
it was, the flags of the listed services aside. -/
theorem activateFlags_frame (id : String) (list : List String)
    (locations : List ChurchLocation) :
    List.Forall₂ (sameExceptFlags list) locations (activateFlags id list locations) := by
  unfold activateFlags
  cases hsab : list.contains "SABBATH_MORNING" <;>
  cases hwed : list.contains "WEDNESDAY_VESPERS" <;>
  cases hfri : list.contains "FRIDAY_VESPERS" <;>
  simp only [Bool.false_eq_true, if_false, if_true, List.map_map] <;>
  first
  | (refine forall2_updateWhere _ _ _ ?_ ?_ locations <;>
      · intro x
        refine ⟨rfl, rfl, rfl, rfl, rfl, rfl, rfl, rfl, rfl, ?_⟩
        intro s hs
        cases s <;> rfl)
  | (refine forall2_updateWhere_map _ _ _ _ ?_ ?_ locations <;>
      · intro x
        refine ⟨rfl, rfl, rfl, rfl, rfl, rfl, rfl, rfl, rfl, ?_⟩
        intro s hs
        cases s <;>
          first
          | rfl
          | (exfalso; apply hs; simpa [ServiceType.name] using hsab)
          | (exfalso; apply hs; simpa [ServiceType.name] using hwed)
          | (exfalso; apply hs; simpa [ServiceType.name] using hfri))

/-- The flag updates of `setActiveLocation` for a list with none of the three
service names change nothing. -/
theorem activateFlags_unrecognised (id : String) (list : List String)
    (locations : List ChurchLocation) (h : ∀ s : ServiceType, s.name ∉ list) :
    activateFlags id list locations = locations := by
  have hsab : list.contains "SABBATH_MORNING" = false := by
    have := h .SABBATH_MORNING
    simpa [ServiceType.name] using this
  have hwed : list.contains "WEDNESDAY_VESPERS" = false := by
    have := h .WEDNESDAY_VESPERS
    simpa [ServiceType.name] using this
  have hfri : list.contains "FRIDAY_VESPERS" = false := by
    have := h .FRIDAY_VESPERS
    simpa [ServiceType.name] using this
  unfold activateFlags
  simp only [hsab, hwed, hfri, Bool.false_eq_true, if_false]
  exact updateWhere_of_fixed _ _ (fun x => rfl) _

/-- The flag updates of `setActiveLocation` depend on the list of services
only through the presence of the three service names. -/
theorem activateFlags_congr (id : String) (list1 list2 : List String)
    (locations : List ChurchLocation)
    (h : ∀ s : ServiceType, s.name ∈ list1 ↔ s.name ∈ list2) :
    activateFlags id list1 locations = activateFlags id list2 locations := by
  have hsab : list1.contains "SABBATH_MORNING" = list2.contains "SABBATH_MORNING" := by
    have := h .SABBATH_MORNING
    rw [Bool.eq_iff_iff]
    simpa [ServiceType.name] using this
  have hwed : list1.contains "WEDNESDAY_VESPERS" = list2.contains "WEDNESDAY_VESPERS" := by
    have := h .WEDNESDAY_VESPERS
    rw [Bool.eq_iff_iff]
    simpa [ServiceType.name] using this
  have hfri : list1.contains "FRIDAY_VESPERS" = list2.contains "FRIDAY_VESPERS" := by
    have := h .FRIDAY_VESPERS
    rw [Bool.eq_iff_iff]
    simpa [ServiceType.name] using this
  unfold activateFlags
  rw [hsab, hwed, hfri]

/-- `setActiveLocation` for a non-empty list of services. -/
theorem setActiveLocation_nonempty (locations : List ChurchLocation) (id : String)
    (list : List String) (hne : list ≠ []) :
    setActiveLocation locations id (some list) =
      match locations.find? (fun l => l.id == id) with
      | none => (locations, .notFound)
      | some _ =>
        match (activateFlags id list locations).find? (fun l => l.id == id) with
        | some activeLocation => (activateFlags id list locations, .activated activeLocation)
        | none => (activateFlags id list locations, .failed) := by
  cases list with
  | nil => exact absurd rfl hne
  | cons s rest => rfl

instance : IsTotal Attendance newerFirst := ⟨fun a b => le_total b.attendedAt a.attendedAt⟩

instance : IsTrans Attendance newerFirst :=
  ⟨fun _ _ _ hab hbc => le_trans hbc hab⟩

theorem serviceCount_nil (key : ServiceType) : serviceCount [] key = none := rfl

theorem serviceCount_cons (p : ServiceType × Nat) (acc : List (ServiceType × Nat))
    (key : ServiceType) :
    serviceCount (p :: acc) key = if p.1 = key then some p.2 else serviceCount acc key := by
  unfold serviceCount
  rw [List.find?_cons]
  by_cases h : p.1 = key
  · have hb : (p.1 == key) = true := by simp [h]
    simp [hb, h]
  · have hb : (p.1 == key) = false := by simp [h]
    simp [hb, h]

theorem serviceCount_bumpCount (key other : ServiceType) (acc : List (ServiceType × Nat)) :
    serviceCount (bumpCount key acc) other =
      if other = key then some ((serviceCount acc key).getD 0 + 1)
      else serviceCount acc other := by
  induction acc with
  | nil =>
    simp only [bumpCount, serviceCount_cons, serviceCount_nil]
    by_cases h : other = key
    · simp [h]
    · have h2 : ¬ key = other := fun hc => h hc.symm
      simp [h, h2]
  | cons p rest ih =>
    unfold bumpCount
    by_cases hp : p.1 = key
    · rw [if_pos hp]
      simp only [serviceCount_cons]
      by_cases h : other = key
      · simp [h, hp]
      · have h2 : ¬ p.1 = other := fun hc => h (hc.symm.trans hp)
        simp [h, h2]
    · rw [if_neg hp]
      simp only [serviceCount_cons, ih]
      by_cases h : other = key
      · subst h
        simp [hp]
      · by_cases h3 : p.1 = other
        · simp [h, h3]
        · simp [h, h3]

theorem sum_bumpCount (key : ServiceType) (acc : List (ServiceType × Nat)) :
    ((bumpCount key acc).map (fun p => p.2)).sum = (acc.map (fun p => p.2)).sum + 1 := by
  induction acc with
  | nil => simp [bumpCount]
  | cons p rest ih =>
    unfold bumpCount
    by_cases hp : p.1 = key
    · rw [if_pos hp]
      simp only [List.map_cons, List.sum_cons]
      omega
    · rw [if_neg hp]
      simp only [List.map_cons, List.sum_cons, ih]
      omega

theorem keys_bumpCount (key : ServiceType) (acc : List (ServiceType × Nat)) :
    (bumpCount key acc).map (fun p => p.1) =
      if key ∈ acc.map (fun p => p.1) then acc.map (fun p => p.1)
      else acc.map (fun p => p.1) ++ [key] := by
  induction acc with
  | nil => simp [bumpCount]
  | cons p rest ih =>
    unfold bumpCount
    by_cases hp : p.1 = key
    · rw [if_pos hp]
      simp [hp]
    · rw [if_neg hp]
      have h2 : ¬ key = p.1 := fun hc => hp hc.symm
      simp only [List.map_cons, ih, List.mem_cons, h2, false_or]
      split_ifs <;> simp

theorem nodup_keys_bumpCount (key : ServiceType) (acc : List (ServiceType × Nat))
    (h : (acc.map (fun p => p.1)).Nodup) : ((bumpCount key acc).map (fun p => p.1)).Nodup := by
  rw [keys_bumpCount]
  split_ifs with hk
  · exact h
  · rw [List.nodup_append]
    refine ⟨h, List.nodup_singleton _, ?_⟩
    intro a ha hb
    rw [List.mem_singleton] at hb
    subst hb
    exact hk ha

/-- The `byService` object after counting a list of records into `acc`. -/
theorem foldl_countService (l : List Attendance) (acc : List (ServiceType × Nat)) :
    (∀ key, serviceCount (l.foldl countService acc) key =
      if l.countP (fun a => a.serviceType == key) = 0 then serviceCount acc key
      else some ((serviceCount acc key).getD 0 + l.countP (fun a => a.serviceType == key))) ∧
    ((l.foldl countService acc).map (fun p => p.2)).sum =
      (acc.map (fun p => p.2)).sum + l.length ∧
    ((acc.map (fun p => p.1)).Nodup →
      ((l.foldl countService acc).map (fun p => p.1)).Nodup) := by
  induction l generalizing acc with
  | nil => simp
  | cons a rest ih =>
    obtain ⟨h1, h2, h3⟩ := ih (countService acc a)
    refine ⟨?_, ?_, ?_⟩
    · intro key
      rw [List.foldl_cons, h1 key, List.countP_cons]
      unfold countService
      rw [serviceCount_bumpCount]
      by_cases hk : key = a.serviceType
      · subst hk
        simp only [beq_self_eq_true, if_true]
        by_cases hc : List.countP (fun b => b.serviceType == a.serviceType) rest = 0
        · simp [hc]
        · have hc2 : ¬ (List.countP (fun b => b.serviceType == a.serviceType) rest + 1 = 0) := by
            omega
          rw [if_neg hc, if_neg hc2]
          simp only [Option.getD_some, Option.some.injEq]
          omega
      · have hk2 : (a.serviceType == key) = false := by
          simp only [beq_eq_false_iff_ne, ne_eq]
          exact fun hc => hk hc.symm
        simp only [hk, if_false, hk2, Bool.false_eq_true, Nat.add_zero]
    · rw [List.foldl_cons, h2]
      unfold countService
      rw [sum_bumpCount, List.length_cons]
      omega
    · intro hn
      rw [List.foldl_cons]
      exact h3 (nodup_keys_bumpCount _ _ hn)

theorem mem_keys_iff_serviceCount (acc : List (ServiceType × Nat)) (key : ServiceType) :
    key ∈ acc.map (fun p => p.1) ↔ (serviceCount acc key).isSome = true := by
  induction acc with
  | nil => simp [serviceCount_nil]
  | cons p rest ih =>
    rw [serviceCount_cons, List.map_cons, List.mem_cons, ih]
    by_cases h : p.1 = key
    · simp [h]
    · have h2 : ¬ key = p.1 := fun hc => h hc.symm
      simp [h, h2]

/-- A request appends at most one row to the attendance table: the table before
is a prefix of the table after. -/
theorem markAttendance_extends_attendances (dist : ℚ → ℚ → ℚ → ℚ → ℚ) (now : Clock)
    (st : State) (req : MarkRequest) :
    st.attendances <+: (markAttendance dist now st req).1.attendances := by
  rcases markAttendance_cases dist now st req with ⟨hst, -⟩ | hok
  · rw [hst]
  · obtain ⟨email, dev, la, lo, svc, m, loc, -, -, -, -, -, -, -, -, heq⟩ := hok
    rw [heq]
    exact List.prefix_append _ _

/-- Any sequence of requests only appends rows to the attendance table. -/
theorem markAll_extends_attendances (dist : ℚ → ℚ → ℚ → ℚ → ℚ) (st : State)
    (requests : List (Clock × MarkRequest)) :
    st.attendances <+: (markAll dist st requests).attendances := by
  induction requests generalizing st with
  | nil => exact List.prefix_refl _
  | cons r rest ih =>
    exact (markAttendance_extends_attendances dist r.1 st r.2).trans (ih _)

/-- The first match of a query in a table is its first match in every table
that extends it. -/
theorem find_in_extension {α : Type} (p : α → Bool) {l1 l2 : List α} {x : α}
    (hpre : l1 <+: l2) (h : l1.find? p = some x) : l2.find? p = some x := by
  obtain ⟨t, rfl⟩ := hpre
  rw [List.find?_append, h]
  rfl

/-- In exact real arithmetic the quantities under the two square roots of
`calculateDistance` are non-negative (`0 ≤ a` and `0 ≤ 1 - a`), the two
arguments of `atan2` are not both zero, and the distance is non-negative. -/
theorem calculateDistance_nonneg (lat1 lon1 lat2 lon2 : ℝ) :
    0 ≤ haversineA lat1 lon1 lat2 lon2 ∧
    0 ≤ 1 - haversineA lat1 lon1 lat2 lon2 ∧
    ¬ (Real.sqrt (haversineA lat1 lon1 lat2 lon2) = 0 ∧
      Real.sqrt (1 - haversineA lat1 lon1 lat2 lon2) = 0) ∧
    0 ≤ calculateDistance lat1 lon1 lat2 lon2 := by
  obtain ⟨h0, h1⟩ := haversineA_bounds lat1 lon1 lat2 lon2
  refine ⟨h0, sub_nonneg.mpr h1, ?_, ?_⟩
  · rintro ⟨ha, hb⟩
    rw [Real.sqrt_eq_zero h0] at ha
    rw [Real.sqrt_eq_zero (sub_nonneg.mpr h1)] at hb
    linarith
  · rw [calculateDistance_eq_arcsin]
    have := Real.arcsin_nonneg.mpr (Real.sqrt_nonneg (haversineA lat1 lon1 lat2 lon2))
    positivity

/-- In exact real arithmetic the quantity `a` of `calculateDistance` satisfies
`0 ≤ a ≤ 1`, also when `cos phi1 * cos phi2` is negative, and the distance is
at most `pi * 6371000` meters. -/
theorem calculateDistance_le_half_circumference (lat1 lon1 lat2 lon2 : ℝ) :
    0 ≤ haversineA lat1 lon1 lat2 lon2 ∧
    haversineA lat1 lon1 lat2 lon2 ≤ 1 ∧
    haversineA lat1 lon1 lat2 lon2 =
      Real.sin ((lat2 - lat1) * Real.pi / 180 / 2) ^ 2 +
        Real.cos (lat1 * Real.pi / 180) * Real.cos (lat2 * Real.pi / 180) *
          Real.sin ((lon2 - lon1) * Real.pi / 180 / 2) ^ 2 ∧
    calculateDistance lat1 lon1 lat2 lon2 ≤ Real.pi * 6371000 := by
  obtain ⟨h0, h1⟩ := haversineA_bounds lat1 lon1 lat2 lon2
  refine ⟨h0, h1, by simp only [haversineA]; ring, ?_⟩
  rw [calculateDistance_eq_arcsin]
  have h := Real.arcsin_le_pi_div_two (Real.sqrt (haversineA lat1 lon1 lat2 lon2))
  linarith

/-- The angles of `calculateDistance(8, -179, -8, 1)` in double arithmetic: the
two latitudes in radians, half the latitude difference and half the longitude
difference. -/
theorem antipodal_angles :
    ((8 : Double) * mathPI) / 180 = .finite (5030569068109113 / 36028797018963968) ∧
    ((-8 : Double) * mathPI) / 180 = .finite (-5030569068109113 / 36028797018963968) ∧
    (((-8 : Double) - 8) * mathPI) / 180 / 2 =
      .finite (-5030569068109113 / 36028797018963968) ∧
    (((1 : Double) - (-179)) * mathPI) / 180 / 2 =
      .finite (884279719003555 / 562949953421312) := by
  decide!

/-- The constant `a` of `calculateDistance(8, -179, -8, 1)` in double
arithmetic, for every library that returns the nearest doubles of the sine and
cosine at the four angles (`sin (-0.13962634015954636) = -0.13917310096006544`,
`sin 1.5707963267948966 = 1`, `cos 0.13962634015954636 = 0.9902680687415704`
and the same for the negative angle): the sum of `0.019369152030840567` and
`0.9806308479691596` rounds to `1 + 2 ^ (-52)`, the double
`1.0000000000000002`. -/
theorem haversineADouble_antipodal (lib : MathLibrary)
    (hsin1 : lib.sin (-5030569068109113 / 36028797018963968) =
      -5014239404989977 / 36028797018963968)
    (hsin2 : lib.sin (884279719003555 / 562949953421312) = 1)
    (hcos1 : lib.cos (5030569068109113 / 36028797018963968) =
      4459770905381437 / 4503599627370496)
    (hcos2 : lib.cos (-5030569068109113 / 36028797018963968) =
      4459770905381437 / 4503599627370496) :
    haversineADouble lib 8 (-179) (-8) 1 =
      .finite (4503599627370497 / 4503599627370496) := by
  obtain ⟨h1, h2, h3, h4⟩ := antipodal_angles
  simp only [haversineADouble, h1, h2, h3, h4, mathSin, mathCos, hsin1, hsin2, hcos1, hcos2]
  decide!

/-- The double model at the example of the spec: for the request 150 m south
of Main Campus `calculateDistance` returns the double `150.1131509701501`. -/
theorem calculateDistanceDouble_example :
    calculateDistanceDouble tableMath (Double.round (-5123 / 4000)) (Double.round (92039 / 2500))
        (Double.round (-6397 / 5000)) (Double.round (92039 / 2500)) =
      .finite (5281636959160773 / 35184372088832) ∧
    exampleDistance (-5123 / 4000) (92039 / 2500) (-6397 / 5000) (92039 / 2500) =
      5281636959160773 / 35184372088832 := by
  decide!

/-- NaN under the second square root makes the result NaN: `Math.atan2` of a
NaN argument is NaN, and so are its products with 2 and with the radius. -/
theorem calculateDistanceDouble_nan_of_sqrt_nan (lib : MathLibrary)
    (lat1 lon1 lat2 lon2 : Double)
    (h : mathSqrt (1 - haversineADouble lib lat1 lon1 lat2 lon2) = .nan) :
    calculateDistanceDouble lib lat1 lon1 lat2 lon2 = .nan := by
  simp only [calculateDistanceDouble, h]
  cases mathSqrt (haversineADouble lib lat1 lon1 lat2 lon2) <;>
    simp only [mathAtan2] <;> decide!

/-! ## The claims -/

/-- C1: `markAttendance` reports the failure of the first failing check in the
fixed order VALIDATE_INPUT, CHECK_SERVICE_WINDOW, CHECK_DEVICE, RESOLVE_MEMBER,
RESOLVE_LOCATION, CHECK_DISTANCE, CHECK_DUPLICATE; it answers with success
(201, the created record appended to the table) exactly when none of the seven
checks fails, and every other answer is the failure of one of the seven. In
particular, when the email matches no member and no location is active, a
request that passed the three earlier checks is answered MemberNotFound (404),
and no request whose email matches no member is answered NoActiveLocation. -/
theorem markAttendance_reports_first_failing_step
    (calculateDistance : ℚ → ℚ → ℚ → ℚ → ℚ) (now : Clock) (st : State) (req : MarkRequest) :
    (markAttendance calculateDistance now st req).2.failedStep =
        Step.order.find? (stepFails calculateDistance now st req) ∧
    ((markAttendance calculateDistance now st req).2.isSuccess = true ↔
        ∀ step, stepFails calculateDistance now st req step = false) ∧
    ((markAttendance calculateDistance now st req).2.isSuccess = true →
        (markAttendance calculateDistance now st req).2.status = 201 ∧
        ∃ record member,
          (markAttendance calculateDistance now st req).2 = .success record member ∧
          (markAttendance calculateDistance now st req).1.attendances =
            st.attendances ++ [record]) ∧
    ((markAttendance calculateDistance now st req).2.isSuccess = false →
        ∃ step, (markAttendance calculateDistance now st req).2.failedStep = some step) ∧
    (stepFails calculateDistance now st req .VALIDATE_INPUT = false →
      stepFails calculateDistance now st req .CHECK_SERVICE_WINDOW = false →
      stepFails calculateDistance now st req .CHECK_DEVICE = false →
      stepFails calculateDistance now st req .RESOLVE_MEMBER = true →
      stepFails calculateDistance now st req .RESOLVE_LOCATION = true →
        (markAttendance calculateDistance now st req).2 = .memberNotFound ∧
        (markAttendance calculateDistance now st req).2.status = 404) ∧
    (stepFails calculateDistance now st req .RESOLVE_MEMBER = true →
        (markAttendance calculateDistance now st req).2 ≠ .noActiveLocation) := by
  obtain ⟨hstep, hsucc, hnf⟩ := markAttendance_step_core calculateDistance now st req
  refine ⟨hstep, hsucc, ?_, ?_, ?_, ?_⟩
  · intro h
    rcases markAttendance_cases calculateDistance now st req with ⟨-, hf⟩ | hok
    · rw [h] at hf; exact absurd hf (by simp)
    · obtain ⟨email, dev, la, lo, svc, member, loc, -, -, -, -, -, -, -, -, heq⟩ := hok
      rw [heq]
      exact ⟨rfl, _, _, rfl, rfl⟩
  · intro h
    generalize markAttendance calculateDistance now st req = out at h hnf
    obtain ⟨s, r⟩ := out
    cases r <;> simp_all [Response.failedStep, Response.isSuccess]
  · intro h1 h2 h3 h4 _
    have hfind : Step.order.find? (stepFails calculateDistance now st req) =
        some .RESOLVE_MEMBER := by
      simp [Step.order, List.find?, h1, h2, h3, h4]
    rw [hfind] at hstep
    generalize markAttendance calculateDistance now st req = out at hstep
    obtain ⟨s, r⟩ := out
    cases r <;> simp_all [Response.failedStep, Response.status]
  · intro h4 hc
    rw [hc] at hstep
    simp only [Response.failedStep, Step.order, List.find?] at hstep
    cases h1 : stepFails calculateDistance now st req .VALIDATE_INPUT <;>
    cases h2 : stepFails calculateDistance now st req .CHECK_SERVICE_WINDOW <;>
    cases h3 : stepFails calculateDistance now st req .CHECK_DEVICE <;>
    simp [h1, h2, h3, h4] at hstep

/-- C2: for every day of the week and hour, `getCurrentServiceInfo` is
SABBATH_MORNING and active exactly on Saturday with 8 <= hour < 17,
WEDNESDAY_VESPERS and active exactly on Wednesday with 17 <= hour < 20,
FRIDAY_VESPERS and active exactly on Friday with 17 <= hour < 20, and no
service otherwise; no two windows hold together, `isServiceTime` is true
exactly when `serviceType` is not null, and the six boundary hours fall on the
stated sides. -/
theorem getCurrentServiceInfo_windows (day hour : Nat) :
    (getCurrentServiceInfo day hour =
        { serviceType := some .SABBATH_MORNING, isServiceTime := true } ↔
      day = 6 ∧ 8 ≤ hour ∧ hour < 17) ∧
    (getCurrentServiceInfo day hour =
        { serviceType := some .WEDNESDAY_VESPERS, isServiceTime := true } ↔
      day = 3 ∧ 17 ≤ hour ∧ hour < 20) ∧
    (getCurrentServiceInfo day hour =
        { serviceType := some .FRIDAY_VESPERS, isServiceTime := true } ↔
      day = 5 ∧ 17 ≤ hour ∧ hour < 20) ∧
    (getCurrentServiceInfo day hour = { serviceType := none, isServiceTime := false } ↔
      ¬ (day = 6 ∧ 8 ≤ hour ∧ hour < 17) ∧ ¬ (day = 3 ∧ 17 ≤ hour ∧ hour < 20) ∧
        ¬ (day = 5 ∧ 17 ≤ hour ∧ hour < 20)) ∧
    ¬ ((day = 6 ∧ 8 ≤ hour ∧ hour < 17) ∧ (day = 3 ∧ 17 ≤ hour ∧ hour < 20)) ∧
    ¬ ((day = 6 ∧ 8 ≤ hour ∧ hour < 17) ∧ (day = 5 ∧ 17 ≤ hour ∧ hour < 20)) ∧
    ¬ ((day = 3 ∧ 17 ≤ hour ∧ hour < 20) ∧ (day = 5 ∧ 17 ≤ hour ∧ hour < 20)) ∧
    ((getCurrentServiceInfo day hour).isServiceTime = true ↔
      (getCurrentServiceInfo day hour).serviceType ≠ none) ∧
    (∀ t : ServiceType, (getCurrentServiceInfo day hour).serviceType = some t →
      getCurrentServiceInfo day hour = { serviceType := some t, isServiceTime := true }) ∧
    getCurrentServiceInfo 6 17 = { serviceType := none, isServiceTime := false } ∧
    getCurrentServiceInfo 3 20 = { serviceType := none, isServiceTime := false } ∧
    getCurrentServiceInfo 5 20 = { serviceType := none, isServiceTime := false } ∧
    getCurrentServiceInfo 6 8 =
      { serviceType := some .SABBATH_MORNING, isServiceTime := true } ∧
    getCurrentServiceInfo 3 17 =
      { serviceType := some .WEDNESDAY_VESPERS, isServiceTime := true } ∧
    getCurrentServiceInfo 5 17 =
      { serviceType := some .FRIDAY_VESPERS, isServiceTime := true } := by
  refine ⟨?_, ?_, ?_, ?_, by omega, by omega, by omega, ?_, ?_, by decide, by decide,
    by decide, by decide, by decide, by decide⟩ <;>
  · unfold getCurrentServiceInfo
    split_ifs <;> simp <;> omega

/-- C3: for a request that reaches the distance check (fields valid, service
active, device allowed, member found, location `L` active) the answer is
OutOfRange exactly when `calculateDistance(latitude, longitude, L.latitude,
L.longitude) > L.radius`; at a distance of exactly `L.radius` the request passes
the distance check (it is answered with success or AlreadyMarked) and at
`L.radius + 1` it is rejected with OutOfRange (403). -/
theorem markAttendance_outOfRange_iff (calculateDistance : ℚ → ℚ → ℚ → ℚ → ℚ)
    (now : Clock) (st : State) (email deviceId : String) (latitude longitude : ℚ)
    (svc : ServiceType) (member : Member) (L : ChurchLocation)
    (hv : missingRequired ⟨some email, some latitude, some longitude, some deviceId⟩ = false)
    (hs : getCurrentServiceInfo now.getDay now.getHours = ⟨some svc, true⟩)
    (hd : usedByOther st.deviceAttendance (deviceKey deviceId now.isoDate (some svc)) email
      = false)
    (hm : st.members.find? (fun m => m.email == email) = some member)
    (hl : getActiveLocationForService st.locations (some svc) = some L) :
    ((∃ r n d, (markAttendance calculateDistance now st
          ⟨some email, some latitude, some longitude, some deviceId⟩).2 = .outOfRange r n d) ↔
        calculateDistance latitude longitude L.latitude L.longitude > (L.radius : ℚ)) ∧
    (calculateDistance latitude longitude L.latitude L.longitude > (L.radius : ℚ) →
      (markAttendance calculateDistance now st
          ⟨some email, some latitude, some longitude, some deviceId⟩).2 =
        .outOfRange L.radius L.name
          (mathRound (calculateDistance latitude longitude L.latitude L.longitude))) ∧
    (calculateDistance latitude longitude L.latitude L.longitude = (L.radius : ℚ) →
      (markAttendance calculateDistance now st
          ⟨some email, some latitude, some longitude, some deviceId⟩).2.isSuccess = true ∨
      ∃ t n, (markAttendance calculateDistance now st
          ⟨some email, some latitude, some longitude, some deviceId⟩).2 = .alreadyMarked t n) ∧
    (calculateDistance latitude longitude L.latitude L.longitude = (L.radius : ℚ) + 1 →
      (markAttendance calculateDistance now st
          ⟨some email, some latitude, some longitude, some deviceId⟩).2 =
        .outOfRange L.radius L.name (L.radius + 1) ∧
      (markAttendance calculateDistance now st
          ⟨some email, some latitude, some longitude, some deviceId⟩).2.status = 403) := by
  have hrun := markAttendance_active calculateDistance now st email deviceId latitude
    longitude svc hv hs
  simp only [hd, hm, hl, Bool.false_eq_true, if_false] at hrun
  by_cases hdist : calculateDistance latitude longitude L.latitude L.longitude > (L.radius : ℚ)
  · rw [if_pos hdist] at hrun
    rw [hrun]
    refine ⟨⟨fun _ => hdist, fun _ => ⟨_, _, _, rfl⟩⟩, fun _ => rfl, fun h => ?_, fun h => ?_⟩
    · rw [h] at hdist; exact absurd hdist (lt_irrefl _)
    · rw [h, mathRound_intCast_add_one]; exact ⟨rfl, rfl⟩
  · rw [if_neg hdist] at hrun
    rw [hrun]
    refine ⟨?_, fun h => absurd h hdist, fun _ => ?_, fun h => ?_⟩
    · cases st.attendances.find? (sameDayRecord now member.id svc) <;> simp [hdist]
    · cases st.attendances.find? (sameDayRecord now member.id svc) <;>
        simp [Response.isSuccess]
    · rw [h] at hdist; exact absurd (by linarith) hdist

/-- Witness for C3: Alice, away from Main Campus on Saturday 10:00, is answered
OutOfRange with radius 100 and distance 150. -/
theorem markAttendance_outOfRange_iff_witness :
    (markAttendance demoDistance saturdayTen demoState aliceFarRequest).2 =
      .outOfRange 100 "Main Campus" 150 :=
  have h := (markAttendance_outOfRange_iff demoDistance saturdayTen demoState "alice@x.com"
    "dev-1" (-2) 37 .SABBATH_MORNING alice mainCampus (by decide) (by decide) (by decide)
    (by decide) (by decide)).2.1 (by decide)
  h.trans (by
    have : mathRound (demoDistance (-2) 37 mainCampus.latitude mainCampus.longitude) = 150 := by
      have h1 : demoDistance (-2) 37 mainCampus.latitude mainCampus.longitude = 150 := by decide
      rw [h1]; unfold mathRound; rw [Int.floor_eq_iff]; constructor <;> norm_num
    rw [this]; rfl)

/-- C4: if `markAttendance` succeeds for a member, then a later call for the same
member during the same service on the same local calendar day, with the other
checks passing, is answered AlreadyMarked (400), leaves the attendance table
(and the rest of the state) as it was, and carries the `attendedAt` and the
location name of the first record. The state of the later call is any state
whose attendance table extends the table the first call left, whatever rows
other requests have appended in between; after any sequence of requests the
table is such an extension. -/
theorem markAttendance_twice_alreadyMarked (calculateDistance : ℚ → ℚ → ℚ → ℚ → ℚ)
    (now1 now2 : Clock) (st st2 : State) (req1 : MarkRequest) (record : Attendance)
    (member member2 : Member) (email2 deviceId2 : String) (latitude2 longitude2 : ℚ)
    (L2 : ChurchLocation)
    (hfirst : (markAttendance calculateDistance now1 st req1).2 = .success record member)
    (hatt : (markAttendance calculateDistance now1 st req1).1.attendances <+: st2.attendances)
    (htz : now2.tzOffsetMin = now1.tzOffsetMin)
    (hday : now2.localDay = now1.localDay)
    (hs2 : getCurrentServiceInfo now2.getDay now2.getHours = ⟨some record.serviceType, true⟩)
    (hv2 : missingRequired ⟨some email2, some latitude2, some longitude2, some deviceId2⟩
      = false)
    (hd2 : usedByOther st2.deviceAttendance
      (deviceKey deviceId2 now2.isoDate (some record.serviceType)) email2 = false)
    (hm2 : st2.members.find? (fun m => m.email == email2) = some member2)
    (hid : member2.id = member.id)
    (hl2 : getActiveLocationForService st2.locations (some record.serviceType) = some L2)
    (hdist2 : ¬ calculateDistance latitude2 longitude2 L2.latitude L2.longitude >
      (L2.radius : ℚ)) :
    markAttendance calculateDistance now2 st2
        ⟨some email2, some latitude2, some longitude2, some deviceId2⟩ =
      (st2, .alreadyMarked record.attendedAt record.locationName) ∧
    (Response.alreadyMarked record.attendedAt record.locationName).status = 400 ∧
    record ∈ st2.attendances ∧
    (∀ between : List (Clock × MarkRequest),
      (markAttendance calculateDistance now1 st req1).1.attendances <+:
        (markAll calculateDistance (markAttendance calculateDistance now1 st req1).1
          between).attendances) := by
  obtain ⟨email, dev, la, lo, svc, loc, -, -, -, -, -, -, -, hdup, hrec, hst1⟩ :=
    markAttendance_success_inv hfirst
  have hsvc : record.serviceType = svc := by rw [hrec]; rfl
  rw [hsvc] at hs2 hd2 hl2
  rw [hst1] at hatt
  have hfind1 : (afterSuccess st record (deviceKey dev now1.isoDate (some svc))
      email).attendances.find? (sameDayRecord now2 member2.id svc) = some record := by
    rw [hid, sameDayRecord_congr htz hday]
    simp only [afterSuccess, List.find?_append, hdup, Option.none_or]
    rw [hrec]
    simp [List.find?, sameDayRecord_newAttendance]
  have hfind : st2.attendances.find? (sameDayRecord now2 member2.id svc) = some record :=
    find_in_extension _ hatt hfind1
  refine ⟨?_, rfl, ?_, fun between => markAll_extends_attendances _ _ between⟩
  · rw [markAttendance_active calculateDistance now2 st2 email2 deviceId2 latitude2 longitude2
      svc hv2 hs2]
    simp only [hd2, hm2, hl2, Bool.false_eq_true, if_false, if_neg hdist2, hfind]
  · exact List.mem_of_find?_eq_some hfind

/-- Witness for C4: Alice marks at Saturday 10:00, Bob marks with his own device
at 14:00, and Alice tries again at 14:00; her second answer is AlreadyMarked
with the timestamp and location of her first record, and no row is added. -/
theorem markAttendance_twice_alreadyMarked_witness :
    markAttendance demoDistance saturdayFourteen
        (markAll demoDistance demoState
          [(saturdayTen, aliceRequest), (saturdayFourteen, bobOwnRequest)]) aliceRequest =
      (markAll demoDistance demoState
          [(saturdayTen, aliceRequest), (saturdayFourteen, bobOwnRequest)],
        .alreadyMarked 1704524400000 "Main Campus") ∧
    (markAll demoDistance demoState
      [(saturdayTen, aliceRequest), (saturdayFourteen, bobOwnRequest)]).attendances.length = 2 :=
  ⟨(markAttendance_twice_alreadyMarked demoDistance saturdayTen saturdayFourteen demoState
    (markAll demoDistance demoState
      [(saturdayTen, aliceRequest), (saturdayFourteen, bobOwnRequest)]) aliceRequest
    (newAttendance saturdayTen "m1" .SABBATH_MORNING (-1) 37 "Main Campus") alice alice
    "alice@x.com" "dev-1" (-1) 37 mainCampus (by decide)
    (markAll_extends_attendances demoDistance _ [(saturdayFourteen, bobOwnRequest)])
    rfl (by decide) (by decide)
    (by decide) (by decide) (by decide) rfl (by decide) (by decide)).1, by decide⟩

/-- C5 (evaluation at the failing input): on a server at UTC-5, device dev-1
marks for alice@x.com on Wednesday 18:00 local time (2024-01-03T23:00Z); the
attempt of the same device for bob@x.com at 19:10 local time of the same local
day, during the same Wednesday vespers (2024-01-04T00:10Z), is not answered
DeviceAlreadyUsed: the two device keys carry different UTC dates and the
attempt succeeds with 201. -/
theorem markAttendance_device_reuse_across_utc_midnight :
    (markAttendance demoDistance wednesdayEighteen demoState aliceRequest).2 =
      .success (newAttendance wednesdayEighteen "m1" .WEDNESDAY_VESPERS (-1) 37 "Main Campus")
        alice ∧
    wednesdayNineteenTen.tzOffsetMin = wednesdayEighteen.tzOffsetMin ∧
    wednesdayNineteenTen.localDay = wednesdayEighteen.localDay ∧
    getCurrentServiceInfo wednesdayEighteen.getDay wednesdayEighteen.getHours =
      ⟨some .WEDNESDAY_VESPERS, true⟩ ∧
    getCurrentServiceInfo wednesdayNineteenTen.getDay wednesdayNineteenTen.getHours =
      ⟨some .WEDNESDAY_VESPERS, true⟩ ∧
    wednesdayEighteen.isoDate = "2024-01-03" ∧
    wednesdayNineteenTen.isoDate = "2024-01-04" ∧
    (markAttendance demoDistance wednesdayNineteenTen
        (markAttendance demoDistance wednesdayEighteen demoState aliceRequest).1 bobRequest).2 =
      .success (newAttendance wednesdayNineteenTen "m2" .WEDNESDAY_VESPERS (-1) 37
        "Main Campus") bob ∧
    (markAttendance demoDistance wednesdayNineteenTen
        (markAttendance demoDistance wednesdayEighteen demoState aliceRequest).1
        bobRequest).2.status = 201 := by
  decide

/-- C6 (evaluation at the failing input): on a server at UTC-5, after device
dev-1 marked for alice@x.com on Wednesday 18:00 local time and for bob@x.com at
19:10 local time (the UTC date has changed in between), the repeat attempt of
dev-1 for alice@x.com at 19:20 of the same local day and the same service is
answered DeviceAlreadyUsed (429). -/
theorem markAttendance_repeat_rejected_across_utc_midnight :
    (markAttendance demoDistance wednesdayEighteen demoState aliceRequest).2.status = 201 ∧
    wednesdayNineteenTwenty.tzOffsetMin = wednesdayEighteen.tzOffsetMin ∧
    wednesdayNineteenTwenty.localDay = wednesdayEighteen.localDay ∧
    getCurrentServiceInfo wednesdayNineteenTwenty.getDay wednesdayNineteenTwenty.getHours =
      getCurrentServiceInfo wednesdayEighteen.getDay wednesdayEighteen.getHours ∧
    (markAttendance demoDistance wednesdayNineteenTwenty
        (markAll demoDistance demoState
          [(wednesdayEighteen, aliceRequest), (wednesdayNineteenTen, bobRequest)])
        aliceRequest).2 = .deviceAlreadyUsed ∧
    Response.deviceAlreadyUsed.status = 429 := by
  decide

/-- C7: starting from an attendance table with at most one row for each
member, service and local calendar day, every sequence of `markAttendance`
requests handled one after the other on the same server (successful or
failing) leaves a table with at most one row for each member, service and
local calendar day. -/
theorem markAttendance_preserves_oneRecordPerDay (calculateDistance : ℚ → ℚ → ℚ → ℚ → ℚ)
    (tzOffsetMin : Int) (reqs : List (Clock × MarkRequest)) (st : State)
    (htz : ∀ r ∈ reqs, r.1.tzOffsetMin = tzOffsetMin)
    (hinv : oneRecordPerDay tzOffsetMin st.attendances) :
    oneRecordPerDay tzOffsetMin (markAll calculateDistance st reqs).attendances := by
  induction reqs generalizing st with
  | nil => exact hinv
  | cons r rest ih =>
    have hr : r.1.tzOffsetMin = tzOffsetMin := htz r (List.mem_cons_self _ _)
    apply ih _ (fun x hx => htz x (List.mem_cons_of_mem _ hx))
    have := markAttendance_preserves_oneRecordPerDay_step calculateDistance r.1 st r.2
      (by rw [hr]; exact hinv)
    rw [hr] at this
    exact this

/-- Witness for C7: Alice marks on Saturday at 10:00 and again at 14:00, Bob
marks at 14:00; the table keeps one row for each member. -/
theorem markAttendance_preserves_oneRecordPerDay_witness :
    oneRecordPerDay 180 (markAll demoDistance demoState
      [(saturdayTen, aliceRequest), (saturdayFourteen, aliceRequest),
        (saturdayFourteen, bobOwnRequest)]).attendances ∧
    (markAll demoDistance demoState
      [(saturdayTen, aliceRequest), (saturdayFourteen, aliceRequest),
        (saturdayFourteen, bobOwnRequest)]).attendances.length = 2 :=
  ⟨markAttendance_preserves_oneRecordPerDay demoDistance 180 _ demoState (by decide)
    (by decide), by decide⟩

/-- C8: starting from a location table in which each of the three flags is
true on at most one row, each of `createLocation`, `updateLocation`,
`setActiveLocation` and `deleteLocation`, every sequence of such calls and
hence every sequence of `setActiveLocation` calls yields a table in which each
flag is true on at most one row. -/
theorem location_operations_preserve_singleActive (parseFloat : JsScalar → Option ℚ)
    (parseInt : JsScalar → Option Int) (locations : List ChurchLocation)
    (h : singleActive locations) :
    (∀ newId adminId body,
      singleActive (createLocation parseFloat parseInt newId adminId locations body).1) ∧
    (∀ id body, singleActive (updateLocation parseFloat parseInt locations id body).1) ∧
    (∀ id services, singleActive (setActiveLocation locations id services).1) ∧
    (∀ id, singleActive (deleteLocation locations id).1) ∧
    (∀ ops, singleActive (runLocationOps parseFloat parseInt locations ops)) ∧
    (∀ calls : List (String × Option (List String)),
      singleActive (runLocationOps parseFloat parseInt locations
        (calls.map (fun c => LocationOp.activate c.1 c.2)))) := by
  have hops : ∀ ops (ls : List ChurchLocation), singleActive ls →
      singleActive (runLocationOps parseFloat parseInt ls ops) := by
    intro ops
    induction ops with
    | nil => intro ls hls; exact hls
    | cons op rest ih =>
      intro ls hls
      apply ih
      cases op with
      | create newId adminId body => exact createLocation_singleActive _ _ _ _ _ _ hls
      | update id body => exact updateLocation_singleActive _ _ _ _ _ hls
      | activate id services => exact setActiveLocation_singleActive _ _ _ hls
      | delete id => exact deleteLocation_singleActive _ _ hls
  exact ⟨fun _ _ _ => createLocation_singleActive _ _ _ _ _ _ h,
    fun _ _ => updateLocation_singleActive _ _ _ _ _ h,
    fun _ _ => setActiveLocation_singleActive _ _ _ h,
    fun _ => deleteLocation_singleActive _ _ h,
    fun ops => hops ops locations h,
    fun calls => hops _ locations h⟩

/-- Witness for C8: from Main Campus (Sabbath, Wednesday) and Chiromo (Friday),
a location is created, Chiromo is activated for the Sabbath and Wednesday
services, Main Campus is deleted; each flag stays on at most one row. -/
theorem location_operations_preserve_singleActive_witness :
    singleActive (runLocationOps demoParseFloat demoParseInt [mainCampus, chiromo]
      [.create "L3" "admin-1" hallBody,
        .activate "L2" (some ["SABBATH_MORNING", "WEDNESDAY_VESPERS"]),
        .delete "L1"]) ∧
    (runLocationOps demoParseFloat demoParseInt [mainCampus, chiromo]
      [.create "L3" "admin-1" hallBody,
        .activate "L2" (some ["SABBATH_MORNING", "WEDNESDAY_VESPERS"]),
        .delete "L1"]).map (fun l => l.id) = ["L2", "L3"] :=
  ⟨(location_operations_preserve_singleActive demoParseFloat demoParseInt
    [mainCampus, chiromo] (by decide)).2.2.2.2.1 _, by decide⟩

/-- C9: after a successful `setActiveLocation(id, services)`, for every
service type listed in `services` the flag is true on the location with the id
and false on every other location, and `getActiveLocationForService` returns
that location; activating another location for SABBATH_MORNING afterwards
makes `getActiveLocationForService(SABBATH_MORNING)` return the other location
with the Sabbath flag of the first false; and when no location has the flag of
a service, `getActiveLocationForService` returns none. -/
theorem setActiveLocation_activates (locations ls1 : List ChurchLocation) (id : String)
    (services : Option (List String)) (loc : ChurchLocation)
    (h : setActiveLocation locations id services = (ls1, .activated loc)) :
    (∀ s : ServiceType, (∃ list, services = some list ∧ s.name ∈ list) →
      loc.id = id ∧ loc ∈ ls1 ∧ s.flag loc = true ∧
      (∀ x ∈ ls1, x.id ≠ id → s.flag x = false) ∧
      getActiveLocationForService ls1 (some s) = some loc) ∧
    (∀ id2 ls2 loc2, id2 ≠ id →
      setActiveLocation ls1 id2 (some ["SABBATH_MORNING"]) = (ls2, .activated loc2) →
      getActiveLocationForService ls2 (some .SABBATH_MORNING) = some loc2 ∧ loc2.id = id2 ∧
        ∀ x ∈ ls2, x.id = id → x.isActiveSabbath = false) ∧
    (∀ (ls : List ChurchLocation) (s : ServiceType), (∀ x ∈ ls, s.flag x = false) →
      getActiveLocationForService ls (some s) = none) := by
  refine ⟨fun s hs => setActiveLocation_listed h s hs, ?_, ?_⟩
  · intro id2 ls2 loc2 hne h2
    obtain ⟨h21, -, -, h24, h25⟩ := setActiveLocation_listed h2 .SABBATH_MORNING
      ⟨["SABBATH_MORNING"], rfl, by simp [ServiceType.name]⟩
    refine ⟨h25, h21, ?_⟩
    intro x hx hid
    exact h24 x hx (by rw [hid]; exact fun hc => hne hc.symm)
  · intro ls s hall
    rw [getActiveLocationForService_eq_find, List.find?_eq_none]
    intro x hx
    simp [hall x hx]

/-- Witness for C9: Main Campus (L1) is activated for SABBATH_MORNING, then
Chiromo (L2); the active Sabbath location is then Chiromo and the Sabbath flag
of Main Campus is false. -/
theorem setActiveLocation_activates_witness :
    getActiveLocationForService
        (setActiveLocation (setActiveLocation [mainCampus, chiromo] "L1"
          (some ["SABBATH_MORNING"])).1 "L2" (some ["SABBATH_MORNING"])).1
        (some .SABBATH_MORNING) = some { chiromo with isActiveSabbath := true } ∧
    ∀ x ∈ (setActiveLocation (setActiveLocation [mainCampus, chiromo] "L1"
          (some ["SABBATH_MORNING"])).1 "L2" (some ["SABBATH_MORNING"])).1,
      x.id = "L1" → x.isActiveSabbath = false :=
  have h := (setActiveLocation_activates [mainCampus, chiromo]
    (setActiveLocation [mainCampus, chiromo] "L1" (some ["SABBATH_MORNING"])).1 "L1"
    (some ["SABBATH_MORNING"]) mainCampus (by decide)).2.1 "L2"
    (setActiveLocation (setActiveLocation [mainCampus, chiromo] "L1"
      (some ["SABBATH_MORNING"])).1 "L2" (some ["SABBATH_MORNING"])).1
    { chiromo with isActiveSabbath := true } (by decide) (by decide)
  ⟨h.1, h.2.2⟩

/-- C10: a `markAttendance` call that ends in a failure leaves the attendance
table unchanged, a call that ends in success appends exactly one row (the one
it returns) and changes no other row, and no call changes the member table or
the location table. -/
theorem markAttendance_frame (calculateDistance : ℚ → ℚ → ℚ → ℚ → ℚ) (now : Clock)
    (st : State) (req : MarkRequest) :
    ((markAttendance calculateDistance now st req).2.isSuccess = false →
      (markAttendance calculateDistance now st req).1.attendances = st.attendances) ∧
    (∀ record member,
      (markAttendance calculateDistance now st req).2 = .success record member →
      (markAttendance calculateDistance now st req).1.attendances =
        st.attendances ++ [record]) ∧
    ((markAttendance calculateDistance now st req).2.isSuccess = true →
      ∃ record member,
        (markAttendance calculateDistance now st req).2 = .success record member ∧
        (markAttendance calculateDistance now st req).1.attendances.length =
          st.attendances.length + 1) ∧
    (markAttendance calculateDistance now st req).1.members = st.members ∧
    (markAttendance calculateDistance now st req).1.locations = st.locations := by
  rcases markAttendance_cases calculateDistance now st req with ⟨hst, hf⟩ | hok
  · rw [hst]
    refine ⟨fun _ => rfl, ?_, ?_, rfl, rfl⟩
    · intro record member h
      rw [h] at hf
      exact absurd hf (by simp [Response.isSuccess])
    · intro h
      rw [h] at hf
      exact absurd hf (by simp)
  · obtain ⟨e, dev, la, lo, svc, m, loc, -, -, -, -, -, -, -, -, heq⟩ := hok
    rw [heq]
    refine ⟨?_, ?_, ?_, rfl, rfl⟩
    · intro h
      exact absurd h (by simp [Response.isSuccess])
    · intro record member h
      simp only [Response.success.injEq] at h
      rw [← h.1]
      rfl
    · intro _
      exact ⟨_, _, rfl, by simp [afterSuccess]⟩

/-- C11 (evaluation at the failing input): a request in which all four fields
are present and non-empty, with the numeric latitude 0, is answered
MissingFields (400) on Saturday 10:00; the same request with latitude -1 at the
same instant passes the validation (it is answered 201). -/
theorem markAttendance_zero_latitude_missingFields :
    aliceEquatorRequest.email = some "alice@x.com" ∧
    aliceEquatorRequest.latitude = some 0 ∧
    aliceEquatorRequest.longitude = some 37 ∧
    aliceEquatorRequest.deviceId = some "dev-1" ∧
    markAttendance demoDistance saturdayTen demoState aliceEquatorRequest =
      (demoState, .missingFields) ∧
    Response.missingFields.status = 400 ∧
    (markAttendance demoDistance saturdayTen demoState aliceRequest).2.status = 201 := by
  decide

/-- C12 (counterexample): on Saturday 10:00 a request for an email of no member
passes the device check (its key has no prior entry) and fails at the member
lookup; afterwards the device map still has no entry for the key. -/
theorem markAttendance_device_not_recorded_on_failure :
    missingRequired carolRequest = false ∧
    getCurrentServiceInfo saturdayTen.getDay saturdayTen.getHours =
      ⟨some .SABBATH_MORNING, true⟩ ∧
    DeviceMap.has demoState.deviceAttendance
      (deviceKey "dev-3" saturdayTen.isoDate (some .SABBATH_MORNING)) = false ∧
    (markAttendance demoDistance saturdayTen demoState carolRequest).2 = .memberNotFound ∧
    DeviceMap.get (markAttendance demoDistance saturdayTen demoState carolRequest).1.deviceAttendance
      (deviceKey "dev-3" saturdayTen.isoDate (some .SABBATH_MORNING)) = none := by
  decide

/-- C12 (amended): for a request that passes the device check (no prior entry
for its key, or a prior entry equal to the submitted email), the device map
after the request maps the key to the submitted email when the request ends in
success or when the prior entry existed; when a later check fails the device
map is left as it was. -/
theorem markAttendance_device_recorded_on_success (calculateDistance : ℚ → ℚ → ℚ → ℚ → ℚ)
    (now : Clock) (st : State) (email deviceId : String) (latitude longitude : ℚ)
    (svc : ServiceType)
    (hv : missingRequired ⟨some email, some latitude, some longitude, some deviceId⟩ = false)
    (hs : getCurrentServiceInfo now.getDay now.getHours = ⟨some svc, true⟩)
    (hd : usedByOther st.deviceAttendance (deviceKey deviceId now.isoDate (some svc)) email
      = false) :
    ((markAttendance calculateDistance now st
        ⟨some email, some latitude, some longitude, some deviceId⟩).2.isSuccess = true →
      DeviceMap.get (markAttendance calculateDistance now st
          ⟨some email, some latitude, some longitude, some deviceId⟩).1.deviceAttendance
        (deviceKey deviceId now.isoDate (some svc)) = some email) ∧
    ((markAttendance calculateDistance now st
        ⟨some email, some latitude, some longitude, some deviceId⟩).2.isSuccess = false →
      (markAttendance calculateDistance now st
          ⟨some email, some latitude, some longitude, some deviceId⟩).2.failedStep ∈
        [some Step.RESOLVE_MEMBER, some Step.RESOLVE_LOCATION, some Step.CHECK_DISTANCE,
          some Step.CHECK_DUPLICATE] ∧
      (markAttendance calculateDistance now st
          ⟨some email, some latitude, some longitude, some deviceId⟩).1.deviceAttendance =
        st.deviceAttendance) ∧
    (DeviceMap.get st.deviceAttendance (deviceKey deviceId now.isoDate (some svc)) =
        some email →
      DeviceMap.get (markAttendance calculateDistance now st
          ⟨some email, some latitude, some longitude, some deviceId⟩).1.deviceAttendance
        (deviceKey deviceId now.isoDate (some svc)) = some email) := by
  refine ⟨?_, ?_, ?_⟩
  · intro hsucc
    rcases markAttendance_cases calculateDistance now st
      ⟨some email, some latitude, some longitude, some deviceId⟩ with ⟨-, hf⟩ | hok
    · rw [hsucc] at hf; exact absurd hf (by simp)
    · obtain ⟨e, dev, la, lo, svc2, m, loc, hreq, -, hs2, -, -, -, -, -, heq⟩ := hok
      simp only [MarkRequest.mk.injEq, Option.some.injEq] at hreq
      obtain ⟨rfl, rfl, rfl, rfl⟩ := hreq
      rw [hs] at hs2
      simp only [ServiceInfo.mk.injEq, Option.some.injEq, and_true] at hs2
      subst hs2
      rw [heq]
      simp [afterSuccess, DeviceMap.get_set]
  · intro hfail
    refine ⟨?_, by rw [markAttendance_failure_state calculateDistance now st _ hfail]⟩
    have hrun := markAttendance_active calculateDistance now st email deviceId latitude
      longitude svc hv hs
    rw [if_neg (by rw [hd]; simp)] at hrun
    rw [hrun] at hfail ⊢
    cases hm : st.members.find? (fun m => m.email == email) with
    | none => simp [Response.failedStep]
    | some member =>
      cases hl : getActiveLocationForService st.locations (some svc) with
      | none => simp [Response.failedStep]
      | some loc =>
        by_cases hdist : calculateDistance latitude longitude loc.latitude loc.longitude >
            (loc.radius : ℚ)
        · simp [Response.failedStep, hdist]
        · cases hdup : st.attendances.find? (sameDayRecord now member.id svc) with
          | some existing => simp [Response.failedStep, hdist, hdup]
          | none => simp [hm, hl, hdist, hdup, Response.isSuccess] at hfail
  · intro hprior
    exact markAttendance_device_entry_stable calculateDistance now st _ _ _ hprior

/-- Witness for C12: Alice marks on Saturday 10:00 with dev-1; afterwards the
key of dev-1 maps to her email. -/
theorem markAttendance_device_recorded_on_success_witness :
    DeviceMap.get (markAttendance demoDistance saturdayTen demoState
        aliceRequest).1.deviceAttendance
      (deviceKey "dev-1" saturdayTen.isoDate (some .SABBATH_MORNING)) = some "alice@x.com" :=
  (markAttendance_device_recorded_on_success demoDistance saturdayTen demoState "alice@x.com"
    "dev-1" (-1) 37 .SABBATH_MORNING (by decide) (by decide) (by decide)).1 (by decide)

/-- C13: a request with valid fields, submitted during an active service,
whose device key already maps to a different email is answered
DeviceAlreadyUsed (429) and changes nothing; the answer is the same in every
state with the same device map, whatever its member, location and attendance
tables hold. -/
theorem markAttendance_device_rejection_ignores_stores
    (calculateDistance : ℚ → ℚ → ℚ → ℚ → ℚ) (now : Clock) (st st2 : State)
    (email deviceId other : String) (latitude longitude : ℚ) (svc : ServiceType)
    (hv : missingRequired ⟨some email, some latitude, some longitude, some deviceId⟩ = false)
    (hs : getCurrentServiceInfo now.getDay now.getHours = ⟨some svc, true⟩)
    (hkey : DeviceMap.get st.deviceAttendance (deviceKey deviceId now.isoDate (some svc)) =
      some other)
    (hne : other ≠ email)
    (hsame : st2.deviceAttendance = st.deviceAttendance) :
    markAttendance calculateDistance now st
        ⟨some email, some latitude, some longitude, some deviceId⟩ = (st, .deviceAlreadyUsed) ∧
    markAttendance calculateDistance now st2
        ⟨some email, some latitude, some longitude, some deviceId⟩ = (st2, .deviceAlreadyUsed) ∧
    Response.deviceAlreadyUsed.status = 429 :=
  ⟨markAttendance_device_bound_to_other calculateDistance now st email deviceId other latitude
      longitude svc hv hs hkey hne,
    markAttendance_device_bound_to_other calculateDistance now st2 email deviceId other latitude
      longitude svc hv hs (by rw [hsame]; exact hkey) hne, rfl⟩

/-- Witness for C13: after Alice marked with dev-1 on Saturday 10:00, a request
of dev-1 for carol@x.com at 14:00 is answered DeviceAlreadyUsed, with the
tables as they are and with empty member and location tables. -/
theorem markAttendance_device_rejection_ignores_stores_witness :
    (markAttendance demoDistance saturdayFourteen
      (markAttendance demoDistance saturdayTen demoState aliceRequest).1
      ⟨some "carol@x.com", some (-1), some 37, some "dev-1"⟩).2 = .deviceAlreadyUsed ∧
    (markAttendance demoDistance saturdayFourteen
      { (markAttendance demoDistance saturdayTen demoState aliceRequest).1 with
        members := [], locations := [] }
      ⟨some "carol@x.com", some (-1), some 37, some "dev-1"⟩).2 = .deviceAlreadyUsed :=
  have h := markAttendance_device_rejection_ignores_stores demoDistance saturdayFourteen
    (markAttendance demoDistance saturdayTen demoState aliceRequest).1
    { (markAttendance demoDistance saturdayTen demoState aliceRequest).1 with
      members := [], locations := [] }
    "carol@x.com" "dev-1" "alice@x.com" (-1) 37 .SABBATH_MORNING (by decide) (by decide)
    (by decide) (by decide) rfl
  ⟨by rw [h.1], by rw [h.2.1]⟩

/-- C14 (evaluation at the failing input): on a server at UTC-5 the instants
2024-01-03T23:00Z and 2024-01-04T00:10Z lie on the same local calendar day
(Wednesday 2024-01-03, the same `[today_start, tomorrow)` of the duplicate
check) and in the same Wednesday vespers, yet `markAttendance` stores device
keys with the day components 2024-01-03 and 2024-01-04: the day of the key is
the UTC date, which at the second instant is not the local calendar day. -/
theorem deviceKey_day_differs_within_local_day :
    wednesdayNineteenTen.tzOffsetMin = wednesdayEighteen.tzOffsetMin ∧
    wednesdayNineteenTen.localDay = wednesdayEighteen.localDay ∧
    wednesdayNineteenTen.todayStart = wednesdayEighteen.todayStart ∧
    wednesdayNineteenTen.tomorrow = wednesdayEighteen.tomorrow ∧
    getCurrentServiceInfo wednesdayEighteen.getDay wednesdayEighteen.getHours =
      ⟨some .WEDNESDAY_VESPERS, true⟩ ∧
    getCurrentServiceInfo wednesdayNineteenTen.getDay wednesdayNineteenTen.getHours =
      ⟨some .WEDNESDAY_VESPERS, true⟩ ∧
    isoDateOfDay wednesdayNineteenTen.localDay = "2024-01-03" ∧
    wednesdayNineteenTen.isoDate = "2024-01-04" ∧
    wednesdayEighteen.isoDate = "2024-01-03" ∧
    (markAll demoDistance demoState
        [(wednesdayEighteen, aliceRequest), (wednesdayNineteenTen, bobOwnRequest)]).deviceAttendance =
      [("dev-1-2024-01-03-WEDNESDAY_VESPERS", "alice@x.com"),
        ("dev-2-2024-01-04-WEDNESDAY_VESPERS", "bob@x.com")] := by
  decide

/-- C15 (counterexample): on Sunday 10:00, when no service is active, a request
with all four fields present and an empty email is answered MissingFields
(400), not OutsideServiceWindow. -/
theorem markAttendance_empty_email_outside_window :
    getCurrentServiceInfo sundayTen.getDay sundayTen.getHours = ⟨none, false⟩ ∧
    emptyEmailRequest.email.isSome = true ∧ emptyEmailRequest.latitude.isSome = true ∧
    emptyEmailRequest.longitude.isSome = true ∧ emptyEmailRequest.deviceId.isSome = true ∧
    markAttendance demoDistance sundayTen demoState emptyEmailRequest =
      (demoState, .missingFields) ∧
    (markAttendance demoDistance sundayTen demoState emptyEmailRequest).2.status = 400 := by
  decide

/-- C15 (amended): a request whose four fields pass the validation, submitted
when `getCurrentServiceInfo` reports no active service, is answered
OutsideServiceWindow (403) whatever the email, coordinates and device are; the
response carries the schedule with one entry for each of the three services,
and the state (attendance table and device map included) is unchanged. -/
theorem markAttendance_outside_window (calculateDistance : ℚ → ℚ → ℚ → ℚ → ℚ) (now : Clock)
    (st : State) (req : MarkRequest)
    (hv : missingRequired req = false)
    (hs : (getCurrentServiceInfo now.getDay now.getHours).isServiceTime = false) :
    markAttendance calculateDistance now st req =
      (st, .outsideServiceWindow
        { sabbath := "Saturday 8:00 AM - 5:00 PM"
          wednesdayVespers := "Wednesday 5:00 PM - 8:00 PM"
          fridayVespers := "Friday 5:00 PM - 8:00 PM" }) ∧
    (markAttendance calculateDistance now st req).2.status = 403 ∧
    (markAttendance calculateDistance now st req).1.attendances = st.attendances ∧
    (markAttendance calculateDistance now st req).1.deviceAttendance = st.deviceAttendance := by
  have h : markAttendance calculateDistance now st req =
      (st, .outsideServiceWindow serviceSchedule) := by
    simp [markAttendance, hv, hs]
  rw [h]
  exact ⟨rfl, rfl, rfl, rfl⟩

/-- Witness for C15: Alice at the location on Sunday 10:00 is answered
OutsideServiceWindow. -/
theorem markAttendance_outside_window_witness :
    (markAttendance demoDistance sundayTen demoState aliceRequest).2.status = 403 :=
  (markAttendance_outside_window demoDistance sundayTen demoState aliceRequest (by decide)
    (by decide)).2.1

/-- C16: a request that passes the seven checks is answered with success (201)
and creates one record, the row appended to the table; the record has
`isVerified` true, the name of the location that is active for the current
service at request time, the service type active at request time, the id of
the member found by the submitted email and the submitted latitude and
longitude. Conversely, every record of a 201 answer was created by a request
that passed the checks and has these columns. -/
theorem markAttendance_record_fields (calculateDistance : ℚ → ℚ → ℚ → ℚ → ℚ) (now : Clock)
    (st : State) (email deviceId : String) (latitude longitude : ℚ) (svc : ServiceType)
    (member : Member) (L : ChurchLocation)
    (hv : missingRequired ⟨some email, some latitude, some longitude, some deviceId⟩ = false)
    (hs : getCurrentServiceInfo now.getDay now.getHours = ⟨some svc, true⟩)
    (hd : usedByOther st.deviceAttendance (deviceKey deviceId now.isoDate (some svc)) email
      = false)
    (hm : st.members.find? (fun m => m.email == email) = some member)
    (hl : getActiveLocationForService st.locations (some svc) = some L)
    (hdist : ¬ calculateDistance latitude longitude L.latitude L.longitude > (L.radius : ℚ))
    (hdup : st.attendances.find? (sameDayRecord now member.id svc) = none) :
    (∃ record : Attendance,
      (markAttendance calculateDistance now st
        ⟨some email, some latitude, some longitude, some deviceId⟩).2 = .success record member ∧
      (markAttendance calculateDistance now st
        ⟨some email, some latitude, some longitude, some deviceId⟩).1.attendances =
          st.attendances ++ [record] ∧
      record.isVerified = true ∧
      record.locationName = L.name ∧
      record.serviceType = svc ∧
      record.memberId = member.id ∧
      record.latitude = latitude ∧
      record.longitude = longitude) ∧
    (∀ (req : MarkRequest) (record : Attendance) (found : Member),
      (markAttendance calculateDistance now st req).2 = .success record found →
      (markAttendance calculateDistance now st req).1.attendances = st.attendances ++ [record] ∧
      record.isVerified = true ∧
      getCurrentServiceInfo now.getDay now.getHours = ⟨some record.serviceType, true⟩ ∧
      (∃ loc, getActiveLocationForService st.locations (some record.serviceType) = some loc ∧
        record.locationName = loc.name) ∧
      (∃ address, req.email = some address ∧
        st.members.find? (fun m => m.email == address) = some found) ∧
      record.memberId = found.id ∧
      req.latitude = some record.latitude ∧
      req.longitude = some record.longitude) := by
  constructor
  · have hrun := markAttendance_active calculateDistance now st email deviceId latitude
      longitude svc hv hs
    simp only [hd, hm, hl, hdup, Bool.false_eq_true, if_false, if_neg hdist] at hrun
    rw [hrun]
    exact ⟨newAttendance now member.id svc latitude longitude L.name, rfl, rfl, rfl, rfl, rfl,
      rfl, rfl, rfl⟩
  · intro req record found h
    obtain ⟨address, dev, la, lo, svc2, loc, hreq, -, hs2, -, hm2, hl2, -, -, hrec, hst⟩ :=
      markAttendance_success_inv h
    subst hreq
    subst hrec
    exact ⟨by rw [hst]; rfl, rfl, hs2, ⟨loc, hl2, rfl⟩, ⟨address, rfl, hm2⟩, rfl, rfl, rfl⟩

/-- Witness for C16: Saturday 10:00, Main Campus active for the Sabbath service,
Alice at the coordinates of the location: the request is answered with success
and the record carries the location name Main Campus. -/
theorem markAttendance_record_fields_witness :
    ∃ record : Attendance,
      (markAttendance demoDistance saturdayTen demoState aliceRequest).2 =
        .success record alice ∧
      (markAttendance demoDistance saturdayTen demoState aliceRequest).1.attendances =
        [record] ∧
      record.isVerified = true ∧
      record.locationName = "Main Campus" ∧
      record.serviceType = .SABBATH_MORNING ∧
      record.memberId = "m1" ∧
      record.latitude = -1 ∧
      record.longitude = 37 :=
  (markAttendance_record_fields demoDistance saturdayTen demoState "alice@x.com" "dev-1" (-1) 37
    .SABBATH_MORNING alice mainCampus (by decide) (by decide) (by decide) (by decide)
    (by decide) (by decide) (by decide)).1

/-- C17: for all real coordinates in decimal degrees, `calculateDistance` is the
Haversine great-circle distance with Earth radius 6,371,000 m: with
`phi_i = lat_i * pi / 180`, `dphi = (lat2 - lat1) * pi / 180`,
`dlambda = (lon2 - lon1) * pi / 180` and
`a = sin^2 (dphi / 2) + cos phi1 * cos phi2 * sin^2 (dlambda / 2)` the result is
`2 * 6371000 * arcsin (sqrt a)`; the `2 * atan2 (sqrt a, sqrt (1 - a))` of the
code agrees with the `arcsin` form. -/
theorem calculateDistance_eq_haversine (lat1 lon1 lat2 lon2 : ℝ) :
    calculateDistance lat1 lon1 lat2 lon2 =
      2 * 6371000 * Real.arcsin (Real.sqrt
        (Real.sin ((lat2 - lat1) * Real.pi / 180 / 2) ^ 2 +
          Real.cos (lat1 * Real.pi / 180) * Real.cos (lat2 * Real.pi / 180) *
            Real.sin ((lon2 - lon1) * Real.pi / 180 / 2) ^ 2)) ∧
    2 * atan2 (Real.sqrt (haversineA lat1 lon1 lat2 lon2))
        (Real.sqrt (1 - haversineA lat1 lon1 lat2 lon2)) =
      2 * Real.arcsin (Real.sqrt (haversineA lat1 lon1 lat2 lon2)) := by
  obtain ⟨h0, h1⟩ := haversineA_bounds lat1 lon1 lat2 lon2
  refine ⟨?_, by rw [atan2_sqrt_eq_arcsin _ h0 h1]⟩
  rw [calculateDistance_eq_arcsin]
  congr 3
  simp only [haversineA]
  ring

/-- C18: `calculateDistance(a, b, c, d) = calculateDistance(c, d, a, b)` for all
real coordinates. -/
theorem calculateDistance_symm (a b c d : ℝ) :
    calculateDistance a b c d = calculateDistance c d a b := by
  simp only [calculateDistance]
  rw [haversineA_symm]

/-- C19: `calculateDistance(x, y, x, y) = 0` for every real coordinate pair. -/
theorem calculateDistance_self (x y : ℝ) : calculateDistance x y x y = 0 := by
  rw [calculateDistance_eq_arcsin, haversineA_self]
  simp

/-- C20 (evaluation at the failing input): in double arithmetic
`calculateDistance(8, -179, -8, 1)`, two nearly antipodal points within the
usual ranges, computes `a = 1.0000000000000002`, so `1 - a` is negative,
`Math.sqrt(1 - a)` is NaN and the function returns NaN, not a non-negative
number. This holds for every library that returns the nearest doubles of the
sine and cosine at the four angles: `-0.13917310096006544` for the sine of
`-0.13962634015954636`, 1 for the sine of `1.5707963267948966` and
`0.9902680687415704` for the cosine of `0.13962634015954636` and of its
negative. -/
theorem calculateDistanceDouble_antipodal_nan (lib : MathLibrary)
    (hsin1 : lib.sin (-5030569068109113 / 36028797018963968) =
      -5014239404989977 / 36028797018963968)
    (hsin2 : lib.sin (884279719003555 / 562949953421312) = 1)
    (hcos1 : lib.cos (5030569068109113 / 36028797018963968) =
      4459770905381437 / 4503599627370496)
    (hcos2 : lib.cos (-5030569068109113 / 36028797018963968) =
      4459770905381437 / 4503599627370496) :
    (1 : Double) - haversineADouble lib 8 (-179) (-8) 1 =
      .finite (-1 / 4503599627370496) ∧
    mathSqrt (1 - haversineADouble lib 8 (-179) (-8) 1) = .nan ∧
    calculateDistanceDouble lib 8 (-179) (-8) 1 = .nan := by
  have ha := haversineADouble_antipodal lib hsin1 hsin2 hcos1 hcos2
  have hsub : (1 : Double) - .finite (4503599627370497 / 4503599627370496) =
      .finite (-1 / 4503599627370496) := by decide!
  have hsqrt : mathSqrt (.finite (-1 / 4503599627370496)) = .nan := by decide!
  exact ⟨by rw [ha, hsub], by rw [ha, hsub, hsqrt],
    calculateDistanceDouble_nan_of_sqrt_nan lib _ _ _ _ (by rw [ha, hsub, hsqrt])⟩

/-- Witness for C20: the library `tableMath` returns the four nearest doubles,
and with it `calculateDistance(8, -179, -8, 1)` is NaN. -/
theorem calculateDistanceDouble_antipodal_nan_witness :
    calculateDistanceDouble tableMath 8 (-179) (-8) 1 = .nan :=
  (calculateDistanceDouble_antipodal_nan tableMath (by decide!) (by decide!) (by decide!)
    (by decide!)).2.2

/-- C21: a request that reaches the distance check at a distance greater than
the radius of the active location is answered OutOfRange (403) with the
configured radius and the name of that location and with `Math.round` of the
computed distance, an integer within 1/2 of the distance; the state is
unchanged. Conversely, every OutOfRange answer carries the radius and the name
of the location that is active for the current service and `Math.round` of the
distance computed for the submitted coordinates, which exceeds the radius. -/
theorem markAttendance_outOfRange_reports (calculateDistance : ℚ → ℚ → ℚ → ℚ → ℚ)
    (now : Clock) (st : State) (email deviceId : String) (latitude longitude : ℚ)
    (svc : ServiceType) (member : Member) (L : ChurchLocation)
    (hv : missingRequired ⟨some email, some latitude, some longitude, some deviceId⟩ = false)
    (hs : getCurrentServiceInfo now.getDay now.getHours = ⟨some svc, true⟩)
    (hd : usedByOther st.deviceAttendance (deviceKey deviceId now.isoDate (some svc)) email
      = false)
    (hm : st.members.find? (fun m => m.email == email) = some member)
    (hl : getActiveLocationForService st.locations (some svc) = some L)
    (hdist : calculateDistance latitude longitude L.latitude L.longitude > (L.radius : ℚ)) :
    markAttendance calculateDistance now st
        ⟨some email, some latitude, some longitude, some deviceId⟩ =
      (st, .outOfRange L.radius L.name
        (mathRound (calculateDistance latitude longitude L.latitude L.longitude))) ∧
    (Response.outOfRange L.radius L.name
      (mathRound (calculateDistance latitude longitude L.latitude L.longitude))).status = 403 ∧
    |((mathRound (calculateDistance latitude longitude L.latitude L.longitude) : Int) : ℚ) -
      calculateDistance latitude longitude L.latitude L.longitude| ≤ 1 / 2 ∧
    (∀ (req : MarkRequest) (radius : Int) (name : String) (shown : Int),
      (markAttendance calculateDistance now st req).2 = .outOfRange radius name shown →
      ∃ la lo loc,
        req.latitude = some la ∧ req.longitude = some lo ∧
        getActiveLocationForService st.locations (some svc) = some loc ∧
        radius = loc.radius ∧ name = loc.name ∧
        shown = mathRound (calculateDistance la lo loc.latitude loc.longitude) ∧
        |(shown : ℚ) - calculateDistance la lo loc.latitude loc.longitude| ≤ 1 / 2 ∧
        calculateDistance la lo loc.latitude loc.longitude > (radius : ℚ)) := by
  refine ⟨?_, rfl, mathRound_close _, ?_⟩
  · have hrun := markAttendance_active calculateDistance now st email deviceId latitude
      longitude svc hv hs
    simp only [hd, hm, hl, Bool.false_eq_true, if_false, if_pos hdist] at hrun
    exact hrun
  · intro req radius name shown h
    obtain ⟨address, dev, la, lo, svc2, loc, rfl, hs2, hl2, hdist2, hr, hn, hshown⟩ :=
      markAttendance_outOfRange_inv h
    have hsvc : svc2 = svc := by
      rw [hs] at hs2
      simp only [ServiceInfo.mk.injEq, Option.some.injEq, and_true] at hs2
      exact hs2.symm
    subst hsvc
    refine ⟨la, lo, loc, rfl, rfl, hl2, hr, hn, hshown, ?_, by rw [hr]; exact hdist2⟩
    rw [hshown]
    exact mathRound_close _

/-- Witness for C21: the example of the spec. On Saturday 10:00 Alice, 150 m
south of Main Campus (radius 100), is answered OutOfRange with the radius 100
and the distance 150, the rounded value of the computed 150.1131509701501. -/
theorem markAttendance_outOfRange_reports_witness :
    markAttendance exampleDistance saturdayTen sabbathState aliceNearbyRequest =
      (sabbathState, .outOfRange 100 "Main Campus" 150) ∧
    (markAttendance exampleDistance saturdayTen sabbathState aliceNearbyRequest).2.status = 403 :=
  have h := markAttendance_outOfRange_reports exampleDistance saturdayTen sabbathState
    "alice@x.com" "dev-1" (-5123 / 4000) (92039 / 2500) .SABBATH_MORNING alice sabbathCampus
    (by decide!) (by decide) (by decide) (by decide) (by decide!) (by decide!)
  have hshown : mathRound (exampleDistance (-5123 / 4000) (92039 / 2500) sabbathCampus.latitude
      sabbathCampus.longitude) = 150 := by decide!
  have hrun : markAttendance exampleDistance saturdayTen sabbathState aliceNearbyRequest =
      (sabbathState, .outOfRange 100 "Main Campus" 150) := h.1.trans (by rw [hshown]; rfl)
  ⟨hrun, by rw [hrun]; rfl⟩

/-- C22 (evaluation at the failing input): `deleteLocation` for an id that no
location has ends in the 500 of the `catch` block, the answer of every failed
Prisma call, and not in a NotFound answer of its own; `setActiveLocation`
answers the same id with NotFound (404). The table is unchanged. -/
theorem deleteLocation_unknown_id_is_generic_failure :
    [mainCampus, chiromo].find? (fun l => l.id == "L9") = none ∧
    deleteLocation [mainCampus, chiromo] "L9" = ([mainCampus, chiromo], .failed) ∧
    LocationResponse.failed.status = 500 ∧
    (deleteLocation [mainCampus, chiromo] "L9").2 ≠ .notFound ∧
    setActiveLocation [mainCampus, chiromo] "L9" (some ["SABBATH_MORNING"]) =
      ([mainCampus, chiromo], .notFound) ∧
    LocationResponse.notFound.status = 404 := by
  decide

/-- C23: `setActiveLocation` answers InvalidInput (400) when `services` is
missing, is not a list or is empty, and NotFound (404) when `services` is a
non-empty list and no location has the id; in both cases the table, and so
every flag of every location, is unchanged. -/
theorem setActiveLocation_failures (locations : List ChurchLocation) (id : String) :
    setActiveLocation locations id none = (locations, .invalidServices) ∧
    setActiveLocation locations id (some []) = (locations, .invalidServices) ∧
    LocationResponse.invalidServices.status = 400 ∧
    (∀ s rest, locations.find? (fun l => l.id == id) = none →
      setActiveLocation locations id (some (s :: rest)) = (locations, .notFound)) ∧
    LocationResponse.notFound.status = 404 := by
  refine ⟨rfl, rfl, rfl, ?_, rfl⟩
  intro s rest h
  simp only [setActiveLocation, h]

/-- C25 (evaluation at the failing input): `updateLocation` for an id that no
location has ends in the 500 of the `catch` block, the answer of every failed
Prisma call, and not in a NotFound answer of its own; `setActiveLocation`
answers the same id with NotFound (404). The table is unchanged. -/
theorem updateLocation_unknown_id_is_generic_failure :
    [mainCampus, chiromo].find? (fun l => l.id == "L9") = none ∧
    updateLocation demoParseFloat demoParseInt [mainCampus, chiromo] "L9" hallBody =
      ([mainCampus, chiromo], .failed) ∧
    LocationResponse.failed.status = 500 ∧
    (updateLocation demoParseFloat demoParseInt [mainCampus, chiromo] "L9" hallBody).2 ≠
      .notFound ∧
    (setActiveLocation [mainCampus, chiromo] "L9" (some ["SABBATH_MORNING"])).2 = .notFound := by
  decide

/-- C24 (counterexample): a create request with valid name, latitude and
longitude, a name that no location has, and the radius 0 supplied adds a
location whose radius is 100, not the supplied radius. -/
theorem createLocation_zero_radius_defaults :
    zeroRadiusBody.radius = some (.num 0) ∧
    createLocation demoParseFloat demoParseInt "L3" "admin-1" [mainCampus, chiromo]
        zeroRadiusBody =
      ([mainCampus, chiromo, hallLocation 100], .created (hallLocation 100)) ∧
    (hallLocation 100).radius ≠ 0 := by
  decide

/-- C24 (amended): `createLocation` with a non-empty name and latitude and
longitude that pass the validation and parse to numbers answers DuplicateName,
with the table unchanged, exactly when a location with the name exists;
otherwise it appends exactly one location with the name, the parsed
coordinates and the three flags false, whose radius is 100 when the radius is
absent, 0 or empty and else the integer that `parseInt` reads from the supplied
radius. -/
theorem createLocation_spec (parseFloat : JsScalar → Option ℚ)
    (parseInt : JsScalar → Option Int) (newId adminId : String)
    (locations : List ChurchLocation) (body : LocationBody) (name : String) (la lo : ℚ)
    (hname : body.name = some name) (hne : name ≠ "")
    (hlat : truthyScalar body.latitude = true) (hla : body.latitude.bind parseFloat = some la)
    (hlon : truthyScalar body.longitude = true)
    (hlo : body.longitude.bind parseFloat = some lo) :
    ((createLocation parseFloat parseInt newId adminId locations body).2 = .duplicateName ↔
      ∃ l ∈ locations, l.name = name) ∧
    ((∃ l ∈ locations, l.name = name) →
      createLocation parseFloat parseInt newId adminId locations body =
        (locations, .duplicateName)) ∧
    ((∀ l ∈ locations, l.name ≠ name) →
      ∀ r : Int, (truthyScalar body.radius = false ∧ r = 100) ∨
          (truthyScalar body.radius = true ∧ body.radius.bind parseInt = some r) →
        createLocation parseFloat parseInt newId adminId locations body =
          (locations ++
            [{ id := newId, name := name, description := body.description.join,
               latitude := la, longitude := lo, radius := r, address := body.address.join,
               isActiveSabbath := false, isActiveWednesday := false, isActiveFriday := false,
               isSaved := true, createdBy := some adminId }],
            .created
              { id := newId, name := name, description := body.description.join,
                latitude := la, longitude := lo, radius := r, address := body.address.join,
                isActiveSabbath := false, isActiveWednesday := false, isActiveFriday := false,
                isSaved := true, createdBy := some adminId })) := by
  have hvalid : (!truthyString body.name || !truthyScalar body.latitude ||
      !truthyScalar body.longitude) = false := by
    simp [hname, truthyString, hne, hlat, hlon]
  have hdup : ∀ row, locations.find? (fun l => l.name == name) = some row →
      createLocation parseFloat parseInt newId adminId locations body =
        (locations, .duplicateName) := by
    intro row hrow
    simp only [createLocation, hvalid, Bool.false_eq_true, if_false]
    simp only [hname, Option.getD_some, hrow]
  have hfresh : locations.find? (fun l => l.name == name) = none →
      ∀ r : Int, (truthyScalar body.radius = false ∧ r = 100) ∨
          (truthyScalar body.radius = true ∧ body.radius.bind parseInt = some r) →
        createLocation parseFloat parseInt newId adminId locations body =
          (locations ++
            [{ id := newId, name := name, description := body.description.join,
               latitude := la, longitude := lo, radius := r, address := body.address.join,
               isActiveSabbath := false, isActiveWednesday := false, isActiveFriday := false,
               isSaved := true, createdBy := some adminId }],
            .created
              { id := newId, name := name, description := body.description.join,
                latitude := la, longitude := lo, radius := r, address := body.address.join,
                isActiveSabbath := false, isActiveWednesday := false, isActiveFriday := false,
                isSaved := true, createdBy := some adminId }) := by
    intro hnone r hr
    rcases hr with ⟨hf, rfl⟩ | ⟨ht, hp⟩
    · simp only [createLocation, hvalid, Bool.false_eq_true, if_false]
      simp only [hname, Option.getD_some, hnone, hla, hlo, hf, Bool.false_eq_true, if_false]
    · simp only [createLocation, hvalid, Bool.false_eq_true, if_false]
      simp only [hname, Option.getD_some, hnone, hla, hlo, ht, hp, if_true]
  have hex : (∃ l ∈ locations, l.name = name) ↔
      ∃ row, locations.find? (fun l => l.name == name) = some row := by
    constructor
    · rintro ⟨l, hl, hn⟩
      cases hf : locations.find? (fun l => l.name == name) with
      | some row => exact ⟨row, rfl⟩
      | none =>
        have := List.find?_eq_none.mp hf l hl
        simp [hn] at this
    · rintro ⟨row, hrow⟩
      exact ⟨row, List.mem_of_find?_eq_some hrow, by simpa using List.find?_some hrow⟩
  refine ⟨⟨?_, ?_⟩, ?_, ?_⟩
  · intro hresp
    rw [hex]
    cases hf : locations.find? (fun l => l.name == name) with
    | some row => exact ⟨row, rfl⟩
    | none =>
      exfalso
      unfold createLocation at hresp
      simp only [hvalid, Bool.false_eq_true, if_false] at hresp
      simp only [hname, Option.getD_some, hf] at hresp
      split at hresp <;> simp at hresp
  · intro h
    obtain ⟨row, hrow⟩ := hex.mp h
    rw [hdup row hrow]
  · intro h
    obtain ⟨row, hrow⟩ := hex.mp h
    exact hdup row hrow
  · intro hall r hr
    apply hfresh _ r hr
    rw [List.find?_eq_none]
    intro l hl
    simpa using hall l hl

/-- Witness for C24: Off-Campus Hall is created without a radius next to Main
Campus and Chiromo and gets the radius 100. -/
theorem createLocation_spec_witness :
    createLocation demoParseFloat demoParseInt "L3" "admin-1" [mainCampus, chiromo] hallBody =
      ([mainCampus, chiromo] ++ [hallLocation 100], .created (hallLocation 100)) :=
  (createLocation_spec demoParseFloat demoParseInt "L3" "admin-1" [mainCampus, chiromo] hallBody
    "Off-Campus Hall" (-1) 38 rfl (by decide) (by decide) (by decide) (by decide)
    (by decide)).2.2 (by decide) 100 (Or.inl ⟨by decide, rfl⟩)

/-- C26: the device key `deviceId-day-serviceType` is injective in the triple:
for ISO dates `YYYY-MM-DD` and the three service types two keys are equal
exactly when the device ids, the days and the service types are equal, for
arbitrary device ids. -/
theorem deviceKey_injective (deviceId1 deviceId2 day1 day2 : String) (s1 s2 : ServiceType)
    (hd1 : isIsoDate day1 = true) (hd2 : isIsoDate day2 = true) :
    deviceKey deviceId1 day1 (some s1) = deviceKey deviceId2 day2 (some s2) ↔
      deviceId1 = deviceId2 ∧ day1 = day2 ∧ s1 = s2 := by
  constructor
  · intro h
    have hdata := congrArg String.data h
    rw [deviceKey_data, deviceKey_data] at hdata
    obtain ⟨hpre, hname⟩ := split_at_last_hyphen _ _ _ _ (serviceName_no_hyphen s1)
      (serviceName_no_hyphen s2) hdata
    have hs : s1 = s2 := serviceName_injective (String.ext hname)
    have hlen : day1.data.length = day2.data.length := by
      rw [isIsoDate_length hd1, isIsoDate_length hd2]
    have hpre2 : (deviceId1.data ++ ['-']) ++ day1.data = (deviceId2.data ++ ['-']) ++ day2.data := by
      simpa using hpre
    obtain ⟨hdev, hday⟩ := List.append_inj' hpre2 hlen
    have hdev2 : deviceId1.data = deviceId2.data := List.append_cancel_right hdev
    exact ⟨String.ext hdev2, String.ext hday, hs⟩
  · rintro ⟨rfl, rfl, rfl⟩
    rfl

/-- Witness for C26: a device id that ends in a date and a hyphenated device
id give different keys on the same day and service. -/
theorem deviceKey_injective_witness :
    ¬ (deviceKey "dev-2024-01-05" "2024-01-06" (some .SABBATH_MORNING) =
      deviceKey "dev" "2024-01-06" (some .SABBATH_MORNING)) :=
  fun h => absurd ((deviceKey_injective "dev-2024-01-05" "dev" "2024-01-06" "2024-01-06"
    .SABBATH_MORNING .SABBATH_MORNING (by decide) (by decide)).mp h).1 (by decide)

/-- C27 (evaluation at the failing input): in double arithmetic the quantity
`a` of `calculateDistance(8, -179, -8, 1)` is `1 + 2 ^ (-52)`, which is greater
than 1, and the returned value is NaN, so it is not a distance of at most
`pi * 6371000` meters. This holds for every library that returns the nearest
doubles of the sine and cosine at the four angles. -/
theorem haversineADouble_antipodal_exceeds_one (lib : MathLibrary)
    (hsin1 : lib.sin (-5030569068109113 / 36028797018963968) =
      -5014239404989977 / 36028797018963968)
    (hsin2 : lib.sin (884279719003555 / 562949953421312) = 1)
    (hcos1 : lib.cos (5030569068109113 / 36028797018963968) =
      4459770905381437 / 4503599627370496)
    (hcos2 : lib.cos (-5030569068109113 / 36028797018963968) =
      4459770905381437 / 4503599627370496) :
    ∃ a : ℚ, haversineADouble lib 8 (-179) (-8) 1 = .finite a ∧ 1 < a ∧
      a = 1 + 1 / 2 ^ 52 ∧
      ∀ d : ℚ, calculateDistanceDouble lib 8 (-179) (-8) 1 ≠ .finite d := by
  have ha := haversineADouble_antipodal lib hsin1 hsin2 hcos1 hcos2
  refine ⟨_, ha, by norm_num, by norm_num, ?_⟩
  intro d hd
  have hsqrt : mathSqrt (1 - .finite (4503599627370497 / 4503599627370496)) = .nan := by
    decide!
  rw [calculateDistanceDouble_nan_of_sqrt_nan lib _ _ _ _ (by rw [ha, hsqrt])] at hd
  exact Double.noConfusion hd

/-- Witness for C27: with the library `tableMath` the quantity `a` of
`calculateDistance(8, -179, -8, 1)` is the double above 1. -/
theorem haversineADouble_antipodal_exceeds_one_witness :
    ∃ a : ℚ, haversineADouble tableMath 8 (-179) (-8) 1 = .finite a ∧ 1 < a ∧
      a = 1 + 1 / 2 ^ 52 ∧
      ∀ d : ℚ, calculateDistanceDouble tableMath 8 (-179) (-8) 1 ≠ .finite d :=
  haversineADouble_antipodal_exceeds_one tableMath (by decide!) (by decide!) (by decide!)
    (by decide!)

/-- C28: a successful `setActiveLocation(id, services)` keeps the number and
order of the locations and changes only flags of listed service types: for
every location, the location with the id included, the flag of every service
type that is not listed and the id, name, description, coordinates, radius,
address and the remaining columns are the same before and after. -/
theorem setActiveLocation_frame (locations ls1 : List ChurchLocation) (id : String)
    (services : Option (List String)) (loc : ChurchLocation)
    (h : setActiveLocation locations id services = (ls1, .activated loc)) :
    ∃ list, services = some list ∧ List.Forall₂ (sameExceptFlags list) locations ls1 := by
  obtain ⟨list, row, hsv, -, -, hls1, -⟩ := setActiveLocation_activated_inv h
  exact ⟨list, hsv, by rw [hls1]; exact activateFlags_frame id list locations⟩

/-- Witness for C28: Chiromo (L2, active on Friday) is activated for the Sabbath
service; Main Campus keeps its Wednesday flag and Chiromo its Friday flag, and
the names and radii are unchanged. -/
theorem setActiveLocation_frame_witness :
    ∃ list, some ["SABBATH_MORNING"] = some list ∧
      List.Forall₂ (sameExceptFlags list) [mainCampus, chiromo]
        [{ mainCampus with isActiveSabbath := false }, { chiromo with isActiveSabbath := true }] :=
  setActiveLocation_frame [mainCampus, chiromo]
    [{ mainCampus with isActiveSabbath := false }, { chiromo with isActiveSabbath := true }]
    "L2" (some ["SABBATH_MORNING"]) { chiromo with isActiveSabbath := true } (by decide)

/-- C29: for an existing location id and a non-empty list of services that
holds none of the names SABBATH_MORNING, WEDNESDAY_VESPERS, FRIDAY_VESPERS,
`setActiveLocation` passes the validation, leaves the table as it was and
answers with success (200) and the unchanged location; and two non-empty lists
that hold the same recognised names give the same result, whatever other names
they hold. -/
theorem setActiveLocation_unrecognised_names (locations : List ChurchLocation) (id : String)
    (row : ChurchLocation) (hrow : locations.find? (fun l => l.id == id) = some row) :
    (∀ list : List String, list ≠ [] → (∀ s : ServiceType, s.name ∉ list) →
      setActiveLocation locations id (some list) = (locations, .activated row) ∧
      (LocationResponse.activated row).status = 200) ∧
    (∀ list1 list2 : List String, list1 ≠ [] → list2 ≠ [] →
      (∀ s : ServiceType, s.name ∈ list1 ↔ s.name ∈ list2) →
      setActiveLocation locations id (some list1) =
        setActiveLocation locations id (some list2)) := by
  constructor
  · intro list hne hnone
    have heq : setActiveLocation locations id (some list) = (locations, .activated row) := by
      rw [setActiveLocation_nonempty locations id list hne,
        activateFlags_unrecognised id list locations hnone]
      simp only [hrow]
    exact ⟨heq, rfl⟩
  · intro list1 list2 h1 h2 hsame
    rw [setActiveLocation_nonempty locations id list1 h1,
      setActiveLocation_nonempty locations id list2 h2,
      activateFlags_congr id list1 list2 locations hsame]

/-- Witness for C29: activating Main Campus for the unknown service SUNDAY
changes nothing and succeeds; SUNDAY next to SABBATH_MORNING is ignored. -/
theorem setActiveLocation_unrecognised_names_witness :
    setActiveLocation [mainCampus, chiromo] "L1" (some ["SUNDAY"]) =
      ([mainCampus, chiromo], .activated mainCampus) ∧
    setActiveLocation [mainCampus, chiromo] "L2" (some ["SUNDAY", "SABBATH_MORNING"]) =
      setActiveLocation [mainCampus, chiromo] "L2" (some ["SABBATH_MORNING"]) :=
  ⟨((setActiveLocation_unrecognised_names [mainCampus, chiromo] "L1" mainCampus
      (by decide)).1 ["SUNDAY"] (by decide) (by intro s; cases s <;> decide)).1,
    (setActiveLocation_unrecognised_names [mainCampus, chiromo] "L2" chiromo (by decide)).2
      ["SUNDAY", "SABBATH_MORNING"] ["SABBATH_MORNING"] (by decide) (by decide)
      (by intro s; cases s <;> decide)⟩

/-- C30: for every email that a member has, `getMemberAttendance` answers with
the statistics of that member: `recentAttendances` are the first 50 of the
member's records ordered newest first, `totalAttendances` is the length of
`recentAttendances` (at most 50, also when the member has more records), the
counts in `byService` add up to `totalAttendances`, `byService[s]` is the
number of returned records with service type `s`, and a service type without a
returned record has no key. -/
theorem getMemberAttendance_statistics (st : State) (email : String) (member : Member)
    (hm : st.members.find? (fun m => m.email == email) = some member) :
    ∃ data : MemberAttendanceData,
      getMemberAttendance st email = .ok data ∧
      data.member = member ∧
      data.recentAttendances.length ≤ 50 ∧
      (∃ sorted : List Attendance,
        sorted.Perm (st.attendances.filter (fun a => a.memberId == member.id)) ∧
        sorted.Sorted newerFirst ∧ data.recentAttendances = sorted.take 50) ∧
      data.recentAttendances.Sorted newerFirst ∧
      data.totalAttendances = data.recentAttendances.length ∧
      data.totalAttendances =
        min 50 (st.attendances.countP (fun a => a.memberId == member.id)) ∧
      (data.byService.map (fun p => p.2)).sum = data.totalAttendances ∧
      (∀ s : ServiceType, serviceCount data.byService s =
        if data.recentAttendances.countP (fun a => a.serviceType == s) = 0 then none
        else some (data.recentAttendances.countP (fun a => a.serviceType == s))) ∧
      (∀ s : ServiceType, s ∈ data.byService.map (fun p => p.1) ↔
        0 < data.recentAttendances.countP (fun a => a.serviceType == s)) ∧
      (data.byService.map (fun p => p.1)).Nodup := by
  obtain ⟨h1, h2, h3⟩ := foldl_countService (includeAttendances st.attendances member.id 50) []
  have hlen : (includeAttendances st.attendances member.id 50).length ≤ 50 := by
    unfold includeAttendances
    exact List.length_take_le _ _
  have hsorted : ((st.attendances.filter (fun a => a.memberId == member.id)).insertionSort
      newerFirst).Sorted newerFirst := List.sorted_insertionSort _ _
  have hcount : ∀ s : ServiceType,
      serviceCount ((includeAttendances st.attendances member.id 50).foldl countService []) s =
        if (includeAttendances st.attendances member.id 50).countP
            (fun a => a.serviceType == s) = 0 then none
        else some ((includeAttendances st.attendances member.id 50).countP
          (fun a => a.serviceType == s)) := by
    intro s
    rw [h1 s]
    simp [serviceCount_nil]
  have htotal : (includeAttendances st.attendances member.id 50).length =
      min 50 (st.attendances.countP (fun a => a.memberId == member.id)) := by
    unfold includeAttendances
    rw [List.length_take, List.length_insertionSort, List.countP_eq_length_filter]
  refine ⟨_, by unfold getMemberAttendance; rw [hm], rfl, hlen,
    ⟨_, List.perm_insertionSort _ _, hsorted, rfl⟩, ?_, rfl, htotal, ?_, hcount, ?_,
    h3 (by simp)⟩
  · unfold includeAttendances
    exact List.Pairwise.sublist (List.take_sublist _ _) hsorted
  · rw [h2]
    simp
  · intro s
    rw [mem_keys_iff_serviceCount, hcount s]
    split_ifs with hc
    · simp [hc]
    · simp only [Option.isSome_some, true_iff]
      omega

/-- Witness for C30: Alice has 51 Sabbath records; her history is answered with
the 50 newest, the total 50 and the count 50 under SABBATH_MORNING, and there
is no key for the Wednesday vespers. -/
theorem getMemberAttendance_statistics_witness :
    ∃ data : MemberAttendanceData,
      getMemberAttendance busyState "alice@x.com" = .ok data ∧
      data.member = alice ∧
      data.recentAttendances.length = 50 ∧
      data.totalAttendances = 50 ∧
      data.byService = [(.SABBATH_MORNING, 50)] ∧
      serviceCount data.byService .WEDNESDAY_VESPERS = none ∧
      (data.recentAttendances.map (fun a => a.attendedAt)).head? =
        some (saturdayTen.utcMs + 50 * (7 * msPerDay)) := by
  obtain ⟨data, hrun, hmember, -, -, -, htotal, hcap, -, -, -, -⟩ :=
    getMemberAttendance_statistics busyState "alice@x.com" alice (by decide)
  have hdata : getMemberAttendance busyState "alice@x.com" =
      .ok { member := alice, totalAttendances := 50, byService := [(.SABBATH_MORNING, 50)],
            recentAttendances := includeAttendances busyState.attendances "m1" 50 } := by
    decide!
  have heq := hrun.symm.trans hdata
  simp only [MemberAttendanceResponse.ok.injEq] at heq
  subst heq
  exact ⟨_, hdata, rfl, by decide!, rfl, rfl, by decide!, by decide!⟩

end Uonsda
